import Mathlib

/-! # Diff suppression for SECURE trigger properties, and the CRUD functions

A shallow embedding of the diff-suppress closure declared in
`ibm/service/continuousdeliverypipeline/resource_ibm_tekton_pipeline_trigger_property.go`
together with the library functions it calls, and of the Create, Read, Update and
Delete functions of five resources (tekton pipeline trigger property, tekton
pipeline property, Secrets Manager tool, SonarQube tool, IAM account settings):

* Go strings are Lean strings, `[]byte(s)` is the UTF-8 encoding as a list of
  byte values (`Nat`, each below 256);
* `golang.org/x/crypto/sha3` (`New512`), `crypto/hmac`, `encoding/hex`,
  `strings.Join/Index/Count/Contains/Split` and `cmp.Equal` on strings follow
  their published definitions (FIPS 202, RFC 2104, the Go standard library);
* `schema.ResourceData` is threaded through the closure as explicit state, and a
  Go run-time panic (index out of range) is the result `none`;
* a CRUD function is a function of the session (the clients, each a function from
  the options of a request to the answer of the service) and of the state `Run`:
  the resource data and the list of the requests sent so far; its result is the
  diagnostics, or nothing after a panic (nil dereference, failed type assertion),
  with the state reached.
-/

namespace TerraformIBM

/-! ## Bytes -/

/-- Go conversion `[]byte(s)`: the UTF-8 encoding of the string. -/
def toBytes (s : String) : List Nat :=
  s.toList.flatMap fun c => (String.utf8EncodeChar c).map UInt8.toNat

/-! ## golang.org/x/crypto/sha3 : SHA3-512 (FIPS 202) -/

namespace sha3

/-- Round constants of Keccak-f[1600]. -/
def rc : List Nat :=
  [0x0000000000000001, 0x0000000000008082, 0x800000000000808A, 0x8000000080008000,
   0x000000000000808B, 0x0000000080000001, 0x8000000080008081, 0x8000000000008009,
   0x000000000000008A, 0x0000000000000088, 0x0000000080008009, 0x000000008000000A,
   0x000000008000808B, 0x800000000000008B, 0x8000000000008089, 0x8000000000008003,
   0x8000000000008002, 0x8000000000000080, 0x000000000000800A, 0x800000008000000A,
   0x8000000080008081, 0x8000000000008080, 0x0000000080000001, 0x8000000080008008]

/-- Rotation offsets of the rho step, for the lane with index `x + 5 * y`. -/
def rotc : List Nat :=
  [0, 1, 62, 28, 27,
   36, 44, 6, 55, 20,
   3, 10, 43, 25, 39,
   41, 45, 15, 21, 8,
   18, 2, 61, 56, 14]

/-- Mask of a 64-bit lane, `2 ^ 64 - 1`. -/
def mask64 : Nat := 0xFFFFFFFFFFFFFFFF

/-- Rotate a 64-bit lane left by `n` bits (`bits.RotateLeft64`). -/
def rotl64 (x n : Nat) : Nat :=
  Nat.land (Nat.lor (Nat.shiftLeft x n) (Nat.shiftRight x (Nat.sub 64 n))) mask64

/-- Lane `i` of the state; the 1600-bit state is one number, lane `x + 5 * y`
occupying bits `64 * i` up to `64 * i + 63`. -/
def lane (s i : Nat) : Nat := Nat.land (Nat.shiftRight s (Nat.mul 64 i)) mask64

/-- State whose lane `i` is `f i`, for `i < 25`. -/
def pack (f : Nat → Nat) : Nat :=
  (List.range 25).foldl (fun acc i => Nat.lor acc (Nat.shiftLeft (f i) (Nat.mul 64 i))) 0

/-- Column parity `C[x]` of the theta step. -/
def thetaC (s x : Nat) : Nat :=
  Nat.xor (Nat.xor (Nat.xor (Nat.xor (lane s x) (lane s (x + 5))) (lane s (x + 10)))
    (lane s (x + 15))) (lane s (x + 20))

/-- Value `D[x] = C[x-1] xor rot(C[x+1], 1)` of the theta step. -/
def thetaD (s x : Nat) : Nat :=
  Nat.xor (thetaC s ((x + 4) % 5)) (rotl64 (thetaC s ((x + 1) % 5)) 1)

/-- Step theta: `A[x,y] = A[x,y] xor D[x]`. -/
def theta (s : Nat) : Nat := pack fun i => Nat.xor (lane s i) (thetaD s (i % 5))

/-- Steps rho and pi: `B[y, 2x+3y] = rot(A[x,y], r[x,y])`; the lane written at
`(x, y)` is read from `(x + 3y, x)`. -/
def rhoPi (s : Nat) : Nat :=
  pack fun i =>
    let x := i % 5
    let y := i / 5
    let src := (x + 3 * y) % 5 + 5 * x
    rotl64 (lane s src) (rotc.getD src 0)

/-- Step chi: `A[x,y] = B[x,y] xor ((not B[x+1,y]) and B[x+2,y])`. -/
def chi (s : Nat) : Nat :=
  pack fun i =>
    let x := i % 5
    let y := i / 5
    Nat.xor (lane s i)
      (Nat.land (Nat.xor (lane s ((x + 1) % 5 + 5 * y)) mask64) (lane s ((x + 2) % 5 + 5 * y)))

/-- Step iota: the round constant is added to lane 0. -/
def iota (r : Nat) (s : Nat) : Nat := Nat.xor s (rc.getD r 0)

/-- One round of Keccak-f[1600]. -/
def round (s : Nat) (r : Nat) : Nat := iota r (chi (rhoPi (theta s)))

/-- Sequencing: `andThen s k` is `k s`, with `s` evaluated first. -/
def andThen (s : Nat) (k : Nat → Nat) : Nat :=
  match s with
  | 0 => k 0
  | n + 1 => k (n + 1)

/-- The rounds listed in `rs`, applied in order. -/
def rounds : List Nat → Nat → Nat
  | [], s => s
  | r :: rs, s => andThen (round s r) (rounds rs)

/-- The permutation Keccak-f[1600]: 24 rounds. -/
def keccakF1600 (s : Nat) : Nat := rounds (List.range 24) s

/-- Little-endian number of a block of bytes. -/
def blockNat (blk : List Nat) : Nat := blk.foldr (fun b acc => b + 256 * acc) 0

/-- Absorb one rate-sized block: xor it into the state and permute. -/
def absorbBlock (s : Nat) (blk : List Nat) : Nat := keccakF1600 (Nat.xor s (blockNat blk))

/-- Padding of SHA-3: the domain bits `0x06`, zero bytes, and a final `0x80`, up to
a multiple of the rate (one byte `0x86` when a single byte is missing). -/
def pad (rate : Nat) (msg : List Nat) : List Nat :=
  let q := rate - msg.length % rate
  if q = 1 then msg ++ [0x86] else msg ++ [0x06] ++ List.replicate (q - 2) 0 ++ [0x80]

/-- The first `n` blocks of `rate` bytes of `l`. -/
def chunks (rate : Nat) : Nat → List Nat → List (List Nat)
  | 0, _ => []
  | n + 1, l => l.take rate :: chunks rate n (l.drop rate)

/-- Rate of SHA3-512 in bytes. -/
def rate512 : Nat := 72

/-- The SHA3-512 digest (64 bytes) of a message. -/
def Sum512 (data : List Nat) : List Nat :=
  let p := pad rate512 data
  let st := (chunks rate512 (p.length / rate512) p).foldl absorbBlock 0
  (List.range 64).map fun i => (st >>> (8 * i)) % 256

end sha3

/-! ## hash.Hash and crypto/hmac (RFC 2104) -/

namespace hash

/-- What `crypto/hmac` uses of a `hash.Hash`: its block size, its output size and
the digest of the bytes written to it. -/
structure Hash where
  BlockSize : Nat
  Size : Nat
  digest : List Nat → List Nat

end hash

/-- The constructor `sha3.New512`. -/
def sha3.New512 : hash.Hash :=
  { BlockSize := sha3.rate512, Size := 64, digest := sha3.Sum512 }

namespace hmac

/-- The state of `hmac.New(h, key)`: the two pads and the bytes written so far. -/
structure HMAC where
  h : hash.Hash
  opad : List Nat
  ipad : List Nat
  written : List Nat

/-- The function `hmac.New`: a key longer than the block size is hashed first, the
key is copied into two zero blocks which are xored with `0x5c` and `0x36`. -/
def New (h : hash.Hash) (key : List Nat) : HMAC :=
  let key := if key.length > h.BlockSize then h.digest key else key
  let block := key ++ List.replicate (h.BlockSize - key.length) 0
  { h := h, opad := block.map (Nat.xor · 0x5c), ipad := block.map (Nat.xor · 0x36), written := [] }

/-- The method `Write` of the MAC. -/
def HMAC.Write (m : HMAC) (p : List Nat) : HMAC := { m with written := m.written ++ p }

/-- The method `Sum` of the MAC: `b` followed by `H(opad ++ H(ipad ++ written))`. -/
def HMAC.Sum (m : HMAC) (b : List Nat) : List Nat :=
  b ++ m.h.digest (m.opad ++ m.h.digest (m.ipad ++ m.written))

end hmac

/-! ## encoding/hex -/

namespace hex

/-- The table `hextable`. -/
def hextable : List Char := "0123456789abcdef".toList

/-- The function `hex.EncodeToString`: two lowercase digits per byte. -/
def EncodeToString (src : List Nat) : String :=
  String.mk (src.flatMap fun v => [hextable.getD (v >>> 4) '0', hextable.getD (v &&& 0x0f) '0'])

end hex

/-! ## strings -/

namespace strings

/-- The function `strings.Join`. -/
def Join : List String → String → String
  | [], _ => ""
  | [a], _ => a
  | a :: b :: rest, sep => a ++ sep ++ Join (b :: rest) sep

/-- Index of the first instance of `sep` in `s` (on characters), if any. -/
def indexOf (sep : List Char) : List Char → Option Nat
  | [] => if sep.isPrefixOf [] then some 0 else none
  | c :: cs => if sep.isPrefixOf (c :: cs) then some 0 else (indexOf sep cs).map (· + 1)

/-- The function `strings.Index`, with `none` for `-1`. -/
def Index (s substr : String) : Option Nat := indexOf substr.toList s.toList

/-- The function `strings.Contains`: `Index(s, substr) >= 0`. -/
def Contains (s substr : String) : Bool := (Index s substr).isSome

/-- The counting loop of `strings.Count` for a non-empty separator: find the next
instance, skip it, count one more. Every turn consumes a character, so
`fuel = len(s)` turns are enough. -/
def countLoop (sep : List Char) : Nat → List Char → Nat
  | 0, _ => 0
  | fuel + 1, s =>
    match indexOf sep s with
    | none => 0
    | some i => 1 + countLoop sep fuel (s.drop (i + sep.length))

/-- The function `strings.Count`: the number of non-overlapping instances of
`substr`, and the number of characters plus one for the empty `substr`. -/
def Count (s substr : String) : Nat :=
  if substr.toList = [] then s.length + 1 else countLoop substr.toList s.length s.toList

/-- The loop of `genSplit`: at most `n` cuts at the next instance of `sep`, then
the rest. -/
def genSplit (sep : List Char) : Nat → List Char → List (List Char)
  | 0, s => [s]
  | n + 1, s =>
    match indexOf sep s with
    | none => [s]
    | some m => s.take m :: genSplit sep n (s.drop (m + sep.length))

/-- The function `strings.Split`: `genSplit(s, sep, 0, -1)`, which explodes `s` into
its characters for the empty separator and otherwise cuts at the
`Count(s, sep)` instances of `sep`. -/
def Split (s sep : String) : List String :=
  if sep.toList = [] then s.toList.map fun c => String.mk [c]
  else (genSplit sep.toList (Count s sep) s.toList).map String.mk

end strings

/-- The function `cmp.Equal` of go-cmp at two strings. -/
def cmp.Equal (x y : String) : Bool := decide (x = y)

/-! ## flex -/

namespace flex

/-- Modelled from the spec: `flex.SepIdParts` (package `ibm/flex`) is called by the
resources and is not among the source files. The id is split on the separator
("Id encoding is simple string concatenation/splitting"); an id that does not
contain the separator gives the empty list of parts and an error, which is the
error the CRUD functions return and the diff-suppress closure discards. -/
def SepIdParts (id separator : String) : List String × Option String :=
  if strings.Contains id separator then
    (strings.Split id separator, none)
  else
    ([], some ("The given id " ++ id ++ " does not contain " ++ separator ++
      " please check documentation on how to provider id during import command"))

end flex

/-! ## terraform-plugin-sdk: schema -/

namespace schema

/-- The part of `schema.ResourceData` the resources read: the resource id, the
attributes by their flat key (`attrs`, the values now) and the attributes of the
prior state (`state`). -/
structure ResourceData where
  id : String
  attrs : List (String × String)
  state : List (String × String) := []
deriving DecidableEq

/-- The method `d.Id()`. -/
def ResourceData.Id (d : ResourceData) : String := d.id

/-- The method `d.Get(key)` at a string attribute: its value, and the zero value
`""` when it is not set. -/
def ResourceData.Get (d : ResourceData) (key : String) : String := (d.attrs.lookup key).getD ""

/-- The value types used by the trigger-property schema. -/
inductive ValueType where
  | TypeString
  | TypeList
deriving DecidableEq

/-- The type `schema.SchemaDiffSuppressFunc`, `func(k, old, new string, d *ResourceData) bool`:
the result is the boolean with the resource data after the call, and `none` when
the call panics. -/
abbrev SchemaDiffSuppressFunc : Type :=
  String → String → String → ResourceData → Option (Bool × ResourceData)

/-- The fields of `schema.Schema` that the trigger-property resource sets;
`ValidateFunc` holds the two arguments of `validate.InvokeValidator`. -/
structure Schema where
  Type_ : ValueType
  Required : Bool := false
  Optional : Bool := false
  ForceNew : Bool := false
  Computed : Bool := false
  ValidateFunc : Option (String × String) := none
  Description : String
  Elem : Option ValueType := none
  DiffSuppressFunc : Option SchemaDiffSuppressFunc := none

/-- The field `Schema` of a `schema.Resource`: the attributes by name. -/
structure Resource where
  Schema : List (String × Schema)

/-- The suppression test of `schemaMap.diff` for the attribute `attrK` with a diff
from `old` to `new`: the diff is dropped when the schema of that attribute has a
`DiffSuppressFunc` and it returns true at `(attrK, old, new, d)`. -/
def Resource.diffSuppressed (r : Resource) (attrK old new : String) (d : ResourceData) :
    Option Bool :=
  match r.Schema.lookup attrK with
  | none => some false
  | some s =>
    match s.DiffSuppressFunc with
    | none => some false
    | some f => (f attrK old new d).map Prod.fst

end schema

/-! ## resource_ibm_tekton_pipeline_trigger_property.go -/

set_option linter.unusedVariables false in
/-- The closure `DiffSuppressFunc` of lines 76-95. -/
def DiffSuppressFunc (k old new : String) (d : schema.ResourceData) :
    Option (Bool × schema.ResourceData) :=
  if d.Get "type" = "SECURE" then do
    let (parts, _) := flex.SepIdParts d.Id "/"
    let segs := [← parts[0]?, ← parts[1]?, d.Get "name"]
    let secret := strings.Join segs "."
    let mac := hmac.New sha3.New512 (toBytes secret)
    let mac := mac.Write (toBytes new)
    let secureHmac := hex.EncodeToString (mac.Sum [])
    let hasEnvChange := !cmp.Equal (strings.Join ["hash", "SHA3-512", secureHmac] ":") old
    if hasEnvChange then
      return (false, d)
    return (true, d)
  else do
    if old = new then
      return (true, d)
    return (false, d)

/-- The resource `ResourceIBMTektonPipelineTriggerProperty()`: its schema. -/
def ResourceIBMTektonPipelineTriggerProperty : schema.Resource :=
  { Schema := [
      ("pipeline_id",
        { Type_ := .TypeString, Required := true, ForceNew := true,
          ValidateFunc := some ("ibm_tekton_pipeline_trigger_property", "pipeline_id"),
          Description := "The tekton pipeline ID." }),
      ("trigger_id",
        { Type_ := .TypeString, Required := true, ForceNew := true,
          ValidateFunc := some ("ibm_tekton_pipeline_trigger_property", "trigger_id"),
          Description := "The trigger ID." }),
      ("name",
        { Type_ := .TypeString, Optional := true,
          ValidateFunc := some ("ibm_tekton_pipeline_trigger_property", "name"),
          Description := "Property name." }),
      ("value",
        { Type_ := .TypeString, Optional := true,
          ValidateFunc := some ("ibm_tekton_pipeline_trigger_property", "value"),
          Description := "String format property value." }),
      ("enum",
        { Type_ := .TypeList, Optional := true,
          Description := "Options for SINGLE_SELECT property type.",
          Elem := some .TypeString }),
      ("default",
        { Type_ := .TypeString, Optional := true,
          Description := "Default option for SINGLE_SELECT property type." }),
      ("type",
        { Type_ := .TypeString, Optional := true,
          ValidateFunc := some ("ibm_tekton_pipeline_trigger_property", "type"),
          Description := "Property type.",
          DiffSuppressFunc := some DiffSuppressFunc }),
      ("path",
        { Type_ := .TypeString, Optional := true,
          ValidateFunc := some ("ibm_tekton_pipeline_trigger_property", "path"),
          Description := "property path for INTEGRATION type properties." })] }

/-! ## The change detector in the words of the specification -/

/-- The expected record of the specification, steps 2b and 2c:
`"hash:SHA3-512:" + hex(HMAC-SHA3-512(key, candidate))`. -/
def expectedRecord (derivedKey candidatePlaintext : String) : String :=
  "hash:SHA3-512:" ++
    hex.EncodeToString
      (((hmac.New sha3.New512 (toBytes derivedKey)).Write (toBytes candidatePlaintext)).Sum [])

/-- The joined key of the specification, step 2a: the scope components joined
with `.`, in the order pipeline id, trigger id, property name. -/
def joinedKey (pipelineID triggerID propertyName : String) : String :=
  pipelineID ++ "." ++ triggerID ++ "." ++ propertyName

/-- The lexical format of a stored digest record for SHA3-512:
`hash:SHA3-512:` followed by 128 lowercase hexadecimal characters. -/
def IsDigestRecord (s : String) : Prop :=
  ∃ h : String, s = "hash:SHA3-512:" ++ h ∧ h.length = 128 ∧
    ∀ c ∈ h.toList, c ∈ "0123456789abcdef".toList

/-- Resource data of a trigger property with the given id, name and type. -/
def triggerProperty (id name type : String) : schema.ResourceData :=
  { id := id, attrs := [("name", name), ("type", type)] }

/-! ## Resource data with its prior state

`schema.ResourceData` keeps its attributes in the flat form of the SDK
(`"enum.#"`, `"enum.0"`, `"options.%"`, `"parameters.0.name"`): `attrs` holds the
current values and `state` the values of the prior state. -/

namespace schema

/-- Whether the flat key `k` belongs to the attribute `key`: it is `key` itself or
starts with `key` and a dot. -/
def belongsTo (key k : String) : Bool :=
  k == key || (key ++ ".").toList.isPrefixOf k.toList

/-- The method `d.HasChange(key)`: some flat key of the attribute has different
values in the prior state and now. -/
def ResourceData.HasChange (d : ResourceData) (key : String) : Bool :=
  (d.attrs ++ d.state).any fun e => belongsTo key e.1 && d.attrs.lookup e.1 != d.state.lookup e.1

/-- The second result of `d.GetOk(key)`: the attribute is set to something other
than its zero value (a non-empty string, a non-empty list or map). -/
def ResourceData.GetOk (d : ResourceData) (key : String) : Bool :=
  (d.attrs.lookup key).getD "" != "" ||
    (d.attrs.lookup (key ++ ".#")).getD "0" != "0" ||
    (d.attrs.lookup (key ++ ".%")).getD "0" != "0"

/-- The method `d.Get(key).(bool)` at a boolean attribute. -/
def ResourceData.GetBool (d : ResourceData) (key : String) : Bool :=
  (d.attrs.lookup key).getD "false" == "true"

/-- The entries of a map attribute (or of the object at `key`), without the
count. -/
def ResourceData.GetMap (d : ResourceData) (key : String) : List (String × String) :=
  (d.attrs.filter fun e =>
      (key ++ ".").toList.isPrefixOf e.1.toList && e.1 != key ++ ".%" && e.1 != key ++ ".#").map
    fun e => (String.mk (e.1.toList.drop (key ++ ".").length), e.2)

/-- The method `d.Set(key, value)`, for a value given in flat form: the flat keys of
the attribute are replaced by `entries`. -/
def ResourceData.Set (d : ResourceData) (key : String) (entries : List (String × String)) :
    ResourceData :=
  { d with attrs := entries ++ d.attrs.filter fun e => !belongsTo key e.1 }

/-- The method `d.SetId(id)`. -/
def ResourceData.SetId (d : ResourceData) (id : String) : ResourceData := { d with id := id }

end schema

/-! ### Flat form of the values passed to `d.Set` -/

namespace flat

/-- A `*string`: nothing for nil (the attribute takes its zero value). -/
def string (key : String) (v : Option String) : List (String × String) :=
  match v with
  | none => []
  | some s => [(key, s)]

/-- A `[]string`. -/
def strings (key : String) (l : List String) : List (String × String) :=
  (key ++ ".#", toString l.length) ::
    l.enum.map fun e => (key ++ "." ++ toString e.1, e.2)

/-- A map of strings. -/
def map (key : String) (m : List (String × String)) : List (String × String) :=
  (key ++ ".%", toString m.length) :: m.map fun e => (key ++ "." ++ e.1, e.2)

/-- A list of objects, each given by its own flat entries. -/
def objects (key : String) (l : List (List (String × String))) : List (String × String) :=
  (key ++ ".#", toString l.length) ::
    l.enum.flatMap fun e => e.2.map fun f => (key ++ "." ++ toString e.1 ++ "." ++ f.1, f.2)

end flat

/-! ## Errors, diagnostics, SDK responses -/

namespace core

/-- The type `core.DetailedResponse`, by its status code. -/
structure DetailedResponse where
  StatusCode : Nat
deriving DecidableEq

end core

namespace fmt

/-- An operand of `fmt.Errorf`: a string, an error (by its message) or a response. -/
inductive Arg where
  | str (s : String)
  | err (msg : String)
  | response (r : Option core.DetailedResponse)
deriving DecidableEq

/-- Substitution of the verbs `%s` by the string operands, in order. -/
def sprintf : List Char → List String → List Char
  | '%' :: 's' :: cs, a :: as => a.toList ++ sprintf cs as
  | c :: cs, as => c :: sprintf cs as
  | [], _ => []

/-- The function `fmt.Sprintf` for the verb `%s` and string operands. -/
def Sprintf (format : String) (a : List String) : String := String.mk (sprintf format.toList a)

end fmt

/-- A Go `error`: one returned by a library (the session, the SDK client,
`SepIdParts`), known by its message, or one built by `fmt.Errorf`. -/
inductive GoError where
  | lib (msg : String)
  | Errorf (format : String) (a : List fmt.Arg)
deriving DecidableEq

namespace diag

/-- The type `diag.Diagnostics` as the CRUD functions produce it: `nil`, or the one
error diagnostic of `diag.FromErr`. -/
abbrev Diagnostics : Type := Option GoError

/-- The function `diag.FromErr`. -/
def FromErr (err : GoError) : Diagnostics := some err

end diag

/-- The three results `(result, response, err)` of an SDK operation; `err` is the
message of the error. -/
abbrev SDKResult (α : Type) : Type := Option α × Option core.DetailedResponse × Option String

/-- The test `response != nil && response.StatusCode == 404`. -/
def is404 (response : Option core.DetailedResponse) : Bool :=
  match response with
  | none => false
  | some r => r.StatusCode == 404

/-- Values of a `map[string]interface{}` of parameters. -/
inductive Dyn where
  | nil
  | string (s : String)
  | bool (b : Bool)
  | stringPtr (s : String)
  | boolPtr (b : Bool)
  | strings (l : List String)
deriving DecidableEq

/-- A `*string` as an `interface{}`. -/
def Dyn.ofStringPtr (p : Option String) : Dyn :=
  match p with
  | none => Dyn.nil
  | some s => Dyn.stringPtr s

/-- A `map[string]interface{}`, as the list of its entries. -/
abbrev DynMap : Type := List (String × Dyn)

/-- The index expression `m[key]`: `nil` for a missing key. -/
def DynMap.get (m : DynMap) (key : String) : Dyn := (m.lookup key).getD Dyn.nil

/-- The assignment `m[key] = v`. -/
def DynMap.set (m : DynMap) (key : String) (v : Dyn) : DynMap :=
  (m.filter fun e => e.1 != key) ++ [(key, v)]

/-- The type assertion `v.(string)`: it panics for any other dynamic type. -/
def Dyn.assertString (v : Dyn) : Option String :=
  match v with
  | Dyn.string s => some s
  | _ => none

/-- The type assertion `v.(bool)`. -/
def Dyn.assertBool (v : Dyn) : Option Bool :=
  match v with
  | Dyn.bool b => some b
  | _ => none

/-- Flat form of a value under the key `key`, as `d.Set` stores it. -/
def Dyn.flat (key : String) (v : Dyn) : List (String × String) :=
  match v with
  | Dyn.nil => []
  | Dyn.string s => [(key, s)]
  | Dyn.stringPtr s => [(key, s)]
  | Dyn.bool b => [(key, toString b)]
  | Dyn.boolPtr b => [(key, toString b)]
  | Dyn.strings l => flat.strings key l

/-- Flat entries of a `map[string]interface{}`, for an element of a list of objects. -/
def DynMap.flat (m : DynMap) : List (String × String) :=
  m.flatMap fun e => Dyn.flat e.1 e.2

/-- The value `d.Get(key).(map[string]interface{})` of an object: every field of its
schema with its value, the zero value when it is not set. -/
def schema.ResourceData.GetObject (d : schema.ResourceData) (key : String)
    (stringFields boolFields : List String) : DynMap :=
  (stringFields.map fun f => (f, Dyn.string ((d.attrs.lookup (key ++ "." ++ f)).getD ""))) ++
    boolFields.map fun f => (f, Dyn.bool ((d.attrs.lookup (key ++ "." ++ f)).getD "false" == "true"))

/-! ## SDK models: continuousdeliverypipelinev2 -/

namespace continuousdeliverypipelinev2

/-- The options of `CreateTektonPipelineTriggerProperties`. -/
structure CreateTektonPipelineTriggerPropertiesOptions where
  PipelineID : Option String := none
  TriggerID : Option String := none
  Name : Option String := none
  Value : Option String := none
  Enum : Option (List String) := none
  Default : Option String := none
  Type_ : Option String := none
  Path : Option String := none
deriving DecidableEq

/-- The setter `SetPipelineID`. -/
@[simp]
def CreateTektonPipelineTriggerPropertiesOptions.SetPipelineID (o : CreateTektonPipelineTriggerPropertiesOptions)
    (v : String) : CreateTektonPipelineTriggerPropertiesOptions :=
  { o with PipelineID := some v }

/-- The setter `SetTriggerID`. -/
@[simp]
def CreateTektonPipelineTriggerPropertiesOptions.SetTriggerID (o : CreateTektonPipelineTriggerPropertiesOptions)
    (v : String) : CreateTektonPipelineTriggerPropertiesOptions :=
  { o with TriggerID := some v }

/-- The setter `SetName`. -/
@[simp]
def CreateTektonPipelineTriggerPropertiesOptions.SetName (o : CreateTektonPipelineTriggerPropertiesOptions)
    (v : String) : CreateTektonPipelineTriggerPropertiesOptions :=
  { o with Name := some v }

/-- The setter `SetValue`. -/
@[simp]
def CreateTektonPipelineTriggerPropertiesOptions.SetValue (o : CreateTektonPipelineTriggerPropertiesOptions)
    (v : String) : CreateTektonPipelineTriggerPropertiesOptions :=
  { o with Value := some v }

/-- The setter `SetEnum`. -/
@[simp]
def CreateTektonPipelineTriggerPropertiesOptions.SetEnum (o : CreateTektonPipelineTriggerPropertiesOptions)
    (v : List String) : CreateTektonPipelineTriggerPropertiesOptions :=
  { o with Enum := some v }

/-- The setter `SetDefault`. -/
@[simp]
def CreateTektonPipelineTriggerPropertiesOptions.SetDefault (o : CreateTektonPipelineTriggerPropertiesOptions)
    (v : String) : CreateTektonPipelineTriggerPropertiesOptions :=
  { o with Default := some v }

/-- The setter `SetType`. -/
@[simp]
def CreateTektonPipelineTriggerPropertiesOptions.SetType (o : CreateTektonPipelineTriggerPropertiesOptions)
    (v : String) : CreateTektonPipelineTriggerPropertiesOptions :=
  { o with Type_ := some v }

/-- The setter `SetPath`. -/
@[simp]
def CreateTektonPipelineTriggerPropertiesOptions.SetPath (o : CreateTektonPipelineTriggerPropertiesOptions)
    (v : String) : CreateTektonPipelineTriggerPropertiesOptions :=
  { o with Path := some v }

/-- The options of `GetTektonPipelineTriggerProperty`. -/
structure GetTektonPipelineTriggerPropertyOptions where
  PipelineID : Option String := none
  TriggerID : Option String := none
  PropertyName : Option String := none
deriving DecidableEq

/-- The setter `SetPipelineID`. -/
@[simp]
def GetTektonPipelineTriggerPropertyOptions.SetPipelineID (o : GetTektonPipelineTriggerPropertyOptions)
    (v : String) : GetTektonPipelineTriggerPropertyOptions :=
  { o with PipelineID := some v }

/-- The setter `SetTriggerID`. -/
@[simp]
def GetTektonPipelineTriggerPropertyOptions.SetTriggerID (o : GetTektonPipelineTriggerPropertyOptions)
    (v : String) : GetTektonPipelineTriggerPropertyOptions :=
  { o with TriggerID := some v }

/-- The setter `SetPropertyName`. -/
@[simp]
def GetTektonPipelineTriggerPropertyOptions.SetPropertyName (o : GetTektonPipelineTriggerPropertyOptions)
    (v : String) : GetTektonPipelineTriggerPropertyOptions :=
  { o with PropertyName := some v }

/-- The options of `ReplaceTektonPipelineTriggerProperty`. -/
structure ReplaceTektonPipelineTriggerPropertyOptions where
  PipelineID : Option String := none
  TriggerID : Option String := none
  PropertyName : Option String := none
  Name : Option String := none
  Value : Option String := none
  Enum : Option (List String) := none
  Default : Option String := none
  Type_ : Option String := none
  Path : Option String := none
deriving DecidableEq

/-- The setter `SetPipelineID`. -/
@[simp]
def ReplaceTektonPipelineTriggerPropertyOptions.SetPipelineID (o : ReplaceTektonPipelineTriggerPropertyOptions)
    (v : String) : ReplaceTektonPipelineTriggerPropertyOptions :=
  { o with PipelineID := some v }

/-- The setter `SetTriggerID`. -/
@[simp]
def ReplaceTektonPipelineTriggerPropertyOptions.SetTriggerID (o : ReplaceTektonPipelineTriggerPropertyOptions)
    (v : String) : ReplaceTektonPipelineTriggerPropertyOptions :=
  { o with TriggerID := some v }

/-- The setter `SetPropertyName`. -/
@[simp]
def ReplaceTektonPipelineTriggerPropertyOptions.SetPropertyName (o : ReplaceTektonPipelineTriggerPropertyOptions)
    (v : String) : ReplaceTektonPipelineTriggerPropertyOptions :=
  { o with PropertyName := some v }

/-- The setter `SetName`. -/
@[simp]
def ReplaceTektonPipelineTriggerPropertyOptions.SetName (o : ReplaceTektonPipelineTriggerPropertyOptions)
    (v : String) : ReplaceTektonPipelineTriggerPropertyOptions :=
  { o with Name := some v }

/-- The setter `SetValue`. -/
@[simp]
def ReplaceTektonPipelineTriggerPropertyOptions.SetValue (o : ReplaceTektonPipelineTriggerPropertyOptions)
    (v : String) : ReplaceTektonPipelineTriggerPropertyOptions :=
  { o with Value := some v }

/-- The setter `SetEnum`. -/
@[simp]
def ReplaceTektonPipelineTriggerPropertyOptions.SetEnum (o : ReplaceTektonPipelineTriggerPropertyOptions)
    (v : List String) : ReplaceTektonPipelineTriggerPropertyOptions :=
  { o with Enum := some v }

/-- The setter `SetDefault`. -/
@[simp]
def ReplaceTektonPipelineTriggerPropertyOptions.SetDefault (o : ReplaceTektonPipelineTriggerPropertyOptions)
    (v : String) : ReplaceTektonPipelineTriggerPropertyOptions :=
  { o with Default := some v }

/-- The setter `SetType`. -/
@[simp]
def ReplaceTektonPipelineTriggerPropertyOptions.SetType (o : ReplaceTektonPipelineTriggerPropertyOptions)
    (v : String) : ReplaceTektonPipelineTriggerPropertyOptions :=
  { o with Type_ := some v }

/-- The setter `SetPath`. -/
@[simp]
def ReplaceTektonPipelineTriggerPropertyOptions.SetPath (o : ReplaceTektonPipelineTriggerPropertyOptions)
    (v : String) : ReplaceTektonPipelineTriggerPropertyOptions :=
  { o with Path := some v }

/-- The options of `DeleteTektonPipelineTriggerProperty`. -/
structure DeleteTektonPipelineTriggerPropertyOptions where
  PipelineID : Option String := none
  TriggerID : Option String := none
  PropertyName : Option String := none
deriving DecidableEq

/-- The setter `SetPipelineID`. -/
@[simp]
def DeleteTektonPipelineTriggerPropertyOptions.SetPipelineID (o : DeleteTektonPipelineTriggerPropertyOptions)
    (v : String) : DeleteTektonPipelineTriggerPropertyOptions :=
  { o with PipelineID := some v }

/-- The setter `SetTriggerID`. -/
@[simp]
def DeleteTektonPipelineTriggerPropertyOptions.SetTriggerID (o : DeleteTektonPipelineTriggerPropertyOptions)
    (v : String) : DeleteTektonPipelineTriggerPropertyOptions :=
  { o with TriggerID := some v }

/-- The setter `SetPropertyName`. -/
@[simp]
def DeleteTektonPipelineTriggerPropertyOptions.SetPropertyName (o : DeleteTektonPipelineTriggerPropertyOptions)
    (v : String) : DeleteTektonPipelineTriggerPropertyOptions :=
  { o with PropertyName := some v }

/-- The model `TriggerProperty` of a response; its fields are pointers. -/
structure TriggerProperty where
  Name : Option String := none
  Value : Option String := none
  Enum : Option (List String) := none
  Default : Option String := none
  Type_ : Option String := none
  Path : Option String := none
deriving DecidableEq

/-- The options of `CreateTektonPipelineProperties`. -/
structure CreateTektonPipelinePropertiesOptions where
  PipelineID : Option String := none
  Name : Option String := none
  Value : Option String := none
  Options : Option (List (String × String)) := none
  Type_ : Option String := none
  Path : Option String := none
deriving DecidableEq

/-- The setter `SetPipelineID`. -/
@[simp]
def CreateTektonPipelinePropertiesOptions.SetPipelineID (o : CreateTektonPipelinePropertiesOptions)
    (v : String) : CreateTektonPipelinePropertiesOptions :=
  { o with PipelineID := some v }

/-- The setter `SetName`. -/
@[simp]
def CreateTektonPipelinePropertiesOptions.SetName (o : CreateTektonPipelinePropertiesOptions)
    (v : String) : CreateTektonPipelinePropertiesOptions :=
  { o with Name := some v }

/-- The setter `SetValue`. -/
@[simp]
def CreateTektonPipelinePropertiesOptions.SetValue (o : CreateTektonPipelinePropertiesOptions)
    (v : String) : CreateTektonPipelinePropertiesOptions :=
  { o with Value := some v }

/-- The setter `SetOptions`. -/
@[simp]
def CreateTektonPipelinePropertiesOptions.SetOptions (o : CreateTektonPipelinePropertiesOptions) (v : List (String × String)) : CreateTektonPipelinePropertiesOptions :=
  { o with Options := some v }

/-- The setter `SetType`. -/
@[simp]
def CreateTektonPipelinePropertiesOptions.SetType (o : CreateTektonPipelinePropertiesOptions)
    (v : String) : CreateTektonPipelinePropertiesOptions :=
  { o with Type_ := some v }

/-- The setter `SetPath`. -/
@[simp]
def CreateTektonPipelinePropertiesOptions.SetPath (o : CreateTektonPipelinePropertiesOptions)
    (v : String) : CreateTektonPipelinePropertiesOptions :=
  { o with Path := some v }

/-- The options of `GetTektonPipelineProperty`. -/
structure GetTektonPipelinePropertyOptions where
  PipelineID : Option String := none
  PropertyName : Option String := none
deriving DecidableEq

/-- The setter `SetPipelineID`. -/
@[simp]
def GetTektonPipelinePropertyOptions.SetPipelineID (o : GetTektonPipelinePropertyOptions)
    (v : String) : GetTektonPipelinePropertyOptions :=
  { o with PipelineID := some v }

/-- The setter `SetPropertyName`. -/
@[simp]
def GetTektonPipelinePropertyOptions.SetPropertyName (o : GetTektonPipelinePropertyOptions)
    (v : String) : GetTektonPipelinePropertyOptions :=
  { o with PropertyName := some v }

/-- The options of `ReplaceTektonPipelineProperty`. -/
structure ReplaceTektonPipelinePropertyOptions where
  PipelineID : Option String := none
  PropertyName : Option String := none
  Name : Option String := none
  Value : Option String := none
  Options : Option (List (String × String)) := none
  Type_ : Option String := none
  Path : Option String := none
deriving DecidableEq

/-- The setter `SetPipelineID`. -/
@[simp]
def ReplaceTektonPipelinePropertyOptions.SetPipelineID (o : ReplaceTektonPipelinePropertyOptions)
    (v : String) : ReplaceTektonPipelinePropertyOptions :=
  { o with PipelineID := some v }

/-- The setter `SetPropertyName`. -/
@[simp]
def ReplaceTektonPipelinePropertyOptions.SetPropertyName (o : ReplaceTektonPipelinePropertyOptions)
    (v : String) : ReplaceTektonPipelinePropertyOptions :=
  { o with PropertyName := some v }

/-- The setter `SetName`. -/
@[simp]
def ReplaceTektonPipelinePropertyOptions.SetName (o : ReplaceTektonPipelinePropertyOptions)
    (v : String) : ReplaceTektonPipelinePropertyOptions :=
  { o with Name := some v }

/-- The setter `SetValue`. -/
@[simp]
def ReplaceTektonPipelinePropertyOptions.SetValue (o : ReplaceTektonPipelinePropertyOptions)
    (v : String) : ReplaceTektonPipelinePropertyOptions :=
  { o with Value := some v }

/-- The setter `SetOptions`. -/
@[simp]
def ReplaceTektonPipelinePropertyOptions.SetOptions (o : ReplaceTektonPipelinePropertyOptions) (v : List (String × String)) : ReplaceTektonPipelinePropertyOptions :=
  { o with Options := some v }

/-- The setter `SetType`. -/
@[simp]
def ReplaceTektonPipelinePropertyOptions.SetType (o : ReplaceTektonPipelinePropertyOptions)
    (v : String) : ReplaceTektonPipelinePropertyOptions :=
  { o with Type_ := some v }

/-- The setter `SetPath`. -/
@[simp]
def ReplaceTektonPipelinePropertyOptions.SetPath (o : ReplaceTektonPipelinePropertyOptions)
    (v : String) : ReplaceTektonPipelinePropertyOptions :=
  { o with Path := some v }

/-- The options of `DeleteTektonPipelineProperty`. -/
structure DeleteTektonPipelinePropertyOptions where
  PipelineID : Option String := none
  PropertyName : Option String := none
deriving DecidableEq

/-- The setter `SetPipelineID`. -/
@[simp]
def DeleteTektonPipelinePropertyOptions.SetPipelineID (o : DeleteTektonPipelinePropertyOptions)
    (v : String) : DeleteTektonPipelinePropertyOptions :=
  { o with PipelineID := some v }

/-- The setter `SetPropertyName`. -/
@[simp]
def DeleteTektonPipelinePropertyOptions.SetPropertyName (o : DeleteTektonPipelinePropertyOptions)
    (v : String) : DeleteTektonPipelinePropertyOptions :=
  { o with PropertyName := some v }

/-- The model `Property` of a response; its fields are pointers. -/
structure Property where
  Name : Option String := none
  Value : Option String := none
  Options : Option (List (String × String)) := none
  Type_ : Option String := none
  Path : Option String := none
deriving DecidableEq
end continuousdeliverypipelinev2

/-! ## SDK models: toolchainv2 -/

namespace toolchainv2

/-- The options of `PostIntegration`. -/
structure PostIntegrationOptions where
  ToolchainID : Option String := none
  ToolID : Option String := none
  Name : Option String := none
  Parameters : Option DynMap := none
deriving DecidableEq

/-- The setter `SetToolchainID`. -/
@[simp]
def PostIntegrationOptions.SetToolchainID (o : PostIntegrationOptions)
    (v : String) : PostIntegrationOptions :=
  { o with ToolchainID := some v }

/-- The setter `SetToolID`. -/
@[simp]
def PostIntegrationOptions.SetToolID (o : PostIntegrationOptions)
    (v : String) : PostIntegrationOptions :=
  { o with ToolID := some v }

/-- The setter `SetName`. -/
@[simp]
def PostIntegrationOptions.SetName (o : PostIntegrationOptions)
    (v : String) : PostIntegrationOptions :=
  { o with Name := some v }

/-- The setter `SetParameters`. -/
@[simp]
def PostIntegrationOptions.SetParameters (o : PostIntegrationOptions)
    (v : DynMap) : PostIntegrationOptions :=
  { o with Parameters := some v }

/-- The options of `GetIntegrationByID`. -/
structure GetIntegrationByIdOptions where
  ToolchainID : Option String := none
  IntegrationID : Option String := none
deriving DecidableEq

/-- The setter `SetToolchainID`. -/
@[simp]
def GetIntegrationByIdOptions.SetToolchainID (o : GetIntegrationByIdOptions)
    (v : String) : GetIntegrationByIdOptions :=
  { o with ToolchainID := some v }

/-- The setter `SetIntegrationID`. -/
@[simp]
def GetIntegrationByIdOptions.SetIntegrationID (o : GetIntegrationByIdOptions)
    (v : String) : GetIntegrationByIdOptions :=
  { o with IntegrationID := some v }

/-- The options of `PatchToolIntegration`. -/
structure PatchToolIntegrationOptions where
  ToolchainID : Option String := none
  IntegrationID : Option String := none
  ToolID : Option String := none
  Name : Option String := none
  Parameters : Option DynMap := none
deriving DecidableEq

/-- The setter `SetToolchainID`. -/
@[simp]
def PatchToolIntegrationOptions.SetToolchainID (o : PatchToolIntegrationOptions)
    (v : String) : PatchToolIntegrationOptions :=
  { o with ToolchainID := some v }

/-- The setter `SetIntegrationID`. -/
@[simp]
def PatchToolIntegrationOptions.SetIntegrationID (o : PatchToolIntegrationOptions)
    (v : String) : PatchToolIntegrationOptions :=
  { o with IntegrationID := some v }

/-- The setter `SetToolID`. -/
@[simp]
def PatchToolIntegrationOptions.SetToolID (o : PatchToolIntegrationOptions)
    (v : String) : PatchToolIntegrationOptions :=
  { o with ToolID := some v }

/-- The setter `SetName`. -/
@[simp]
def PatchToolIntegrationOptions.SetName (o : PatchToolIntegrationOptions)
    (v : String) : PatchToolIntegrationOptions :=
  { o with Name := some v }

/-- The setter `SetParameters`. -/
@[simp]
def PatchToolIntegrationOptions.SetParameters (o : PatchToolIntegrationOptions)
    (v : DynMap) : PatchToolIntegrationOptions :=
  { o with Parameters := some v }

/-- The options of `DeleteToolIntegration`. -/
structure DeleteToolIntegrationOptions where
  ToolchainID : Option String := none
  IntegrationID : Option String := none
deriving DecidableEq

/-- The setter `SetToolchainID`. -/
@[simp]
def DeleteToolIntegrationOptions.SetToolchainID (o : DeleteToolIntegrationOptions)
    (v : String) : DeleteToolIntegrationOptions :=
  { o with ToolchainID := some v }

/-- The setter `SetIntegrationID`. -/
@[simp]
def DeleteToolIntegrationOptions.SetIntegrationID (o : DeleteToolIntegrationOptions)
    (v : String) : DeleteToolIntegrationOptions :=
  { o with IntegrationID := some v }

/-- The model `PostIntegrationResponse`. -/
structure PostIntegrationResponse where
  ID : Option String := none
deriving DecidableEq

/-- The model `GetIntegrationByIdResponseReferent`. -/
structure GetIntegrationByIdResponseReferent where
  UiHref : Option String := none
  ApiHref : Option String := none
deriving DecidableEq

/-- The model `GetIntegrationByIdResponse`; `UpdatedAt` is the date-time as text. -/
structure GetIntegrationByIdResponse where
  ID : Option String := none
  ToolchainID : Option String := none
  Name : Option String := none
  Parameters : Option DynMap := none
  ResourceGroupID : Option String := none
  Crn : Option String := none
  ToolchainCrn : Option String := none
  Href : Option String := none
  Referent : Option GetIntegrationByIdResponseReferent := none
  UpdatedAt : Option String := none
  State : Option String := none
deriving DecidableEq
end toolchainv2

/-! ## SDK models: ibmtoolchainapiv2 -/

namespace ibmtoolchainapiv2

/-- The model `Container`. -/
structure Container where
  Guid : Option String := none
  Type_ : Option String := none
deriving DecidableEq

/-- The options of `CreateServiceInstance`. -/
structure CreateServiceInstanceOptions where
  ServiceID : Option String := none
  ToolchainID : Option String := none
  Parameters : Option DynMap := none
  Container : Option Container := none
deriving DecidableEq

/-- The setter `SetServiceID`. -/
@[simp]
def CreateServiceInstanceOptions.SetServiceID (o : CreateServiceInstanceOptions)
    (v : String) : CreateServiceInstanceOptions :=
  { o with ServiceID := some v }

/-- The setter `SetToolchainID`. -/
@[simp]
def CreateServiceInstanceOptions.SetToolchainID (o : CreateServiceInstanceOptions)
    (v : String) : CreateServiceInstanceOptions :=
  { o with ToolchainID := some v }

/-- The setter `SetParameters`. -/
@[simp]
def CreateServiceInstanceOptions.SetParameters (o : CreateServiceInstanceOptions)
    (v : DynMap) : CreateServiceInstanceOptions :=
  { o with Parameters := some v }

/-- The setter `SetContainer`. -/
@[simp]
def CreateServiceInstanceOptions.SetContainer (o : CreateServiceInstanceOptions)
    (v : ibmtoolchainapiv2.Container) : CreateServiceInstanceOptions :=
  { o with Container := some v }

/-- The options of `GetServiceInstance`. -/
structure GetServiceInstanceOptions where
  ServiceInstanceID : Option String := none
deriving DecidableEq

/-- The setter `SetServiceInstanceID`. -/
@[simp]
def GetServiceInstanceOptions.SetServiceInstanceID (o : GetServiceInstanceOptions)
    (v : String) : GetServiceInstanceOptions :=
  { o with ServiceInstanceID := some v }

/-- The options of `PatchServiceInstance`. -/
structure PatchServiceInstanceOptions where
  ServiceID : Option String := none
  ServiceInstanceID : Option String := none
  Parameters : Option DynMap := none
deriving DecidableEq

/-- The setter `SetServiceID`. -/
@[simp]
def PatchServiceInstanceOptions.SetServiceID (o : PatchServiceInstanceOptions)
    (v : String) : PatchServiceInstanceOptions :=
  { o with ServiceID := some v }

/-- The setter `SetServiceInstanceID`. -/
@[simp]
def PatchServiceInstanceOptions.SetServiceInstanceID (o : PatchServiceInstanceOptions)
    (v : String) : PatchServiceInstanceOptions :=
  { o with ServiceInstanceID := some v }

/-- The setter `SetParameters`. -/
@[simp]
def PatchServiceInstanceOptions.SetParameters (o : PatchServiceInstanceOptions)
    (v : DynMap) : PatchServiceInstanceOptions :=
  { o with Parameters := some v }

/-- The options of `DeleteServiceInstance`. -/
structure DeleteServiceInstanceOptions where
  ServiceInstanceID : Option String := none
deriving DecidableEq

/-- The setter `SetServiceInstanceID`. -/
@[simp]
def DeleteServiceInstanceOptions.SetServiceInstanceID (o : DeleteServiceInstanceOptions)
    (v : String) : DeleteServiceInstanceOptions :=
  { o with ServiceInstanceID := some v }

/-- The model `ServiceResponse`. -/
structure ServiceResponse where
  InstanceID : Option String := none
  ToolchainID : Option String := none
  Parameters : Option DynMap := none
  Container : Option Container := none
  DashboardURL : Option String := none
deriving DecidableEq
end ibmtoolchainapiv2

/-! ## SDK models: iamidentityv1 -/

namespace iamidentityv1

/-- The options of `GetAccountSettings`. -/
structure GetAccountSettingsOptions where
  AccountID : Option String := none
  IncludeHistory : Option Bool := none
deriving DecidableEq

/-- The setter `SetAccountID`. -/
@[simp]
def GetAccountSettingsOptions.SetAccountID (o : GetAccountSettingsOptions)
    (v : String) : GetAccountSettingsOptions :=
  { o with AccountID := some v }

/-- The setter `SetIncludeHistory`. -/
@[simp]
def GetAccountSettingsOptions.SetIncludeHistory (o : GetAccountSettingsOptions)
    (v : Bool) : GetAccountSettingsOptions :=
  { o with IncludeHistory := some v }

/-- The options of `UpdateAccountSettings`. -/
structure UpdateAccountSettingsOptions where
  AccountID : Option String := none
  IfMatch : Option String := none
  RestrictCreateServiceID : Option String := none
  RestrictCreatePlatformApikey : Option String := none
  Mfa : Option String := none
  SessionExpirationInSeconds : Option String := none
  SessionInvalidationInSeconds : Option String := none
deriving DecidableEq

/-- The setter `SetAccountID`. -/
@[simp]
def UpdateAccountSettingsOptions.SetAccountID (o : UpdateAccountSettingsOptions)
    (v : String) : UpdateAccountSettingsOptions :=
  { o with AccountID := some v }

/-- The setter `SetIfMatch`. -/
@[simp]
def UpdateAccountSettingsOptions.SetIfMatch (o : UpdateAccountSettingsOptions)
    (v : String) : UpdateAccountSettingsOptions :=
  { o with IfMatch := some v }

/-- The setter `SetRestrictCreateServiceID`. -/
@[simp]
def UpdateAccountSettingsOptions.SetRestrictCreateServiceID (o : UpdateAccountSettingsOptions)
    (v : String) : UpdateAccountSettingsOptions :=
  { o with RestrictCreateServiceID := some v }

/-- The setter `SetRestrictCreatePlatformApikey`. -/
@[simp]
def UpdateAccountSettingsOptions.SetRestrictCreatePlatformApikey (o : UpdateAccountSettingsOptions)
    (v : String) : UpdateAccountSettingsOptions :=
  { o with RestrictCreatePlatformApikey := some v }

/-- The setter `SetMfa`. -/
@[simp]
def UpdateAccountSettingsOptions.SetMfa (o : UpdateAccountSettingsOptions)
    (v : String) : UpdateAccountSettingsOptions :=
  { o with Mfa := some v }

/-- The setter `SetSessionExpirationInSeconds`. -/
@[simp]
def UpdateAccountSettingsOptions.SetSessionExpirationInSeconds (o : UpdateAccountSettingsOptions)
    (v : String) : UpdateAccountSettingsOptions :=
  { o with SessionExpirationInSeconds := some v }

/-- The setter `SetSessionInvalidationInSeconds`. -/
@[simp]
def UpdateAccountSettingsOptions.SetSessionInvalidationInSeconds (o : UpdateAccountSettingsOptions)
    (v : String) : UpdateAccountSettingsOptions :=
  { o with SessionInvalidationInSeconds := some v }

/-- The model `ResponseContext`. -/
structure ResponseContext where
  TransactionID : Option String := none
  Operation : Option String := none
  UserAgent : Option String := none
  URL : Option String := none
  InstanceID : Option String := none
  ThreadID : Option String := none
  Host : Option String := none
  StartTime : Option String := none
  EndTime : Option String := none
  ElapsedTime : Option String := none
  ClusterName : Option String := none
deriving DecidableEq

/-- The model `EnityHistoryRecord`; `Params` is a slice, nil when absent. -/
structure EnityHistoryRecord where
  Timestamp : Option String := none
  IamID : Option String := none
  IamIDAccount : Option String := none
  Action : Option String := none
  Params : Option (List String) := none
  Message : Option String := none
deriving DecidableEq

/-- The model `AccountSettingsResponse`; `History` is a slice, nil when absent. -/
structure AccountSettingsResponse where
  Context : Option ResponseContext := none
  AccountID : Option String := none
  RestrictCreateServiceID : Option String := none
  RestrictCreatePlatformApikey : Option String := none
  AllowedIPAddresses : Option String := none
  EntityTag : Option String := none
  Mfa : Option String := none
  History : Option (List EnityHistoryRecord) := none
  SessionExpirationInSeconds : Option String := none
  SessionInvalidationInSeconds : Option String := none
deriving DecidableEq
end iamidentityv1

/-! ## The service clients and the run of a CRUD function -/

open continuousdeliverypipelinev2 toolchainv2 ibmtoolchainapiv2 iamidentityv1

/-- A request sent to a service: the operation with its options. -/
inductive Call where
  | CreateTektonPipelineTriggerProperties (o : CreateTektonPipelineTriggerPropertiesOptions)
  | GetTektonPipelineTriggerProperty (o : GetTektonPipelineTriggerPropertyOptions)
  | ReplaceTektonPipelineTriggerProperty (o : ReplaceTektonPipelineTriggerPropertyOptions)
  | DeleteTektonPipelineTriggerProperty (o : DeleteTektonPipelineTriggerPropertyOptions)
  | CreateTektonPipelineProperties (o : CreateTektonPipelinePropertiesOptions)
  | GetTektonPipelineProperty (o : GetTektonPipelinePropertyOptions)
  | ReplaceTektonPipelineProperty (o : ReplaceTektonPipelinePropertyOptions)
  | DeleteTektonPipelineProperty (o : DeleteTektonPipelinePropertyOptions)
  | PostIntegration (o : PostIntegrationOptions)
  | GetIntegrationByID (o : GetIntegrationByIdOptions)
  | PatchToolIntegration (o : PatchToolIntegrationOptions)
  | DeleteToolIntegration (o : DeleteToolIntegrationOptions)
  | CreateServiceInstance (o : CreateServiceInstanceOptions)
  | GetServiceInstance (o : GetServiceInstanceOptions)
  | PatchServiceInstance (o : PatchServiceInstanceOptions)
  | DeleteServiceInstance (o : DeleteServiceInstanceOptions)
  | GetAccountSettings (o : GetAccountSettingsOptions)
  | UpdateAccountSettings (o : UpdateAccountSettingsOptions)
deriving DecidableEq

/-- The client `continuousdeliverypipelinev2.ContinuousDeliveryPipelineV2`: what the
service answers to each request. -/
structure ContinuousDeliveryPipelineV2 where
  CreateTektonPipelineTriggerPropertiesWithContext :
    CreateTektonPipelineTriggerPropertiesOptions → SDKResult TriggerProperty
  GetTektonPipelineTriggerPropertyWithContext :
    GetTektonPipelineTriggerPropertyOptions → SDKResult TriggerProperty
  ReplaceTektonPipelineTriggerPropertyWithContext :
    ReplaceTektonPipelineTriggerPropertyOptions → SDKResult TriggerProperty
  DeleteTektonPipelineTriggerPropertyWithContext :
    DeleteTektonPipelineTriggerPropertyOptions → Option core.DetailedResponse × Option String
  CreateTektonPipelinePropertiesWithContext :
    CreateTektonPipelinePropertiesOptions → SDKResult Property
  GetTektonPipelinePropertyWithContext :
    GetTektonPipelinePropertyOptions → SDKResult Property
  ReplaceTektonPipelinePropertyWithContext :
    ReplaceTektonPipelinePropertyOptions → SDKResult Property
  DeleteTektonPipelinePropertyWithContext :
    DeleteTektonPipelinePropertyOptions → Option core.DetailedResponse × Option String

/-- The client `toolchainv2.ToolchainV2`. -/
structure ToolchainV2 where
  PostIntegrationWithContext : PostIntegrationOptions → SDKResult PostIntegrationResponse
  GetIntegrationByIDWithContext : GetIntegrationByIdOptions → SDKResult GetIntegrationByIdResponse
  PatchToolIntegrationWithContext : PatchToolIntegrationOptions → SDKResult Unit
  DeleteToolIntegrationWithContext :
    DeleteToolIntegrationOptions → Option core.DetailedResponse × Option String

/-- The client `ibmtoolchainapiv2.IbmToolchainApiV2`. -/
structure IbmToolchainApiV2 where
  CreateServiceInstanceWithContext : CreateServiceInstanceOptions → SDKResult ServiceResponse
  GetServiceInstanceWithContext : GetServiceInstanceOptions → SDKResult ServiceResponse
  PatchServiceInstanceWithContext :
    PatchServiceInstanceOptions → Option core.DetailedResponse × Option String
  DeleteServiceInstanceWithContext :
    DeleteServiceInstanceOptions → Option core.DetailedResponse × Option String

/-- The client `iamidentityv1.IamIdentityV1`. -/
structure IamIdentityV1 where
  GetAccountSettingsWithContext : GetAccountSettingsOptions → SDKResult AccountSettingsResponse
  UpdateAccountSettingsWithContext :
    UpdateAccountSettingsOptions → SDKResult AccountSettingsResponse

namespace conns

/-- The session `meta.(conns.ClientSession)`: each getter gives a client and an
error. -/
structure ClientSession where
  ContinuousDeliveryPipelineV2 : TerraformIBM.ContinuousDeliveryPipelineV2 × Option String
  ToolchainV2 : TerraformIBM.ToolchainV2 × Option String
  IbmToolchainApiV2 : TerraformIBM.IbmToolchainApiV2 × Option String
  IamIdentityV1 : TerraformIBM.IamIdentityV1 × Option String

end conns

/-- The state of a CRUD function while it runs: the resource data and the requests
sent so far, in order. -/
structure Run where
  d : schema.ResourceData
  calls : List Call := []
deriving DecidableEq

/-- A step of a CRUD function: it gives a value, or panics (`none`), and the state
it leaves; the requests sent before a panic stay sent. -/
def CRUD (α : Type) : Type := Run → Option α × Run

namespace CRUD

/-- Sequencing of two steps. -/
@[noinline]
def bind {α β : Type} (x : CRUD α) (f : α → CRUD β) : CRUD β := fun s =>
  match x s with
  | (none, s') => (none, s')
  | (some a, s') => f a s'

/-- The step that only gives a value. -/
@[noinline]
def pure {α : Type} (a : α) : CRUD α := fun s => (some a, s)

/-- A run-time panic. -/
@[simp]
def panic {α : Type} : CRUD α := fun s => (none, s)

end CRUD

instance : Monad CRUD where
  pure := CRUD.pure
  bind := CRUD.bind

/-- The call `d.Id()`. -/
@[simp]
def dId : CRUD String := fun s => (some s.d.Id, s)

/-- The call `d.Get(key).(string)`. -/
@[simp]
def dGet (key : String) : CRUD String := fun s => (some (s.d.Get key), s)

/-- The call `d.Get(key).(bool)`. -/
@[simp]
def dGetBool (key : String) : CRUD Bool := fun s => (some (s.d.GetBool key), s)

/-- The call `d.GetOk(key)`, its second result. -/
@[simp]
def dGetOk (key : String) : CRUD Bool := fun s => (some (s.d.GetOk key), s)

/-- The call `d.Get(key)` at a map attribute. -/
@[simp]
def dGetMap (key : String) : CRUD (List (String × String)) := fun s => (some (s.d.GetMap key), s)

/-- The call `d.HasChange(key)`. -/
@[simp]
def dHasChange (key : String) : CRUD Bool := fun s => (some (s.d.HasChange key), s)

/-- The call `d.Set(key, value)` with the value in flat form; the error it returns
is nil. -/
@[simp]
def dSet (key : String) (entries : List (String × String)) : CRUD (Option String) := fun s =>
  (some none, { s with d := s.d.Set key entries })

/-- The call `d.SetId(id)`. -/
@[simp]
def dSetId (id : String) : CRUD Unit := fun s => (some (), { s with d := s.d.SetId id })

/-- A request to the service: it is recorded, and the answer of the client is the
result. -/
@[simp]
def invoke {α : Type} (c : Call) (answer : α) : CRUD α := fun s =>
  (some answer, { s with calls := s.calls ++ [c] })

/-- The call `d.Get(key).(map[string]interface{})` at an object. -/
@[simp]
def dGetObject (key : String) (stringFields boolFields : List String) : CRUD DynMap := fun s =>
  (some (s.d.GetObject key stringFields boolFields), s)

/-- The index expression `parts[i]`: it panics when `i` is out of range. -/
@[simp]
def index (parts : List String) (i : Nat) : CRUD String := fun s => (parts[i]?, s)

/-- The dereference `*p` of a pointer, and the result of a helper that may panic:
it panics for nil. -/
@[simp]
def deref {α : Type} (p : Option α) : CRUD α := fun s => (p, s)

set_option linter.unusedVariables false in
/-- The type assertion `d.Get(key).([]string)` at a `TypeList` attribute: the value
of such an attribute is a `[]interface{}`, so the assertion panics. -/
@[simp]
def dGetStringSlice (key : String) : CRUD (List String) := CRUD.panic

/-- The text of the error for a changed `ForceNew` attribute. -/
def forceNewFormat : String :=
  "Cannot update resource property \"%s\" with the ForceNew annotation." ++
    " The resource must be re-created to update this property."

/-! ## resource_ibm_tekton_pipeline_trigger_property.go: the CRUD functions -/

/-- The function `ResourceIBMTektonPipelineTriggerPropertyRead` (lines 208-264). -/
def ResourceIBMTektonPipelineTriggerPropertyRead (meta : conns.ClientSession) :
    CRUD diag.Diagnostics := do
  let (continuousDeliveryPipelineClient, err) := meta.ContinuousDeliveryPipelineV2
  if let some err := err then
    return diag.FromErr (.lib err)
  let getTektonPipelineTriggerPropertyOptions : GetTektonPipelineTriggerPropertyOptions := {}
  let (parts, err) := flex.SepIdParts (← dId) "/"
  if let some err := err then
    return diag.FromErr (.lib err)
  let getTektonPipelineTriggerPropertyOptions :=
    getTektonPipelineTriggerPropertyOptions.SetPipelineID (← index parts 0)
  let getTektonPipelineTriggerPropertyOptions :=
    getTektonPipelineTriggerPropertyOptions.SetTriggerID (← index parts 1)
  let getTektonPipelineTriggerPropertyOptions :=
    getTektonPipelineTriggerPropertyOptions.SetPropertyName (← index parts 2)
  let (triggerProperty, response, err) ←
    invoke (.GetTektonPipelineTriggerProperty getTektonPipelineTriggerPropertyOptions)
      (continuousDeliveryPipelineClient.GetTektonPipelineTriggerPropertyWithContext
        getTektonPipelineTriggerPropertyOptions)
  if let some err := err then
    if is404 response then
      dSetId ""
      return none
    return diag.FromErr (.Errorf "GetTektonPipelineTriggerPropertyWithContext failed %s\n%s"
      [.err err, .response response])
  let triggerProperty ← deref triggerProperty
  if let some err := (← dSet "pipeline_id"
      (flat.string "pipeline_id" getTektonPipelineTriggerPropertyOptions.PipelineID)) then
    return diag.FromErr (.Errorf "Error setting pipeline_id: %s" [.err err])
  if let some err := (← dSet "trigger_id"
      (flat.string "trigger_id" getTektonPipelineTriggerPropertyOptions.TriggerID)) then
    return diag.FromErr (.Errorf "Error setting trigger_id: %s" [.err err])
  if let some err := (← dSet "name" (flat.string "name" triggerProperty.Name)) then
    return diag.FromErr (.Errorf "Error setting name: %s" [.err err])
  if let some err := (← dSet "value" (flat.string "value" triggerProperty.Value)) then
    return diag.FromErr (.Errorf "Error setting value: %s" [.err err])
  if let some enum := triggerProperty.Enum then
    if let some err := (← dSet "enum" (flat.strings "enum" enum)) then
      return diag.FromErr (.Errorf "Error setting enum: %s" [.err err])
  if let some err := (← dSet "default" (flat.string "default" triggerProperty.Default)) then
    return diag.FromErr (.Errorf "Error setting default: %s" [.err err])
  if let some err := (← dSet "type" (flat.string "type" triggerProperty.Type_)) then
    return diag.FromErr (.Errorf "Error setting type: %s" [.err err])
  if let some err := (← dSet "path" (flat.string "path" triggerProperty.Path)) then
    return diag.FromErr (.Errorf "Error setting path: %s" [.err err])
  return none

/-- The function `ResourceIBMTektonPipelineTriggerPropertyCreate` (lines 168-206). -/
def ResourceIBMTektonPipelineTriggerPropertyCreate (meta : conns.ClientSession) :
    CRUD diag.Diagnostics := do
  let (continuousDeliveryPipelineClient, err) := meta.ContinuousDeliveryPipelineV2
  if let some err := err then
    return diag.FromErr (.lib err)
  let mut createTektonPipelineTriggerPropertiesOptions :
    CreateTektonPipelineTriggerPropertiesOptions := {}
  createTektonPipelineTriggerPropertiesOptions :=
    createTektonPipelineTriggerPropertiesOptions.SetPipelineID (← dGet "pipeline_id")
  createTektonPipelineTriggerPropertiesOptions :=
    createTektonPipelineTriggerPropertiesOptions.SetTriggerID (← dGet "trigger_id")
  if ← dGetOk "name" then
    createTektonPipelineTriggerPropertiesOptions :=
      createTektonPipelineTriggerPropertiesOptions.SetName (← dGet "name")
  if ← dGetOk "value" then
    createTektonPipelineTriggerPropertiesOptions :=
      createTektonPipelineTriggerPropertiesOptions.SetValue (← dGet "value")
  if ← dGetOk "enum" then
    createTektonPipelineTriggerPropertiesOptions :=
      createTektonPipelineTriggerPropertiesOptions.SetEnum (← dGetStringSlice "enum")
  if ← dGetOk "default" then
    createTektonPipelineTriggerPropertiesOptions :=
      createTektonPipelineTriggerPropertiesOptions.SetDefault (← dGet "default")
  if ← dGetOk "type" then
    createTektonPipelineTriggerPropertiesOptions :=
      createTektonPipelineTriggerPropertiesOptions.SetType (← dGet "type")
  if ← dGetOk "path" then
    createTektonPipelineTriggerPropertiesOptions :=
      createTektonPipelineTriggerPropertiesOptions.SetPath (← dGet "path")
  let (triggerProperty, response, err) ←
    invoke (.CreateTektonPipelineTriggerProperties createTektonPipelineTriggerPropertiesOptions)
      (continuousDeliveryPipelineClient.CreateTektonPipelineTriggerPropertiesWithContext
        createTektonPipelineTriggerPropertiesOptions)
  if let some err := err then
    return diag.FromErr (.Errorf "CreateTektonPipelineTriggerPropertiesWithContext failed %s\n%s"
      [.err err, .response response])
  dSetId (fmt.Sprintf "%s/%s/%s"
    [← deref createTektonPipelineTriggerPropertiesOptions.PipelineID,
     ← deref createTektonPipelineTriggerPropertiesOptions.TriggerID,
     ← deref (← deref triggerProperty).Name])
  ResourceIBMTektonPipelineTriggerPropertyRead meta

/-- The function `ResourceIBMTektonPipelineTriggerPropertyUpdate` (lines 266-317). -/
def ResourceIBMTektonPipelineTriggerPropertyUpdate (meta : conns.ClientSession) :
    CRUD diag.Diagnostics := do
  let (continuousDeliveryPipelineClient, err) := meta.ContinuousDeliveryPipelineV2
  if let some err := err then
    return diag.FromErr (.lib err)
  let mut replaceTektonPipelineTriggerPropertyOptions :
    ReplaceTektonPipelineTriggerPropertyOptions := {}
  let (parts, err) := flex.SepIdParts (← dId) "/"
  if let some err := err then
    return diag.FromErr (.lib err)
  replaceTektonPipelineTriggerPropertyOptions :=
    replaceTektonPipelineTriggerPropertyOptions.SetPipelineID (← index parts 0)
  replaceTektonPipelineTriggerPropertyOptions :=
    replaceTektonPipelineTriggerPropertyOptions.SetTriggerID (← index parts 1)
  replaceTektonPipelineTriggerPropertyOptions :=
    replaceTektonPipelineTriggerPropertyOptions.SetPropertyName (← index parts 2)
  replaceTektonPipelineTriggerPropertyOptions :=
    replaceTektonPipelineTriggerPropertyOptions.SetName (← dGet "name")
  replaceTektonPipelineTriggerPropertyOptions :=
    replaceTektonPipelineTriggerPropertyOptions.SetType (← dGet "type")
  let mut hasChange := false
  if ← dHasChange "pipeline_id" then
    return diag.FromErr (.Errorf forceNewFormat [.str "pipeline_id"])
  if ← dHasChange "trigger_id" then
    return diag.FromErr (.Errorf forceNewFormat [.str "trigger_id"])
  if ← dHasChange "enum" then
    replaceTektonPipelineTriggerPropertyOptions :=
      replaceTektonPipelineTriggerPropertyOptions.SetEnum (← dGetStringSlice "enum")
    hasChange := true
  if ← dHasChange "default" then
    replaceTektonPipelineTriggerPropertyOptions :=
      replaceTektonPipelineTriggerPropertyOptions.SetDefault (← dGet "default")
    hasChange := true
  if ← dHasChange "path" then
    replaceTektonPipelineTriggerPropertyOptions :=
      replaceTektonPipelineTriggerPropertyOptions.SetPath (← dGet "path")
    hasChange := true
  if hasChange then
    let (_, response, err) ←
      invoke (.ReplaceTektonPipelineTriggerProperty replaceTektonPipelineTriggerPropertyOptions)
        (continuousDeliveryPipelineClient.ReplaceTektonPipelineTriggerPropertyWithContext
          replaceTektonPipelineTriggerPropertyOptions)
    if let some err := err then
      return diag.FromErr (.Errorf "ReplaceTektonPipelineTriggerPropertyWithContext failed %s\n%s"
        [.err err, .response response])
  ResourceIBMTektonPipelineTriggerPropertyRead meta

/-- The function `ResourceIBMTektonPipelineTriggerPropertyDelete` (lines 319-345). -/
def ResourceIBMTektonPipelineTriggerPropertyDelete (meta : conns.ClientSession) :
    CRUD diag.Diagnostics := do
  let (continuousDeliveryPipelineClient, err) := meta.ContinuousDeliveryPipelineV2
  if let some err := err then
    return diag.FromErr (.lib err)
  let deleteTektonPipelineTriggerPropertyOptions :
    DeleteTektonPipelineTriggerPropertyOptions := {}
  let (parts, err) := flex.SepIdParts (← dId) "/"
  if let some err := err then
    return diag.FromErr (.lib err)
  let deleteTektonPipelineTriggerPropertyOptions :=
    deleteTektonPipelineTriggerPropertyOptions.SetPipelineID (← index parts 0)
  let deleteTektonPipelineTriggerPropertyOptions :=
    deleteTektonPipelineTriggerPropertyOptions.SetTriggerID (← index parts 1)
  let deleteTektonPipelineTriggerPropertyOptions :=
    deleteTektonPipelineTriggerPropertyOptions.SetPropertyName (← index parts 2)
  let (response, err) ←
    invoke (.DeleteTektonPipelineTriggerProperty deleteTektonPipelineTriggerPropertyOptions)
      (continuousDeliveryPipelineClient.DeleteTektonPipelineTriggerPropertyWithContext
        deleteTektonPipelineTriggerPropertyOptions)
  if let some err := err then
    return diag.FromErr (.Errorf "DeleteTektonPipelineTriggerPropertyWithContext failed %s\n%s"
      [.err err, .response response])
  dSetId ""
  return none

/-! ## resource_ibm_tekton_pipeline_property.go: the CRUD functions -/

/-- The function `ResourceIBMTektonPipelinePropertyRead` (lines 157-203). -/
def ResourceIBMTektonPipelinePropertyRead (meta : conns.ClientSession) :
    CRUD diag.Diagnostics := do
  let (continuousDeliveryPipelineClient, err) := meta.ContinuousDeliveryPipelineV2
  if let some err := err then
    return diag.FromErr (.lib err)
  let getTektonPipelinePropertyOptions : GetTektonPipelinePropertyOptions := {}
  let (parts, err) := flex.SepIdParts (← dId) "/"
  if let some err := err then
    return diag.FromErr (.lib err)
  let getTektonPipelinePropertyOptions :=
    getTektonPipelinePropertyOptions.SetPipelineID (← index parts 0)
  let getTektonPipelinePropertyOptions :=
    getTektonPipelinePropertyOptions.SetPropertyName (← index parts 1)
  let (property, response, err) ←
    invoke (.GetTektonPipelineProperty getTektonPipelinePropertyOptions)
      (continuousDeliveryPipelineClient.GetTektonPipelinePropertyWithContext
        getTektonPipelinePropertyOptions)
  if let some err := err then
    if is404 response then
      dSetId ""
      return none
    return diag.FromErr (.Errorf "GetTektonPipelinePropertyWithContext failed %s\n%s"
      [.err err, .response response])
  let property ← deref property
  if let some err := (← dSet "pipeline_id"
      (flat.string "pipeline_id" getTektonPipelinePropertyOptions.PipelineID)) then
    return diag.FromErr (.Errorf "Error setting pipeline_id: %s" [.err err])
  if let some err := (← dSet "name" (flat.string "name" property.Name)) then
    return diag.FromErr (.Errorf "Error setting name: %s" [.err err])
  if let some err := (← dSet "value" (flat.string "value" property.Value)) then
    return diag.FromErr (.Errorf "Error setting value: %s" [.err err])
  if let some err := (← dSet "options"
      (match property.Options with
        | none => []
        | some options => flat.map "options" options)) then
    return diag.FromErr (.Errorf "Error setting options: %s" [.err err])
  if let some err := (← dSet "type" (flat.string "type" property.Type_)) then
    return diag.FromErr (.Errorf "Error setting type: %s" [.err err])
  if let some err := (← dSet "path" (flat.string "path" property.Path)) then
    return diag.FromErr (.Errorf "Error setting path: %s" [.err err])
  return none

/-- The function `ResourceIBMTektonPipelinePropertyCreate` (lines 121-155). -/
def ResourceIBMTektonPipelinePropertyCreate (meta : conns.ClientSession) :
    CRUD diag.Diagnostics := do
  let (continuousDeliveryPipelineClient, err) := meta.ContinuousDeliveryPipelineV2
  if let some err := err then
    return diag.FromErr (.lib err)
  let mut createTektonPipelinePropertiesOptions : CreateTektonPipelinePropertiesOptions := {}
  createTektonPipelinePropertiesOptions :=
    createTektonPipelinePropertiesOptions.SetPipelineID (← dGet "pipeline_id")
  if ← dGetOk "name" then
    createTektonPipelinePropertiesOptions :=
      createTektonPipelinePropertiesOptions.SetName (← dGet "name")
  if ← dGetOk "value" then
    createTektonPipelinePropertiesOptions :=
      createTektonPipelinePropertiesOptions.SetValue (← dGet "value")
  if ← dGetOk "options" then
    createTektonPipelinePropertiesOptions :=
      createTektonPipelinePropertiesOptions.SetOptions (← dGetMap "options")
  if ← dGetOk "type" then
    createTektonPipelinePropertiesOptions :=
      createTektonPipelinePropertiesOptions.SetType (← dGet "type")
  if ← dGetOk "path" then
    createTektonPipelinePropertiesOptions :=
      createTektonPipelinePropertiesOptions.SetPath (← dGet "path")
  let (property, response, err) ←
    invoke (.CreateTektonPipelineProperties createTektonPipelinePropertiesOptions)
      (continuousDeliveryPipelineClient.CreateTektonPipelinePropertiesWithContext
        createTektonPipelinePropertiesOptions)
  if let some err := err then
    return diag.FromErr (.Errorf "CreateTektonPipelinePropertiesWithContext failed %s\n%s"
      [.err err, .response response])
  dSetId (fmt.Sprintf "%s/%s"
    [← deref createTektonPipelinePropertiesOptions.PipelineID,
     ← deref (← deref property).Name])
  ResourceIBMTektonPipelinePropertyRead meta

/-- The function `ResourceIBMTektonPipelinePropertyUpdate` (lines 205-252). -/
def ResourceIBMTektonPipelinePropertyUpdate (meta : conns.ClientSession) :
    CRUD diag.Diagnostics := do
  let (continuousDeliveryPipelineClient, err) := meta.ContinuousDeliveryPipelineV2
  if let some err := err then
    return diag.FromErr (.lib err)
  let mut replaceTektonPipelinePropertyOptions : ReplaceTektonPipelinePropertyOptions := {}
  let (parts, err) := flex.SepIdParts (← dId) "/"
  if let some err := err then
    return diag.FromErr (.lib err)
  replaceTektonPipelinePropertyOptions :=
    replaceTektonPipelinePropertyOptions.SetPipelineID (← index parts 0)
  replaceTektonPipelinePropertyOptions :=
    replaceTektonPipelinePropertyOptions.SetPropertyName (← index parts 1)
  replaceTektonPipelinePropertyOptions :=
    replaceTektonPipelinePropertyOptions.SetName (← dGet "name")
  replaceTektonPipelinePropertyOptions :=
    replaceTektonPipelinePropertyOptions.SetType (← dGet "type")
  let mut hasChange := false
  if ← dHasChange "pipeline_id" then
    return diag.FromErr (.Errorf forceNewFormat [.str "pipeline_id"])
  if (← dGet "type") == "SINGLE_SELECT" && (← dHasChange "options") then
    replaceTektonPipelinePropertyOptions :=
      replaceTektonPipelinePropertyOptions.SetOptions (← dGetMap "options")
    hasChange := true
  else if ← dHasChange "value" then
    replaceTektonPipelinePropertyOptions :=
      replaceTektonPipelinePropertyOptions.SetValue (← dGet "value")
    hasChange := true
  if ← dHasChange "path" then
    replaceTektonPipelinePropertyOptions :=
      replaceTektonPipelinePropertyOptions.SetPath (← dGet "path")
    hasChange := true
  if hasChange then
    let (_, response, err) ←
      invoke (.ReplaceTektonPipelineProperty replaceTektonPipelinePropertyOptions)
        (continuousDeliveryPipelineClient.ReplaceTektonPipelinePropertyWithContext
          replaceTektonPipelinePropertyOptions)
    if let some err := err then
      return diag.FromErr (.Errorf "ReplaceTektonPipelinePropertyWithContext failed %s\n%s"
        [.err err, .response response])
  ResourceIBMTektonPipelinePropertyRead meta

/-- The function `ResourceIBMTektonPipelinePropertyDelete` (lines 254-279). -/
def ResourceIBMTektonPipelinePropertyDelete (meta : conns.ClientSession) :
    CRUD diag.Diagnostics := do
  let (continuousDeliveryPipelineClient, err) := meta.ContinuousDeliveryPipelineV2
  if let some err := err then
    return diag.FromErr (.lib err)
  let deleteTektonPipelinePropertyOptions : DeleteTektonPipelinePropertyOptions := {}
  let (parts, err) := flex.SepIdParts (← dId) "/"
  if let some err := err then
    return diag.FromErr (.lib err)
  let deleteTektonPipelinePropertyOptions :=
    deleteTektonPipelinePropertyOptions.SetPipelineID (← index parts 0)
  let deleteTektonPipelinePropertyOptions :=
    deleteTektonPipelinePropertyOptions.SetPropertyName (← index parts 1)
  let (response, err) ←
    invoke (.DeleteTektonPipelineProperty deleteTektonPipelinePropertyOptions)
      (continuousDeliveryPipelineClient.DeleteTektonPipelinePropertyWithContext
        deleteTektonPipelinePropertyOptions)
  if let some err := err then
    return diag.FromErr (.Errorf "DeleteTektonPipelinePropertyWithContext failed %s\n%s"
      [.err err, .response response])
  dSetId ""
  return none

/-! ## toolchain/resource_ibm_toolchain_tool_secretsmanager.go -/

/-- The function `ResourceIbmToolchainToolSecretsmanagerMapToParameters`; the error
it returns is nil. -/
def ResourceIbmToolchainToolSecretsmanagerMapToParameters (modelMap : DynMap) :
    Option (DynMap × Option String) := do
  let mut model : DynMap := []
  if modelMap.get "name" != Dyn.nil then
    model := model.set "name" (Dyn.stringPtr (← (modelMap.get "name").assertString))
  if modelMap.get "region" != Dyn.nil then
    model := model.set "region" (Dyn.stringPtr (← (modelMap.get "region").assertString))
  if modelMap.get "resource_group" != Dyn.nil then
    model := model.set "resource-group"
      (Dyn.stringPtr (← (modelMap.get "resource_group").assertString))
  if modelMap.get "instance_name" != Dyn.nil then
    model := model.set "instance-name"
      (Dyn.stringPtr (← (modelMap.get "instance_name").assertString))
  return (model, none)

/-- The function `ResourceIbmToolchainToolSecretsmanagerParametersToMap`. -/
def ResourceIbmToolchainToolSecretsmanagerParametersToMap (model : DynMap) :
    Option (DynMap × Option String) := do
  let mut modelMap : DynMap := []
  if model.get "name" != Dyn.nil then
    modelMap := modelMap.set "name" (model.get "name")
  if model.get "region" != Dyn.nil then
    modelMap := modelMap.set "region" (model.get "region")
  if model.get "resource-group" != Dyn.nil then
    modelMap := modelMap.set "resource_group" (model.get "resource-group")
  if model.get "instance-name" != Dyn.nil then
    modelMap := modelMap.set "instance_name" (model.get "instance-name")
  return (modelMap, none)

/-- The function
`ResourceIbmToolchainToolSecretsmanagerGetIntegrationByIdResponseReferentToMap`; a nil
`model` is dereferenced. -/
def ResourceIbmToolchainToolSecretsmanagerGetIntegrationByIdResponseReferentToMap
    (model : Option GetIntegrationByIdResponseReferent) : Option (DynMap × Option String) := do
  let model ← model
  let mut modelMap : DynMap := []
  if let some p := model.UiHref then
    modelMap := modelMap.set "ui_href" (Dyn.stringPtr p)
  if let some p := model.ApiHref then
    modelMap := modelMap.set "api_href" (Dyn.stringPtr p)
  return (modelMap, none)

/-- Modelled from the spec: `flex.DateTimeToString` (package `ibm/flex`) is not among
the source files; the date-time of the response is kept as its text, and nil
gives the empty string. -/
def flex.DateTimeToString (dt : Option String) : String := dt.getD ""

/-- The fields of the object `parameters` of the Secrets Manager tool. -/
def secretsmanagerParameterFields : List String :=
  ["name", "region", "resource_group", "instance_name"]

/-- The function `ResourceIbmToolchainToolSecretsmanagerRead` (lines 174-246). -/
def ResourceIbmToolchainToolSecretsmanagerRead (meta : conns.ClientSession) :
    CRUD diag.Diagnostics := do
  let (toolchainClient, err) := meta.ToolchainV2
  if let some err := err then
    return diag.FromErr (.lib err)
  let getIntegrationByIdOptions : GetIntegrationByIdOptions := {}
  let (parts, err) := flex.SepIdParts (← dId) "/"
  if let some err := err then
    return diag.FromErr (.lib err)
  let getIntegrationByIdOptions := getIntegrationByIdOptions.SetToolchainID (← index parts 0)
  let getIntegrationByIdOptions := getIntegrationByIdOptions.SetIntegrationID (← index parts 1)
  let (getIntegrationByIdResponse, response, err) ←
    invoke (.GetIntegrationByID getIntegrationByIdOptions)
      (toolchainClient.GetIntegrationByIDWithContext getIntegrationByIdOptions)
  if let some err := err then
    if is404 response then
      dSetId ""
      return none
    return diag.FromErr (.Errorf "GetIntegrationByIDWithContext failed %s\n%s"
      [.err err, .response response])
  let getIntegrationByIdResponse ← deref getIntegrationByIdResponse
  if let some err := (← dSet "toolchain_id"
      (flat.string "toolchain_id" getIntegrationByIdResponse.ToolchainID)) then
    return diag.FromErr (.Errorf "Error setting toolchain_id: %s" [.err err])
  if let some err := (← dSet "name" (flat.string "name" getIntegrationByIdResponse.Name)) then
    return diag.FromErr (.Errorf "Error setting name: %s" [.err err])
  if let some parameters := getIntegrationByIdResponse.Parameters then
    let (parametersMap, err) ←
      deref (ResourceIbmToolchainToolSecretsmanagerParametersToMap parameters)
    if let some err := err then
      return diag.FromErr (.lib err)
    if let some err := (← dSet "parameters" (flat.objects "parameters" [parametersMap.flat])) then
      return diag.FromErr (.Errorf "Error setting parameters: %s" [.err err])
  if let some err := (← dSet "resource_group_id"
      (flat.string "resource_group_id" getIntegrationByIdResponse.ResourceGroupID)) then
    return diag.FromErr (.Errorf "Error setting resource_group_id: %s" [.err err])
  if let some err := (← dSet "crn" (flat.string "crn" getIntegrationByIdResponse.Crn)) then
    return diag.FromErr (.Errorf "Error setting crn: %s" [.err err])
  if let some err := (← dSet "toolchain_crn"
      (flat.string "toolchain_crn" getIntegrationByIdResponse.ToolchainCrn)) then
    return diag.FromErr (.Errorf "Error setting toolchain_crn: %s" [.err err])
  if let some err := (← dSet "href" (flat.string "href" getIntegrationByIdResponse.Href)) then
    return diag.FromErr (.Errorf "Error setting href: %s" [.err err])
  let (referentMap, err) ←
    deref (ResourceIbmToolchainToolSecretsmanagerGetIntegrationByIdResponseReferentToMap
      getIntegrationByIdResponse.Referent)
  if let some err := err then
    return diag.FromErr (.lib err)
  if let some err := (← dSet "referent" (flat.objects "referent" [referentMap.flat])) then
    return diag.FromErr (.Errorf "Error setting referent: %s" [.err err])
  if let some err := (← dSet "updated_at"
      [("updated_at", flex.DateTimeToString getIntegrationByIdResponse.UpdatedAt)]) then
    return diag.FromErr (.Errorf "Error setting updated_at: %s" [.err err])
  if let some err := (← dSet "state" (flat.string "state" getIntegrationByIdResponse.State)) then
    return diag.FromErr (.Errorf "Error setting state: %s" [.err err])
  if let some err := (← dSet "get_integration_by_id_response_id"
      (flat.string "get_integration_by_id_response_id" getIntegrationByIdResponse.ID)) then
    return diag.FromErr (.Errorf "Error setting get_integration_by_id_response_id: %s"
      [.err err])
  return none

/-- The function `ResourceIbmToolchainToolSecretsmanagerCreate` (lines 139-172). -/
def ResourceIbmToolchainToolSecretsmanagerCreate (meta : conns.ClientSession) :
    CRUD diag.Diagnostics := do
  let (toolchainClient, err) := meta.ToolchainV2
  if let some err := err then
    return diag.FromErr (.lib err)
  let mut postIntegrationOptions : PostIntegrationOptions := {}
  postIntegrationOptions := postIntegrationOptions.SetToolchainID (← dGet "toolchain_id")
  postIntegrationOptions := postIntegrationOptions.SetToolID "secretsmanager"
  if ← dGetOk "name" then
    postIntegrationOptions := postIntegrationOptions.SetName (← dGet "name")
  if ← dGetOk "parameters" then
    let (parametersModel, err) ←
      deref (ResourceIbmToolchainToolSecretsmanagerMapToParameters
        (← dGetObject "parameters.0" secretsmanagerParameterFields []))
    if let some err := err then
      return diag.FromErr (.lib err)
    postIntegrationOptions := postIntegrationOptions.SetParameters parametersModel
  if ← dGetOk "parameters_references" then
    pure ()
  let (postIntegrationResponse, response, err) ←
    invoke (.PostIntegration postIntegrationOptions)
      (toolchainClient.PostIntegrationWithContext postIntegrationOptions)
  if let some err := err then
    return diag.FromErr (.Errorf "PostIntegrationWithContext failed %s\n%s"
      [.err err, .response response])
  dSetId (fmt.Sprintf "%s/%s"
    [← deref postIntegrationOptions.ToolchainID, ← deref (← deref postIntegrationResponse).ID])
  ResourceIbmToolchainToolSecretsmanagerRead meta

/-- The function `ResourceIbmToolchainToolSecretsmanagerUpdate` (lines 248-297). -/
def ResourceIbmToolchainToolSecretsmanagerUpdate (meta : conns.ClientSession) :
    CRUD diag.Diagnostics := do
  let (toolchainClient, err) := meta.ToolchainV2
  if let some err := err then
    return diag.FromErr (.lib err)
  let mut patchToolIntegrationOptions : PatchToolIntegrationOptions := {}
  let (parts, err) := flex.SepIdParts (← dId) "/"
  if let some err := err then
    return diag.FromErr (.lib err)
  patchToolIntegrationOptions := patchToolIntegrationOptions.SetToolchainID (← index parts 0)
  patchToolIntegrationOptions := patchToolIntegrationOptions.SetIntegrationID (← index parts 1)
  patchToolIntegrationOptions := patchToolIntegrationOptions.SetToolID "secretsmanager"
  let mut hasChange := false
  if ← dHasChange "toolchain_id" then
    return diag.FromErr (.Errorf forceNewFormat [.str "toolchain_id"])
  if ← dHasChange "name" then
    patchToolIntegrationOptions := patchToolIntegrationOptions.SetName (← dGet "name")
    hasChange := true
  if ← dHasChange "parameters" then
    let (parameters, err) ←
      deref (ResourceIbmToolchainToolSecretsmanagerMapToParameters
        (← dGetObject "parameters.0" secretsmanagerParameterFields []))
    if let some err := err then
      return diag.FromErr (.lib err)
    patchToolIntegrationOptions := patchToolIntegrationOptions.SetParameters parameters
    hasChange := true
  if ← dHasChange "parameters_references" then
    hasChange := true
  if hasChange then
    let (_, response, err) ←
      invoke (.PatchToolIntegration patchToolIntegrationOptions)
        (toolchainClient.PatchToolIntegrationWithContext patchToolIntegrationOptions)
    if let some err := err then
      return diag.FromErr (.Errorf "PatchToolIntegrationWithContext failed %s\n%s"
        [.err err, .response response])
  ResourceIbmToolchainToolSecretsmanagerRead meta

/-- The function `ResourceIbmToolchainToolSecretsmanagerDelete` (lines 299-324). -/
def ResourceIbmToolchainToolSecretsmanagerDelete (meta : conns.ClientSession) :
    CRUD diag.Diagnostics := do
  let (toolchainClient, err) := meta.ToolchainV2
  if let some err := err then
    return diag.FromErr (.lib err)
  let deleteToolIntegrationOptions : DeleteToolIntegrationOptions := {}
  let (parts, err) := flex.SepIdParts (← dId) "/"
  if let some err := err then
    return diag.FromErr (.lib err)
  let deleteToolIntegrationOptions :=
    deleteToolIntegrationOptions.SetToolchainID (← index parts 0)
  let deleteToolIntegrationOptions :=
    deleteToolIntegrationOptions.SetIntegrationID (← index parts 1)
  let (response, err) ←
    invoke (.DeleteToolIntegration deleteToolIntegrationOptions)
      (toolchainClient.DeleteToolIntegrationWithContext deleteToolIntegrationOptions)
  if let some err := err then
    return diag.FromErr (.Errorf "DeleteToolIntegrationWithContext failed %s\n%s"
      [.err err, .response response])
  dSetId ""
  return none

/-! ## ibmtoolchainapi/resource_ibm_toolchain_tool_sonarqube.go -/

/-- The function `ResourceIbmToolchainToolSonarqubeMapToParameters`. -/
def ResourceIbmToolchainToolSonarqubeMapToParameters (modelMap : DynMap) :
    Option (DynMap × Option String) := do
  let mut model : DynMap := []
  model := model.set "name" (Dyn.stringPtr (← (modelMap.get "name").assertString))
  model := model.set "dashboard_url"
    (Dyn.stringPtr (← (modelMap.get "dashboard_url").assertString))
  if modelMap.get "user_login" != Dyn.nil then
    model := model.set "user_login" (Dyn.stringPtr (← (modelMap.get "user_login").assertString))
  if modelMap.get "user_password" != Dyn.nil then
    model := model.set "user_password"
      (Dyn.stringPtr (← (modelMap.get "user_password").assertString))
  if modelMap.get "blind_connection" != Dyn.nil then
    model := model.set "blind_connection"
      (Dyn.boolPtr (← (modelMap.get "blind_connection").assertBool))
  return (model, none)

/-- The function `ResourceIbmToolchainToolSonarqubeMapToContainer`. -/
def ResourceIbmToolchainToolSonarqubeMapToContainer (modelMap : DynMap) :
    Option (Container × Option String) := do
  let model : Container := {}
  let model := { model with Guid := some (← (modelMap.get "guid").assertString) }
  let model := { model with Type_ := some (← (modelMap.get "type").assertString) }
  return (model, none)

/-- The function `ResourceIbmToolchainToolSonarqubeParametersToMap`. -/
def ResourceIbmToolchainToolSonarqubeParametersToMap (model : DynMap) :
    Option (DynMap × Option String) := do
  let mut modelMap : DynMap := []
  modelMap := modelMap.set "name" (model.get "name")
  modelMap := modelMap.set "dashboard_url" (model.get "dashboard_url")
  if model.get "user_login" != Dyn.nil then
    modelMap := modelMap.set "user_login" (model.get "user_login")
  if model.get "user_password" != Dyn.nil then
    modelMap := modelMap.set "user_password" (model.get "user_password")
  if model.get "blind_connection" != Dyn.nil then
    modelMap := modelMap.set "blind_connection" (model.get "blind_connection")
  return (modelMap, none)

/-- The function `ResourceIbmToolchainToolSonarqubeContainerToMap`. -/
def ResourceIbmToolchainToolSonarqubeContainerToMap (model : Container) :
    Option (DynMap × Option String) := do
  let mut modelMap : DynMap := []
  modelMap := modelMap.set "guid" (Dyn.ofStringPtr model.Guid)
  modelMap := modelMap.set "type" (Dyn.ofStringPtr model.Type_)
  return (modelMap, none)

/-- The string fields of the object `parameters` of the SonarQube tool; its boolean
field is `blind_connection`. -/
def sonarqubeParameterFields : List String :=
  ["name", "dashboard_url", "user_login", "user_password"]

/-- The function `ResourceIbmToolchainToolSonarqubeRead` (lines 139-186). -/
def ResourceIbmToolchainToolSonarqubeRead (meta : conns.ClientSession) :
    CRUD diag.Diagnostics := do
  let (ibmToolchainApiClient, err) := meta.IbmToolchainApiV2
  if let some err := err then
    return diag.FromErr (.lib err)
  let getServiceInstanceOptions : GetServiceInstanceOptions := {}
  let getServiceInstanceOptions := getServiceInstanceOptions.SetServiceInstanceID (← dId)
  let (serviceResponse, response, err) ←
    invoke (.GetServiceInstance getServiceInstanceOptions)
      (ibmToolchainApiClient.GetServiceInstanceWithContext getServiceInstanceOptions)
  if let some err := err then
    if is404 response then
      dSetId ""
      return none
    return diag.FromErr (.Errorf "GetServiceInstanceWithContext failed %s\n%s"
      [.err err, .response response])
  let serviceResponse ← deref serviceResponse
  if let some err := (← dSet "toolchain_id"
      (flat.string "toolchain_id" serviceResponse.ToolchainID)) then
    return diag.FromErr (.Errorf "Error setting toolchain_id: %s" [.err err])
  if let some parameters := serviceResponse.Parameters then
    let (parametersMap, err) ← deref (ResourceIbmToolchainToolSonarqubeParametersToMap parameters)
    if let some err := err then
      return diag.FromErr (.lib err)
    if let some err := (← dSet "parameters" (flat.objects "parameters" [parametersMap.flat])) then
      return diag.FromErr (.Errorf "Error setting parameters: %s" [.err err])
  if let some container := serviceResponse.Container then
    let (containerMap, err) ← deref (ResourceIbmToolchainToolSonarqubeContainerToMap container)
    if let some err := err then
      return diag.FromErr (.lib err)
    if let some err := (← dSet "container" (flat.objects "container" [containerMap.flat])) then
      return diag.FromErr (.Errorf "Error setting container: %s" [.err err])
  if let some err := (← dSet "dashboard_url"
      (flat.string "dashboard_url" serviceResponse.DashboardURL)) then
    return diag.FromErr (.Errorf "Error setting dashboard_url: %s" [.err err])
  return none

/-- The function `ResourceIbmToolchainToolSonarqubeCreate` (lines 100-137). -/
def ResourceIbmToolchainToolSonarqubeCreate (meta : conns.ClientSession) :
    CRUD diag.Diagnostics := do
  let (ibmToolchainApiClient, err) := meta.IbmToolchainApiV2
  if let some err := err then
    return diag.FromErr (.lib err)
  let mut createServiceInstanceOptions : CreateServiceInstanceOptions := {}
  createServiceInstanceOptions := createServiceInstanceOptions.SetServiceID "sonarqube"
  createServiceInstanceOptions :=
    createServiceInstanceOptions.SetToolchainID (← dGet "toolchain_id")
  if ← dGetOk "parameters" then
    let (parameters, err) ←
      deref (ResourceIbmToolchainToolSonarqubeMapToParameters
        (← dGetObject "parameters.0" sonarqubeParameterFields ["blind_connection"]))
    if let some err := err then
      return diag.FromErr (.lib err)
    createServiceInstanceOptions := createServiceInstanceOptions.SetParameters parameters
  if ← dGetOk "parameters_references" then
    pure ()
  if ← dGetOk "container" then
    let (container, err) ←
      deref (ResourceIbmToolchainToolSonarqubeMapToContainer
        (← dGetObject "container.0" ["guid", "type"] []))
    if let some err := err then
      return diag.FromErr (.lib err)
    createServiceInstanceOptions := createServiceInstanceOptions.SetContainer container
  let (serviceResponse, response, err) ←
    invoke (.CreateServiceInstance createServiceInstanceOptions)
      (ibmToolchainApiClient.CreateServiceInstanceWithContext createServiceInstanceOptions)
  if let some err := err then
    return diag.FromErr (.Errorf "CreateServiceInstanceWithContext failed %s\n%s"
      [.err err, .response response])
  dSetId (← deref (← deref serviceResponse).InstanceID)
  ResourceIbmToolchainToolSonarqubeRead meta

/-- The function `ResourceIbmToolchainToolSonarqubeUpdate` (lines 188-231). -/
def ResourceIbmToolchainToolSonarqubeUpdate (meta : conns.ClientSession) :
    CRUD diag.Diagnostics := do
  let (ibmToolchainApiClient, err) := meta.IbmToolchainApiV2
  if let some err := err then
    return diag.FromErr (.lib err)
  let mut patchServiceInstanceOptions : PatchServiceInstanceOptions := {}
  patchServiceInstanceOptions := patchServiceInstanceOptions.SetServiceID "sonarqube"
  patchServiceInstanceOptions := patchServiceInstanceOptions.SetServiceInstanceID (← dId)
  let mut hasChange := false
  if ← dHasChange "toolchain_id" then
    return diag.FromErr (.Errorf forceNewFormat [.str "toolchain_id"])
  if ← dHasChange "container" then
    return diag.FromErr (.Errorf forceNewFormat [.str "container"])
  if ← dHasChange "parameters" then
    let (parameters, err) ←
      deref (ResourceIbmToolchainToolSonarqubeMapToParameters
        (← dGetObject "parameters.0" sonarqubeParameterFields ["blind_connection"]))
    if let some err := err then
      return diag.FromErr (.lib err)
    patchServiceInstanceOptions := patchServiceInstanceOptions.SetParameters parameters
    hasChange := true
  if ← dHasChange "parameters_references" then
    hasChange := true
  if hasChange then
    let (response, err) ←
      invoke (.PatchServiceInstance patchServiceInstanceOptions)
        (ibmToolchainApiClient.PatchServiceInstanceWithContext patchServiceInstanceOptions)
    if let some err := err then
      return diag.FromErr (.Errorf "PatchServiceInstanceWithContext failed %s\n%s"
        [.err err, .response response])
  ResourceIbmToolchainToolSonarqubeRead meta

/-- The function `ResourceIbmToolchainToolSonarqubeDelete` (lines 233-252). -/
def ResourceIbmToolchainToolSonarqubeDelete (meta : conns.ClientSession) :
    CRUD diag.Diagnostics := do
  let (ibmToolchainApiClient, err) := meta.IbmToolchainApiV2
  if let some err := err then
    return diag.FromErr (.lib err)
  let deleteServiceInstanceOptions : DeleteServiceInstanceOptions := {}
  let deleteServiceInstanceOptions :=
    deleteServiceInstanceOptions.SetServiceInstanceID (← dId)
  let (response, err) ←
    invoke (.DeleteServiceInstance deleteServiceInstanceOptions)
      (ibmToolchainApiClient.DeleteServiceInstanceWithContext deleteServiceInstanceOptions)
  if let some err := err then
    return diag.FromErr (.Errorf "DeleteServiceInstanceWithContext failed %s\n%s"
      [.err err, .response response])
  dSetId ""
  return none

/-! ## resource_ibm_iam_account_settings.go -/

/-- Modelled from the spec: `idParts` (package `ibm`) is called by the account
settings resource and is not among the source files; like `flex.SepIdParts` it
splits the id on "/" and gives an error for an id without "/". -/
def idParts (id : String) : List String × Option String := flex.SepIdParts id "/"

/-- The function `resourceIbmIamAccountSettingsResponseContextToMap` (lines 297-313). -/
def resourceIbmIamAccountSettingsResponseContextToMap (responseContext : ResponseContext) :
    DynMap :=
  let responseContextMap : DynMap := []
  let responseContextMap :=
    responseContextMap.set "transaction_id" (Dyn.ofStringPtr responseContext.TransactionID)
  let responseContextMap :=
    responseContextMap.set "operation" (Dyn.ofStringPtr responseContext.Operation)
  let responseContextMap :=
    responseContextMap.set "user_agent" (Dyn.ofStringPtr responseContext.UserAgent)
  let responseContextMap := responseContextMap.set "url" (Dyn.ofStringPtr responseContext.URL)
  let responseContextMap :=
    responseContextMap.set "instance_id" (Dyn.ofStringPtr responseContext.InstanceID)
  let responseContextMap :=
    responseContextMap.set "thread_id" (Dyn.ofStringPtr responseContext.ThreadID)
  let responseContextMap := responseContextMap.set "host" (Dyn.ofStringPtr responseContext.Host)
  let responseContextMap :=
    responseContextMap.set "start_time" (Dyn.ofStringPtr responseContext.StartTime)
  let responseContextMap :=
    responseContextMap.set "end_time" (Dyn.ofStringPtr responseContext.EndTime)
  let responseContextMap :=
    responseContextMap.set "elapsed_time" (Dyn.ofStringPtr responseContext.ElapsedTime)
  let responseContextMap :=
    responseContextMap.set "cluster_name" (Dyn.ofStringPtr responseContext.ClusterName)
  responseContextMap

/-- The function `resourceIbmIamAccountSettingsEnityHistoryRecordToMap` (lines 315-326). -/
def resourceIbmIamAccountSettingsEnityHistoryRecordToMap (enityHistoryRecord : EnityHistoryRecord) :
    DynMap :=
  let enityHistoryRecordMap : DynMap := []
  let enityHistoryRecordMap :=
    enityHistoryRecordMap.set "timestamp" (Dyn.ofStringPtr enityHistoryRecord.Timestamp)
  let enityHistoryRecordMap :=
    enityHistoryRecordMap.set "iam_id" (Dyn.ofStringPtr enityHistoryRecord.IamID)
  let enityHistoryRecordMap :=
    enityHistoryRecordMap.set "iam_id_account" (Dyn.ofStringPtr enityHistoryRecord.IamIDAccount)
  let enityHistoryRecordMap :=
    enityHistoryRecordMap.set "action" (Dyn.ofStringPtr enityHistoryRecord.Action)
  let enityHistoryRecordMap :=
    enityHistoryRecordMap.set "params" (Dyn.strings (enityHistoryRecord.Params.getD []))
  let enityHistoryRecordMap :=
    enityHistoryRecordMap.set "message" (Dyn.ofStringPtr enityHistoryRecord.Message)
  enityHistoryRecordMap

/-- The function `resourceIbmIamAccountSettingsRead` (lines 229-295). -/
def resourceIbmIamAccountSettingsRead (meta : conns.ClientSession) : CRUD diag.Diagnostics := do
  let (iamIdentityClient, err) := meta.IamIdentityV1
  if let some err := err then
    return diag.FromErr (.lib err)
  let getAccountSettingsOptions : GetAccountSettingsOptions := {}
  let (parts, err) := idParts (← dId)
  if let some err := err then
    return diag.FromErr (.lib err)
  let getAccountSettingsOptions := getAccountSettingsOptions.SetAccountID (← index parts 0)
  let getAccountSettingsOptions := getAccountSettingsOptions.SetAccountID (← index parts 1)
  let getAccountSettingsOptions :=
    getAccountSettingsOptions.SetIncludeHistory (← dGetBool "include_history")
  let (accountSettingsResponse, response, err) ←
    invoke (.GetAccountSettings getAccountSettingsOptions)
      (iamIdentityClient.GetAccountSettingsWithContext getAccountSettingsOptions)
  if let some err := err then
    if is404 response then
      dSetId ""
      return none
    return diag.FromErr (.lib err)
  let accountSettingsResponse ← deref accountSettingsResponse
  if let some context := accountSettingsResponse.Context then
    let contextMap := resourceIbmIamAccountSettingsResponseContextToMap context
    if let some err := (← dSet "context" (flat.objects "context" [contextMap.flat])) then
      return diag.FromErr (.Errorf "Error setting context: %s" [.err err])
  if let some err := (← dSet "restrict_create_service_id"
      (flat.string "restrict_create_service_id"
        accountSettingsResponse.RestrictCreateServiceID)) then
    return diag.FromErr (.Errorf "Error setting restrict_create_service_id: %s" [.err err])
  if let some err := (← dSet "restrict_create_platform_apikey"
      (flat.string "restrict_create_platform_apikey"
        accountSettingsResponse.RestrictCreatePlatformApikey)) then
    return diag.FromErr (.Errorf "Error setting restrict_create_platform_apikey: %s" [.err err])
  if let some err := (← dSet "allowed_ip_addresses"
      (flat.string "allowed_ip_addresses" accountSettingsResponse.AllowedIPAddresses)) then
    return diag.FromErr (.Errorf "Error setting allowed_ip_addresses: %s" [.err err])
  if let some err := (← dSet "entity_tag"
      (flat.string "entity_tag" accountSettingsResponse.EntityTag)) then
    return diag.FromErr (.Errorf "Error setting entity_tag: %s" [.err err])
  if let some err := (← dSet "mfa" (flat.string "mfa" accountSettingsResponse.Mfa)) then
    return diag.FromErr (.Errorf "Error setting mfa: %s" [.err err])
  if let some historyItems := accountSettingsResponse.History then
    let history := historyItems.map fun historyItem =>
      (resourceIbmIamAccountSettingsEnityHistoryRecordToMap historyItem).flat
    if let some err := (← dSet "history" (flat.objects "history" history)) then
      return diag.FromErr (.Errorf "Error setting history: %s" [.err err])
  if let some err := (← dSet "session_expiration_in_seconds"
      (flat.string "session_expiration_in_seconds"
        accountSettingsResponse.SessionExpirationInSeconds)) then
    return diag.FromErr (.Errorf "Error setting session_expiration_in_seconds: %s" [.err err])
  if let some err := (← dSet "session_invalidation_in_seconds"
      (flat.string "session_invalidation_in_seconds"
        accountSettingsResponse.SessionInvalidationInSeconds)) then
    return diag.FromErr (.Errorf "Error setting session_invalidation_in_seconds: %s" [.err err])
  return none

/-- The function `resourceIbmIamAccountSettingsUpdate` (lines 328-386). -/
def resourceIbmIamAccountSettingsUpdate (meta : conns.ClientSession) : CRUD diag.Diagnostics := do
  let (iamIdentityClient, err) := meta.IamIdentityV1
  if let some err := err then
    return diag.FromErr (.lib err)
  let mut updateAccountSettingsOptions : UpdateAccountSettingsOptions := {}
  let (parts, err) := idParts (← dId)
  if let some err := err then
    return diag.FromErr (.lib err)
  updateAccountSettingsOptions := updateAccountSettingsOptions.SetAccountID (← index parts 0)
  updateAccountSettingsOptions := updateAccountSettingsOptions.SetAccountID (← index parts 1)
  updateAccountSettingsOptions := updateAccountSettingsOptions.SetIfMatch (← dGet "if_match")
  let mut hasChange := false
  if ← dHasChange "restrict_create_service_id" then
    let restrict_create_service_id_str ← dGet "restrict_create_service_id"
    updateAccountSettingsOptions :=
      updateAccountSettingsOptions.SetRestrictCreateServiceID restrict_create_service_id_str
    hasChange := true
  if ← dHasChange "restrict_create_platform_apikey" then
    let restrict_create_platform_apikey_str ← dGet "restrict_create_platform_apikey"
    updateAccountSettingsOptions :=
      updateAccountSettingsOptions.SetRestrictCreatePlatformApikey
        restrict_create_platform_apikey_str
    hasChange := true
  if ← dHasChange "mfa" then
    let mfa_str ← dGet "mfa"
    updateAccountSettingsOptions := updateAccountSettingsOptions.SetMfa mfa_str
    hasChange := true
  if ← dHasChange "session_expiration_in_seconds" then
    let session_expiration_in_seconds_str ← dGet "session_expiration_in_seconds"
    updateAccountSettingsOptions :=
      updateAccountSettingsOptions.SetSessionExpirationInSeconds session_expiration_in_seconds_str
    hasChange := true
  if ← dHasChange "session_invalidation_in_seconds" then
    let session_invalidation_in_seconds_str ← dGet "session_invalidation_in_seconds"
    updateAccountSettingsOptions :=
      updateAccountSettingsOptions.SetSessionInvalidationInSeconds
        session_invalidation_in_seconds_str
    hasChange := true
  if hasChange then
    let (_, _, err) ←
      invoke (.UpdateAccountSettings updateAccountSettingsOptions)
        (iamIdentityClient.UpdateAccountSettingsWithContext updateAccountSettingsOptions)
    if let some err := err then
      return diag.FromErr (.lib err)
  resourceIbmIamAccountSettingsRead meta

set_option linter.unusedVariables false in
/-- The function `resourceIbmIamAccountSettingsDelete` (lines 388-394). -/
def resourceIbmIamAccountSettingsDelete (meta : conns.ClientSession) : CRUD diag.Diagnostics := do
  dSetId ""
  return none

/-! ## The validators of the two property resources -/

namespace strings

/-- The predicate `unicode.IsSpace`. -/
def isSpace (c : Char) : Bool :=
  c == ' ' || c == '\t' || c == '\n' || c == '\x0b' || c == '\x0c' || c == '\r' ||
    c == '\u0085' || c == '\u00a0' || c == '\u1680' ||
    (0x2000 ≤ c.toNat && c.toNat ≤ 0x200a) ||
    c == '\u2028' || c == '\u2029' || c == '\u202f' || c == '\u205f' || c == '\u3000'

/-- The function `strings.TrimSpace`. -/
def TrimSpace (s : String) : String :=
  String.mk ((s.toList.dropWhile isSpace).reverse.dropWhile isSpace).reverse

end strings

namespace validate

/-- The identifiers of validator functions that the sources use; `zero` stands for
the constant whose value is 0, the one of a zero `ValidateSchema`. -/
inductive FunctionIdentifier where
  | zero
  | ValidateRegexpLen
  | ValidateAllowedStringValue
deriving DecidableEq

/-- The value types of `validate`; `zero` stands for the constant whose value is 0. -/
inductive ValueType where
  | zero
  | TypeString
deriving DecidableEq

/-- The struct `validate.ValidateSchema`, with the fields the sources set. -/
structure ValidateSchema where
  Identifier : String := ""
  ValidateFunctionIdentifier : FunctionIdentifier := FunctionIdentifier.zero
  Type_ : ValueType := ValueType.zero
  Required : Bool := false
  Optional : Bool := false
  Regexp : String := ""
  MinValueLength : Nat := 0
  MaxValueLength : Nat := 0
  AllowedValues : String := ""
deriving DecidableEq

/-- The struct `validate.ResourceValidator`. -/
structure ResourceValidator where
  ResourceName : String
  Schema : List ValidateSchema
deriving DecidableEq

/-- Modelled from the spec: the package `ibm/validate` is not among the source
files. The allowed values of an entry are the parts of its `AllowedValues`,
separated by commas, without the surrounding blanks. -/
def ValidateSchema.allowed (vs : ValidateSchema) : List String :=
  (strings.Split vs.AllowedValues ",").map strings.TrimSpace

/-- Modelled from the spec: the validator `ValidateAllowedStringValue` of
`ibm/validate` accepts an input exactly when it is one of the allowed values. -/
def ValidateAllowedStringValues (validValues : List String) (input : String) : Bool :=
  validValues.contains input

/-- Modelled from the spec: `validate.InvokeValidator(resource, identifier)` takes
the entry of the resource validator with that identifier; for an entry with
`ValidateAllowedStringValue` the input is accepted (`some true`) or refused
(`some false`); other entries are not decided here (`none`). -/
def ResourceValidator.accepts (rv : ResourceValidator) (identifier input : String) :
    Option Bool :=
  match rv.Schema.find? fun vs => vs.Identifier == identifier with
  | none => none
  | some vs =>
    match vs.ValidateFunctionIdentifier with
    | FunctionIdentifier.ValidateAllowedStringValue =>
      some (ValidateAllowedStringValues vs.allowed input)
    | _ => none

end validate

/-- The function `ResourceIBMTektonPipelineTriggerPropertyValidator` (lines 107-166);
`make([]validate.ValidateSchema, 1)` puts a zero entry before the appended ones. -/
def ResourceIBMTektonPipelineTriggerPropertyValidator : validate.ResourceValidator :=
  let validateSchema : List validate.ValidateSchema := List.replicate 1 {}
  let validateSchema := validateSchema ++ [
    { Identifier := "pipeline_id",
      ValidateFunctionIdentifier := .ValidateRegexpLen,
      Type_ := .TypeString,
      Required := true,
      Regexp := "^[-0-9a-z]+$",
      MinValueLength := 36,
      MaxValueLength := 36 },
    { Identifier := "trigger_id",
      ValidateFunctionIdentifier := .ValidateRegexpLen,
      Type_ := .TypeString,
      Required := true,
      Regexp := "^[-0-9a-z]+$",
      MinValueLength := 36,
      MaxValueLength := 36 },
    { Identifier := "name",
      ValidateFunctionIdentifier := .ValidateRegexpLen,
      Type_ := .TypeString,
      Optional := true,
      Regexp := "^[-0-9a-zA-Z_.]{1,234}$",
      MinValueLength := 1,
      MaxValueLength := 253 },
    { Identifier := "value",
      ValidateFunctionIdentifier := .ValidateRegexpLen,
      Type_ := .TypeString,
      Optional := true,
      Regexp := ".",
      MinValueLength := 1,
      MaxValueLength := 4096 },
    { Identifier := "type",
      ValidateFunctionIdentifier := .ValidateAllowedStringValue,
      Type_ := .TypeString,
      Optional := true,
      AllowedValues := "INTEGRATION, SECURE, SINGLE_SELECT, TEXT, APPCONFIG" },
    { Identifier := "path",
      ValidateFunctionIdentifier := .ValidateRegexpLen,
      Type_ := .TypeString,
      Optional := true,
      Regexp := ".",
      MinValueLength := 1,
      MaxValueLength := 4096 }]
  { ResourceName := "ibm_tekton_pipeline_trigger_property", Schema := validateSchema }

/-- The function `ResourceIBMTektonPipelinePropertyValidator` (lines 69-119). -/
def ResourceIBMTektonPipelinePropertyValidator : validate.ResourceValidator :=
  let validateSchema : List validate.ValidateSchema := List.replicate 1 {}
  let validateSchema := validateSchema ++ [
    { Identifier := "pipeline_id",
      ValidateFunctionIdentifier := .ValidateRegexpLen,
      Type_ := .TypeString,
      Required := true,
      Regexp := "^[-0-9a-z]+$",
      MinValueLength := 36,
      MaxValueLength := 36 },
    { Identifier := "name",
      ValidateFunctionIdentifier := .ValidateRegexpLen,
      Type_ := .TypeString,
      Optional := true,
      Regexp := "^[-0-9a-zA-Z_.]{1,234}$",
      MinValueLength := 1,
      MaxValueLength := 253 },
    { Identifier := "value",
      ValidateFunctionIdentifier := .ValidateRegexpLen,
      Type_ := .TypeString,
      Optional := true,
      Regexp := ".",
      MinValueLength := 1,
      MaxValueLength := 4096 },
    { Identifier := "type",
      ValidateFunctionIdentifier := .ValidateAllowedStringValue,
      Type_ := .TypeString,
      Optional := true,
      AllowedValues := "INTEGRATION, SECURE, SINGLE_SELECT, TEXT" },
    { Identifier := "path",
      ValidateFunctionIdentifier := .ValidateRegexpLen,
      Type_ := .TypeString,
      Optional := true,
      Regexp := ".",
      MinValueLength := 1,
      MaxValueLength := 4096 }]
  { ResourceName := "ibm_tekton_pipeline_property", Schema := validateSchema }

/-- The declared types of the specification:
TEXT, SECURE, SINGLE_SELECT, INTEGRATION, APPCONFIG. -/
def declaredTypes : List String := ["TEXT", "SECURE", "SINGLE_SELECT", "INTEGRATION", "APPCONFIG"]

/-- The entry `session_expiration_in_seconds` of the schema map of
`resourceIbmIamAccountSettings` (lines 185-190): it has no `ValidateFunc`. -/
def resourceIbmIamAccountSettings_session_expiration_in_seconds : schema.Schema :=
  { Type_ := .TypeString,
    Optional := true,
    Computed := true,
    Description := "Defines the session expiration in seconds for the account. Valid values:  * Any whole number between between '900' and '86400'  * NOT_SET - To unset account setting and use service default." }

/-! ## A session for the examples -/

/-- A session in which every client is obtained and every request succeeds: the
pipeline service answers with a SECURE trigger property whose value is
"secretValue" and with a TEXT property, the toolchain services and the identity
service with fixed records. -/
def exampleSession : conns.ClientSession :=
  { ContinuousDeliveryPipelineV2 :=
      ({ CreateTektonPipelineTriggerPropertiesWithContext := fun _ =>
           (some { Name := some "name1", Value := some "secretValue", Type_ := some "SECURE" },
            some { StatusCode := 201 }, none),
         GetTektonPipelineTriggerPropertyWithContext := fun _ =>
           (some { Name := some "name1", Value := some "secretValue", Type_ := some "SECURE" },
            some { StatusCode := 200 }, none),
         ReplaceTektonPipelineTriggerPropertyWithContext := fun _ =>
           (some { Name := some "name1", Value := some "secretValue", Type_ := some "SECURE" },
            some { StatusCode := 200 }, none),
         DeleteTektonPipelineTriggerPropertyWithContext := fun _ =>
           (some { StatusCode := 204 }, none),
         CreateTektonPipelinePropertiesWithContext := fun _ =>
           (some { Name := some "name1", Value := some "v", Type_ := some "TEXT" },
            some { StatusCode := 201 }, none),
         GetTektonPipelinePropertyWithContext := fun _ =>
           (some { Name := some "name1", Value := some "v", Type_ := some "TEXT" },
            some { StatusCode := 200 }, none),
         ReplaceTektonPipelinePropertyWithContext := fun _ =>
           (some { Name := some "name1", Value := some "v", Type_ := some "TEXT" },
            some { StatusCode := 200 }, none),
         DeleteTektonPipelinePropertyWithContext := fun _ =>
           (some { StatusCode := 204 }, none) }, none),
    ToolchainV2 :=
      ({ PostIntegrationWithContext := fun _ =>
           (some { ID := some "i1" }, some { StatusCode := 201 }, none),
         GetIntegrationByIDWithContext := fun _ =>
           (some { ID := some "i1", ToolchainID := some "tc1", Name := some "sm",
                   Referent := some {} }, some { StatusCode := 200 }, none),
         PatchToolIntegrationWithContext := fun _ => (some (), some { StatusCode := 200 }, none),
         DeleteToolIntegrationWithContext := fun _ => (some { StatusCode := 204 }, none) }, none),
    IbmToolchainApiV2 :=
      ({ CreateServiceInstanceWithContext := fun _ =>
           (some { InstanceID := some "inst1", ToolchainID := some "tc1" },
            some { StatusCode := 201 }, none),
         GetServiceInstanceWithContext := fun _ =>
           (some { InstanceID := some "inst1", ToolchainID := some "tc1" },
            some { StatusCode := 200 }, none),
         PatchServiceInstanceWithContext := fun _ => (some { StatusCode := 200 }, none),
         DeleteServiceInstanceWithContext := fun _ => (some { StatusCode := 204 }, none) }, none),
    IamIdentityV1 :=
      ({ GetAccountSettingsWithContext := fun _ =>
           (some { AccountID := some "acc1", SessionExpirationInSeconds := some "abc" },
            some { StatusCode := 200 }, none),
         UpdateAccountSettingsWithContext := fun _ =>
           (some { AccountID := some "acc1", SessionExpirationInSeconds := some "abc" },
            some { StatusCode := 200 }, none) }, none) }

/-- A stored digest record in the words of the specification (section 3):
`"hash:<algorithm-name>:<hex-digest>"`. -/
def IsStoredDigestRecord (s : String) : Prop :=
  ∃ algorithm digest : String, s = "hash:" ++ algorithm ++ ":" ++ digest ∧
    ∀ c ∈ digest.toList, c ∈ "0123456789abcdef".toList

/-! ## Example resource data -/

/-- A TEXT trigger property `p1/t1/name1` whose configured value "newValue" differs
from the value "oldValue" of the prior state; nothing else has changed. -/
def valueChanged : schema.ResourceData :=
  { id := "p1/t1/name1",
    attrs := [("pipeline_id", "p1"), ("trigger_id", "t1"), ("name", "name1"),
      ("value", "newValue"), ("type", "TEXT")],
    state := [("pipeline_id", "p1"), ("trigger_id", "t1"), ("name", "name1"),
      ("value", "oldValue"), ("type", "TEXT")] }

/-- A TEXT pipeline property `p1/name1` with the same change of its value. -/
def propertyValueChanged : schema.ResourceData :=
  { id := "p1/name1",
    attrs := [("pipeline_id", "p1"), ("name", "name1"), ("value", "newValue"), ("type", "TEXT")],
    state := [("pipeline_id", "p1"), ("name", "name1"), ("value", "oldValue"), ("type", "TEXT")] }

/-- Account settings `acc1/acc1` whose configured session expiration "abc" differs
from the "NOT_SET" of the prior state. -/
def sessionChanged : schema.ResourceData :=
  { id := "acc1/acc1",
    attrs := [("session_expiration_in_seconds", "abc")],
    state := [("session_expiration_in_seconds", "NOT_SET")] }

/-- The decimal value of a string of digits. -/
def decimalValue (s : String) : Nat :=
  s.toList.foldl (fun n c => 10 * n + (c.toNat - '0'.toNat)) 0

/-- The valid values of `session_expiration_in_seconds` in the words of its
description: a whole number between 900 and 86400, or NOT_SET. -/
def validSessionExpiration (s : String) : Bool :=
  s == "NOT_SET" ||
    (!s.toList.isEmpty && s.toList.all Char.isDigit && decide (900 ≤ decimalValue s) &&
      decide (decimalValue s ≤ 86400))

/-! ## The identifiers the validators admit -/

/-- The strings that the regular expression `^[-0-9a-z]+$` of the validator entries
`pipeline_id` and `trigger_id` matches (in Go's `regexp`, `$` without flags is the
end of the text): non-empty, every character `-`, a digit or a letter a-z. -/
def matchesIdRegexp (s : String) : Bool :=
  !s.toList.isEmpty && s.toList.all fun c => c == '-' || c.isDigit || c.isLower

/-- A session in which every client is obtained and every lookup fails with the
error "not found" and the given response; the other requests succeed as in
`exampleSession`. -/
def failingSession (response : Option core.DetailedResponse) : conns.ClientSession :=
  { ContinuousDeliveryPipelineV2 :=
      ({ exampleSession.ContinuousDeliveryPipelineV2.1 with
         GetTektonPipelineTriggerPropertyWithContext := fun _ => (none, response, some "not found"),
         GetTektonPipelinePropertyWithContext := fun _ => (none, response, some "not found") },
       none),
    ToolchainV2 :=
      ({ exampleSession.ToolchainV2.1 with
         GetIntegrationByIDWithContext := fun _ => (none, response, some "not found") }, none),
    IbmToolchainApiV2 :=
      ({ exampleSession.IbmToolchainApiV2.1 with
         GetServiceInstanceWithContext := fun _ => (none, response, some "not found") }, none),
    IamIdentityV1 :=
      ({ exampleSession.IamIdentityV1.1 with
         GetAccountSettingsWithContext := fun _ => (none, response, some "not found") }, none) }

/-- A SINGLE_SELECT pipeline property `p1/name1` whose options and value have both
changed. -/
def selectChanged : schema.ResourceData :=
  { id := "p1/name1",
    attrs := [("type", "SINGLE_SELECT"), ("options.%", "1"), ("options.a", "x"),
      ("value", "new")],
    state := [("type", "SINGLE_SELECT"), ("options.%", "0"), ("value", "old")] }

/-! ## The parameters of the Secrets Manager tool in the words of the specification -/

/-- The four parameters: the key of the Terraform map and the key of the service. -/
def secretsmanagerParameterKeys : List (String × String) :=
  [("name", "name"), ("region", "region"), ("resource_group", "resource-group"),
    ("instance_name", "instance-name")]

/-- A Terraform parameter map restricted to the four keys that have a non-nil
value. -/
def restrictParameters (m : DynMap) : DynMap :=
  secretsmanagerParameterFields.filterMap fun k =>
    if m.get k != Dyn.nil then some (k, m.get k) else none

/-! ## resource_ibm_tekton_pipeline.go: the trigger converters

A `map[string]interface{}` built by a converter is the list of its entries; the
values are the pointers, slices and maps that the converters store, nil ones
included. -/

/-- A value stored in a `map[string]interface{}` by the converters: a `*string`, a
`*bool`, an `int`, a `[]string`, a map of strings (each of the first and the last
two possibly nil), or a `[]map[string]interface{}`. -/
inductive Value where
  | stringPtr (p : Option String)
  | boolPtr (p : Option Bool)
  | int (n : Int)
  | strings (l : Option (List String))
  | stringMap (m : Option (List (String × String)))
  | maps (l : List (List (String × Value)))

/-- A `map[string]interface{}` of the converters. -/
abbrev ValueMap : Type := List (String × Value)

/-- The assignment `modelMap[key] = v`. -/
def ValueMap.set (modelMap : ValueMap) (key : String) (v : Value) : ValueMap :=
  (modelMap.filter fun e => e.1 != key) ++ [(key, v)]

/-- The statement `if p != nil { modelMap[key] = p }`, with `notNil` the test and `v`
the value stored. -/
def setIfNotNil (modelMap : ValueMap) (key : String) (notNil : Bool) (v : Value) : ValueMap :=
  if notNil then modelMap.set key v else modelMap

/-- The statements
`if p != nil { m, err := conv(p); if err != nil { return modelMap, err };
modelMap[key] = []map[string]interface{}{m} }`: the early return is the error
result, with the map built so far. -/
def setNested {α : Type} (modelMap : ValueMap) (key : String) (p : Option α)
    (conv : α → ValueMap × Option GoError) : Except (ValueMap × GoError) ValueMap :=
  match p with
  | none => .ok modelMap
  | some a =>
    match conv a with
    | (_, some err) => .error (modelMap, err)
    | (m, none) => .ok (modelMap.set key (Value.maps [m]))

/-- The loop `for _, propertiesItem := range items { m, err := conv(&propertiesItem);
if err != nil { return ... }; properties = append(properties, m) }`. -/
def propertiesLoop {α : Type} (conv : α → ValueMap × Option GoError) :
    List α → List ValueMap → Except GoError (List ValueMap)
  | [], properties => .ok properties
  | propertiesItem :: rest, properties =>
    match conv propertiesItem with
    | (_, some err) => .error err
    | (propertiesItemMap, none) => propertiesLoop conv rest (properties ++ [propertiesItemMap])

/-- The statements `if model.Properties != nil { properties := []map[string]interface{}{};
for ... ; modelMap["properties"] = properties }`. -/
def setProperties {α : Type} (modelMap : ValueMap) (items : Option (List α))
    (conv : α → ValueMap × Option GoError) : Except (ValueMap × GoError) ValueMap :=
  match items with
  | none => .ok modelMap
  | some items =>
    match propertiesLoop conv items [] with
    | .error err => .error (modelMap, err)
    | .ok properties => .ok (modelMap.set "properties" (Value.maps properties))

/-- The two results `modelMap, err` of a converter, from its body: the map at
`return modelMap, nil`, or the map and the error at an early return. -/
def toResult (r : Except (ValueMap × GoError) ValueMap) : Option ValueMap × Option GoError :=
  match r with
  | .ok modelMap => (some modelMap, none)
  | .error (modelMap, err) => (some modelMap, some err)

/-- Modelled from the spec: `flex.IntValue` (package `ibm/flex`) is not among the
source files; it gives the integer a `*int64` points to (0 here for nil, where the
converters do not call it). -/
def flex.IntValue (i64 : Option Int) : Int := i64.getD 0

namespace continuousdeliverypipelinev2

/-- The struct `TriggerPropertiesItem`, with the fields the converter reads. -/
structure TriggerPropertiesItem where
  Name : Option String := none
  Value : Option String := none
  Options : Option (List (String × String)) := none
  Type_ : Option String := none
  Path : Option String := none
  Href : Option String := none

/-- The struct `TriggerConcurrency`. -/
structure TriggerConcurrency where
  MaxConcurrentRuns : Option Int := none

/-- The struct `TriggerManualTriggerPropertiesItem`, with the fields the converter reads. -/
structure TriggerManualTriggerPropertiesItem where
  Name : Option String := none
  Value : Option String := none
  Options : Option (List (String × String)) := none
  Type_ : Option String := none
  Path : Option String := none
  Href : Option String := none

/-- The struct `TriggerManualTriggerConcurrency`. -/
structure TriggerManualTriggerConcurrency where
  MaxConcurrentRuns : Option Int := none

/-- The struct `TriggerScmTriggerPropertiesItem`, with the fields the converter reads. -/
structure TriggerScmTriggerPropertiesItem where
  Name : Option String := none
  Value : Option String := none
  Options : Option (List (String × String)) := none
  Type_ : Option String := none
  Path : Option String := none
  Href : Option String := none

/-- The struct `TriggerScmTriggerConcurrency`. -/
structure TriggerScmTriggerConcurrency where
  MaxConcurrentRuns : Option Int := none

/-- The struct `TriggerTimerTriggerPropertiesItem`, with the fields the converter reads. -/
structure TriggerTimerTriggerPropertiesItem where
  Name : Option String := none
  Value : Option String := none
  Options : Option (List (String × String)) := none
  Type_ : Option String := none
  Path : Option String := none
  Href : Option String := none

/-- The struct `TriggerTimerTriggerConcurrency`. -/
structure TriggerTimerTriggerConcurrency where
  MaxConcurrentRuns : Option Int := none

/-- The struct `TriggerGenericTriggerPropertiesItem`, with the fields the converter reads. -/
structure TriggerGenericTriggerPropertiesItem where
  Name : Option String := none
  Value : Option String := none
  Options : Option (List (String × String)) := none
  Type_ : Option String := none
  Path : Option String := none
  Href : Option String := none

/-- The struct `TriggerGenericTriggerConcurrency`. -/
structure TriggerGenericTriggerConcurrency where
  MaxConcurrentRuns : Option Int := none

/-- The struct `Worker`. -/
structure Worker where
  Name : Option String := none
  Type_ : Option String := none
  ID : Option String := none

/-- The struct `TriggerScmSource`. -/
structure TriggerScmSource where
  URL : Option String := none
  Branch : Option String := none
  BlindConnection : Option Bool := none
  HookID : Option String := none

/-- The struct `Events`. -/
structure Events where
  Push : Option Bool := none
  PullRequestClosed : Option Bool := none
  PullRequest : Option Bool := none

/-- The struct `GenericSecret`. -/
structure GenericSecret where
  Type_ : Option String := none
  Value : Option String := none
  Source : Option String := none
  KeyName : Option String := none
  Algorithm : Option String := none

/-- The struct `Trigger`, with the fields the converter reads; a slice or a pointer is `none` for nil. -/
structure Trigger where
  Type_ : Option String := none
  Name : Option String := none
  EventListener : Option String := none
  ID : Option String := none
  Properties : Option (List TriggerPropertiesItem) := none
  Tags : Option (List String) := none
  Worker : Option Worker := none
  Concurrency : Option TriggerConcurrency := none
  Disabled : Option Bool := none
  ScmSource : Option TriggerScmSource := none
  Events : Option Events := none
  ServiceInstanceID : Option String := none
  Cron : Option String := none
  Timezone : Option String := none
  Secret : Option GenericSecret := none

/-- The struct `TriggerManualTrigger`, with the fields the converter reads; a slice or a pointer is `none` for nil. -/
structure TriggerManualTrigger where
  Type_ : Option String := none
  Name : Option String := none
  EventListener : Option String := none
  ID : Option String := none
  Properties : Option (List TriggerManualTriggerPropertiesItem) := none
  Tags : Option (List String) := none
  Worker : Option Worker := none
  Concurrency : Option TriggerManualTriggerConcurrency := none
  Disabled : Option Bool := none

/-- The struct `TriggerScmTrigger`, with the fields the converter reads; a slice or a pointer is `none` for nil. -/
structure TriggerScmTrigger where
  Type_ : Option String := none
  Name : Option String := none
  EventListener : Option String := none
  ID : Option String := none
  Properties : Option (List TriggerScmTriggerPropertiesItem) := none
  Tags : Option (List String) := none
  Worker : Option Worker := none
  Concurrency : Option TriggerScmTriggerConcurrency := none
  Disabled : Option Bool := none
  ScmSource : Option TriggerScmSource := none
  Events : Option Events := none
  ServiceInstanceID : Option String := none

/-- The struct `TriggerTimerTrigger`, with the fields the converter reads; a slice or a pointer is `none` for nil. -/
structure TriggerTimerTrigger where
  Type_ : Option String := none
  Name : Option String := none
  EventListener : Option String := none
  ID : Option String := none
  Properties : Option (List TriggerTimerTriggerPropertiesItem) := none
  Tags : Option (List String) := none
  Worker : Option Worker := none
  Concurrency : Option TriggerTimerTriggerConcurrency := none
  Disabled : Option Bool := none
  Cron : Option String := none
  Timezone : Option String := none

/-- The struct `TriggerGenericTrigger`, with the fields the converter reads; a slice or a pointer is `none` for nil. -/
structure TriggerGenericTrigger where
  Type_ : Option String := none
  Name : Option String := none
  EventListener : Option String := none
  ID : Option String := none
  Properties : Option (List TriggerGenericTriggerPropertiesItem) := none
  Tags : Option (List String) := none
  Worker : Option Worker := none
  Concurrency : Option TriggerGenericTriggerConcurrency := none
  Disabled : Option Bool := none
  Secret : Option GenericSecret := none

/-- A value of the interface `TriggerIntf`, by its dynamic type: a pointer (possibly
nil) to one of the five trigger structs, a value of another type that implements
the interface, or the nil interface. -/
inductive TriggerIntf where
  | manual (p : Option TriggerManualTrigger)
  | scm (p : Option TriggerScmTrigger)
  | timer (p : Option TriggerTimerTrigger)
  | generic (p : Option TriggerGenericTrigger)
  | base (p : Option Trigger)
  | other (typeName : String)
  | nil

end continuousdeliverypipelinev2

/-- The function `ResourceIBMTektonPipelineTriggerPropertiesItemToMap` (lines 898-915); its pointer argument is not nil at any
call, and is taken by its value. -/
def ResourceIBMTektonPipelineTriggerPropertiesItemToMap (model : TriggerPropertiesItem) :
    ValueMap × Option GoError :=
  let modelMap : ValueMap := []
  let modelMap := modelMap.set "name" (Value.stringPtr model.Name)
  let modelMap := setIfNotNil modelMap "value" model.Value.isSome (Value.stringPtr model.Value)
  let modelMap := setIfNotNil modelMap "options" model.Options.isSome
    (Value.stringMap model.Options)
  let modelMap := modelMap.set "type" (Value.stringPtr model.Type_)
  let modelMap := setIfNotNil modelMap "path" model.Path.isSome (Value.stringPtr model.Path)
  let modelMap := setIfNotNil modelMap "href" model.Href.isSome (Value.stringPtr model.Href)
  (modelMap, none)

/-- The function `ResourceIBMTektonPipelineWorkerToMap` (lines 917-927); its pointer argument is not nil at any
call, and is taken by its value. -/
def ResourceIBMTektonPipelineWorkerToMap (model : Worker) :
    ValueMap × Option GoError :=
  let modelMap : ValueMap := []
  let modelMap := setIfNotNil modelMap "name" model.Name.isSome (Value.stringPtr model.Name)
  let modelMap := setIfNotNil modelMap "type" model.Type_.isSome (Value.stringPtr model.Type_)
  let modelMap := modelMap.set "id" (Value.stringPtr model.ID)
  (modelMap, none)

/-- The function `ResourceIBMTektonPipelineTriggerConcurrencyToMap` (lines 929-935); its pointer argument is not nil at any
call, and is taken by its value. -/
def ResourceIBMTektonPipelineTriggerConcurrencyToMap (model : TriggerConcurrency) :
    ValueMap × Option GoError :=
  let modelMap : ValueMap := []
  let modelMap := setIfNotNil modelMap "max_concurrent_runs" model.MaxConcurrentRuns.isSome
    (Value.int (flex.IntValue model.MaxConcurrentRuns))
  (modelMap, none)

/-- The function `ResourceIBMTektonPipelineTriggerScmSourceToMap` (lines 937-952); its pointer argument is not nil at any
call, and is taken by its value. -/
def ResourceIBMTektonPipelineTriggerScmSourceToMap (model : TriggerScmSource) :
    ValueMap × Option GoError :=
  let modelMap : ValueMap := []
  let modelMap := setIfNotNil modelMap "url" model.URL.isSome (Value.stringPtr model.URL)
  let modelMap := setIfNotNil modelMap "branch" model.Branch.isSome (Value.stringPtr model.Branch)
  let modelMap := setIfNotNil modelMap "blind_connection" model.BlindConnection.isSome
    (Value.boolPtr model.BlindConnection)
  let modelMap := setIfNotNil modelMap "hook_id" model.HookID.isSome (Value.stringPtr model.HookID)
  (modelMap, none)

/-- The function `ResourceIBMTektonPipelineEventsToMap` (lines 954-966); its pointer argument is not nil at any
call, and is taken by its value. -/
def ResourceIBMTektonPipelineEventsToMap (model : Events) :
    ValueMap × Option GoError :=
  let modelMap : ValueMap := []
  let modelMap := setIfNotNil modelMap "push" model.Push.isSome (Value.boolPtr model.Push)
  let modelMap := setIfNotNil modelMap "pull_request_closed" model.PullRequestClosed.isSome
    (Value.boolPtr model.PullRequestClosed)
  let modelMap := setIfNotNil modelMap "pull_request" model.PullRequest.isSome
    (Value.boolPtr model.PullRequest)
  (modelMap, none)

/-- The function `ResourceIBMTektonPipelineGenericSecretToMap` (lines 968-986); its pointer argument is not nil at any
call, and is taken by its value. -/
def ResourceIBMTektonPipelineGenericSecretToMap (model : GenericSecret) :
    ValueMap × Option GoError :=
  let modelMap : ValueMap := []
  let modelMap := setIfNotNil modelMap "type" model.Type_.isSome (Value.stringPtr model.Type_)
  let modelMap := setIfNotNil modelMap "value" model.Value.isSome (Value.stringPtr model.Value)
  let modelMap := setIfNotNil modelMap "source" model.Source.isSome (Value.stringPtr model.Source)
  let modelMap := setIfNotNil modelMap "key_name" model.KeyName.isSome
    (Value.stringPtr model.KeyName)
  let modelMap := setIfNotNil modelMap "algorithm" model.Algorithm.isSome
    (Value.stringPtr model.Algorithm)
  (modelMap, none)

/-- The function `ResourceIBMTektonPipelineTriggerManualTriggerPropertiesItemToMap` (lines 1028-1045); its pointer argument is not nil at any
call, and is taken by its value. -/
def ResourceIBMTektonPipelineTriggerManualTriggerPropertiesItemToMap (model : TriggerManualTriggerPropertiesItem) :
    ValueMap × Option GoError :=
  let modelMap : ValueMap := []
  let modelMap := modelMap.set "name" (Value.stringPtr model.Name)
  let modelMap := setIfNotNil modelMap "value" model.Value.isSome (Value.stringPtr model.Value)
  let modelMap := setIfNotNil modelMap "options" model.Options.isSome
    (Value.stringMap model.Options)
  let modelMap := modelMap.set "type" (Value.stringPtr model.Type_)
  let modelMap := setIfNotNil modelMap "path" model.Path.isSome (Value.stringPtr model.Path)
  let modelMap := setIfNotNil modelMap "href" model.Href.isSome (Value.stringPtr model.Href)
  (modelMap, none)

/-- The function `ResourceIBMTektonPipelineTriggerManualTriggerConcurrencyToMap` (lines 1047-1053); its pointer argument is not nil at any
call, and is taken by its value. -/
def ResourceIBMTektonPipelineTriggerManualTriggerConcurrencyToMap (model : TriggerManualTriggerConcurrency) :
    ValueMap × Option GoError :=
  let modelMap : ValueMap := []
  let modelMap := setIfNotNil modelMap "max_concurrent_runs" model.MaxConcurrentRuns.isSome
    (Value.int (flex.IntValue model.MaxConcurrentRuns))
  (modelMap, none)

/-- The function `ResourceIBMTektonPipelineTriggerManualTriggerToMap` (lines 988-1026): a nil `model` is
dereferenced at its first statement. -/
def ResourceIBMTektonPipelineTriggerManualTriggerToMap (model : Option TriggerManualTrigger) :
    Option (Option ValueMap × Option GoError) :=
  match model with
  | none => none
  | some model => some (toResult (do
    let modelMap : ValueMap := []
    let modelMap := modelMap.set "type" (Value.stringPtr model.Type_)
    let modelMap := modelMap.set "name" (Value.stringPtr model.Name)
    let modelMap := modelMap.set "event_listener" (Value.stringPtr model.EventListener)
    let modelMap := setIfNotNil modelMap "id" model.ID.isSome (Value.stringPtr model.ID)
    let modelMap ← setProperties modelMap model.Properties
      ResourceIBMTektonPipelineTriggerManualTriggerPropertiesItemToMap
    let modelMap := setIfNotNil modelMap "tags" model.Tags.isSome (Value.strings model.Tags)
    let modelMap ← setNested modelMap "worker" model.Worker
      ResourceIBMTektonPipelineWorkerToMap
    let modelMap ← setNested modelMap "concurrency" model.Concurrency
      ResourceIBMTektonPipelineTriggerManualTriggerConcurrencyToMap
    let modelMap := modelMap.set "disabled" (Value.boolPtr model.Disabled)
    return modelMap))

/-- The function `ResourceIBMTektonPipelineTriggerScmTriggerPropertiesItemToMap` (lines 1112-1129); its pointer argument is not nil at any
call, and is taken by its value. -/
def ResourceIBMTektonPipelineTriggerScmTriggerPropertiesItemToMap (model : TriggerScmTriggerPropertiesItem) :
    ValueMap × Option GoError :=
  let modelMap : ValueMap := []
  let modelMap := modelMap.set "name" (Value.stringPtr model.Name)
  let modelMap := setIfNotNil modelMap "value" model.Value.isSome (Value.stringPtr model.Value)
  let modelMap := setIfNotNil modelMap "options" model.Options.isSome
    (Value.stringMap model.Options)
  let modelMap := modelMap.set "type" (Value.stringPtr model.Type_)
  let modelMap := setIfNotNil modelMap "path" model.Path.isSome (Value.stringPtr model.Path)
  let modelMap := setIfNotNil modelMap "href" model.Href.isSome (Value.stringPtr model.Href)
  (modelMap, none)

/-- The function `ResourceIBMTektonPipelineTriggerScmTriggerConcurrencyToMap` (lines 1131-1137); its pointer argument is not nil at any
call, and is taken by its value. -/
def ResourceIBMTektonPipelineTriggerScmTriggerConcurrencyToMap (model : TriggerScmTriggerConcurrency) :
    ValueMap × Option GoError :=
  let modelMap : ValueMap := []
  let modelMap := setIfNotNil modelMap "max_concurrent_runs" model.MaxConcurrentRuns.isSome
    (Value.int (flex.IntValue model.MaxConcurrentRuns))
  (modelMap, none)

/-- The function `ResourceIBMTektonPipelineTriggerScmTriggerToMap` (lines 1055-1110): a nil `model` is
dereferenced at its first statement. -/
def ResourceIBMTektonPipelineTriggerScmTriggerToMap (model : Option TriggerScmTrigger) :
    Option (Option ValueMap × Option GoError) :=
  match model with
  | none => none
  | some model => some (toResult (do
    let modelMap : ValueMap := []
    let modelMap := modelMap.set "type" (Value.stringPtr model.Type_)
    let modelMap := modelMap.set "name" (Value.stringPtr model.Name)
    let modelMap := modelMap.set "event_listener" (Value.stringPtr model.EventListener)
    let modelMap := setIfNotNil modelMap "id" model.ID.isSome (Value.stringPtr model.ID)
    let modelMap ← setProperties modelMap model.Properties
      ResourceIBMTektonPipelineTriggerScmTriggerPropertiesItemToMap
    let modelMap := setIfNotNil modelMap "tags" model.Tags.isSome (Value.strings model.Tags)
    let modelMap ← setNested modelMap "worker" model.Worker
      ResourceIBMTektonPipelineWorkerToMap
    let modelMap ← setNested modelMap "concurrency" model.Concurrency
      ResourceIBMTektonPipelineTriggerScmTriggerConcurrencyToMap
    let modelMap := modelMap.set "disabled" (Value.boolPtr model.Disabled)
    let modelMap ← setNested modelMap "scm_source" model.ScmSource
      ResourceIBMTektonPipelineTriggerScmSourceToMap
    let modelMap ← setNested modelMap "events" model.Events
      ResourceIBMTektonPipelineEventsToMap
    let modelMap := setIfNotNil modelMap "service_instance_id" model.ServiceInstanceID.isSome
      (Value.stringPtr model.ServiceInstanceID)
    return modelMap))

/-- The function `ResourceIBMTektonPipelineTriggerTimerTriggerPropertiesItemToMap` (lines 1185-1202); its pointer argument is not nil at any
call, and is taken by its value. -/
def ResourceIBMTektonPipelineTriggerTimerTriggerPropertiesItemToMap (model : TriggerTimerTriggerPropertiesItem) :
    ValueMap × Option GoError :=
  let modelMap : ValueMap := []
  let modelMap := modelMap.set "name" (Value.stringPtr model.Name)
  let modelMap := setIfNotNil modelMap "value" model.Value.isSome (Value.stringPtr model.Value)
  let modelMap := setIfNotNil modelMap "options" model.Options.isSome
    (Value.stringMap model.Options)
  let modelMap := modelMap.set "type" (Value.stringPtr model.Type_)
  let modelMap := setIfNotNil modelMap "path" model.Path.isSome (Value.stringPtr model.Path)
  let modelMap := setIfNotNil modelMap "href" model.Href.isSome (Value.stringPtr model.Href)
  (modelMap, none)

/-- The function `ResourceIBMTektonPipelineTriggerTimerTriggerConcurrencyToMap` (lines 1204-1210); its pointer argument is not nil at any
call, and is taken by its value. -/
def ResourceIBMTektonPipelineTriggerTimerTriggerConcurrencyToMap (model : TriggerTimerTriggerConcurrency) :
    ValueMap × Option GoError :=
  let modelMap : ValueMap := []
  let modelMap := setIfNotNil modelMap "max_concurrent_runs" model.MaxConcurrentRuns.isSome
    (Value.int (flex.IntValue model.MaxConcurrentRuns))
  (modelMap, none)

/-- The function `ResourceIBMTektonPipelineTriggerTimerTriggerToMap` (lines 1139-1183): a nil `model` is
dereferenced at its first statement. -/
def ResourceIBMTektonPipelineTriggerTimerTriggerToMap (model : Option TriggerTimerTrigger) :
    Option (Option ValueMap × Option GoError) :=
  match model with
  | none => none
  | some model => some (toResult (do
    let modelMap : ValueMap := []
    let modelMap := modelMap.set "type" (Value.stringPtr model.Type_)
    let modelMap := modelMap.set "name" (Value.stringPtr model.Name)
    let modelMap := modelMap.set "event_listener" (Value.stringPtr model.EventListener)
    let modelMap := setIfNotNil modelMap "id" model.ID.isSome (Value.stringPtr model.ID)
    let modelMap ← setProperties modelMap model.Properties
      ResourceIBMTektonPipelineTriggerTimerTriggerPropertiesItemToMap
    let modelMap := setIfNotNil modelMap "tags" model.Tags.isSome (Value.strings model.Tags)
    let modelMap ← setNested modelMap "worker" model.Worker
      ResourceIBMTektonPipelineWorkerToMap
    let modelMap ← setNested modelMap "concurrency" model.Concurrency
      ResourceIBMTektonPipelineTriggerTimerTriggerConcurrencyToMap
    let modelMap := modelMap.set "disabled" (Value.boolPtr model.Disabled)
    let modelMap := setIfNotNil modelMap "cron" model.Cron.isSome (Value.stringPtr model.Cron)
    let modelMap := setIfNotNil modelMap "timezone" model.Timezone.isSome
      (Value.stringPtr model.Timezone)
    return modelMap))

/-- The function `ResourceIBMTektonPipelineTriggerGenericTriggerPropertiesItemToMap` (lines 1259-1276); its pointer argument is not nil at any
call, and is taken by its value. -/
def ResourceIBMTektonPipelineTriggerGenericTriggerPropertiesItemToMap (model : TriggerGenericTriggerPropertiesItem) :
    ValueMap × Option GoError :=
  let modelMap : ValueMap := []
  let modelMap := modelMap.set "name" (Value.stringPtr model.Name)
  let modelMap := setIfNotNil modelMap "value" model.Value.isSome (Value.stringPtr model.Value)
  let modelMap := setIfNotNil modelMap "options" model.Options.isSome
    (Value.stringMap model.Options)
  let modelMap := modelMap.set "type" (Value.stringPtr model.Type_)
  let modelMap := setIfNotNil modelMap "path" model.Path.isSome (Value.stringPtr model.Path)
  let modelMap := setIfNotNil modelMap "href" model.Href.isSome (Value.stringPtr model.Href)
  (modelMap, none)

/-- The function `ResourceIBMTektonPipelineTriggerGenericTriggerConcurrencyToMap` (lines 1278-1284); its pointer argument is not nil at any
call, and is taken by its value. -/
def ResourceIBMTektonPipelineTriggerGenericTriggerConcurrencyToMap (model : TriggerGenericTriggerConcurrency) :
    ValueMap × Option GoError :=
  let modelMap : ValueMap := []
  let modelMap := setIfNotNil modelMap "max_concurrent_runs" model.MaxConcurrentRuns.isSome
    (Value.int (flex.IntValue model.MaxConcurrentRuns))
  (modelMap, none)

/-- The function `ResourceIBMTektonPipelineTriggerGenericTriggerToMap` (lines 1212-1257): a nil `model` is
dereferenced at its first statement. -/
def ResourceIBMTektonPipelineTriggerGenericTriggerToMap (model : Option TriggerGenericTrigger) :
    Option (Option ValueMap × Option GoError) :=
  match model with
  | none => none
  | some model => some (toResult (do
    let modelMap : ValueMap := []
    let modelMap := modelMap.set "type" (Value.stringPtr model.Type_)
    let modelMap := modelMap.set "name" (Value.stringPtr model.Name)
    let modelMap := modelMap.set "event_listener" (Value.stringPtr model.EventListener)
    let modelMap := setIfNotNil modelMap "id" model.ID.isSome (Value.stringPtr model.ID)
    let modelMap ← setProperties modelMap model.Properties
      ResourceIBMTektonPipelineTriggerGenericTriggerPropertiesItemToMap
    let modelMap := setIfNotNil modelMap "tags" model.Tags.isSome (Value.strings model.Tags)
    let modelMap ← setNested modelMap "worker" model.Worker
      ResourceIBMTektonPipelineWorkerToMap
    let modelMap ← setNested modelMap "concurrency" model.Concurrency
      ResourceIBMTektonPipelineTriggerGenericTriggerConcurrencyToMap
    let modelMap := modelMap.set "disabled" (Value.boolPtr model.Disabled)
    let modelMap ← setNested modelMap "secret" model.Secret
      ResourceIBMTektonPipelineGenericSecretToMap
    return modelMap))

/-- The function `ResourceIBMTektonPipelineTriggerToMap` (lines 807-896): the type tests in their order,
then the body for a `*Trigger`; the map is `none` where the source returns `nil`. -/
def ResourceIBMTektonPipelineTriggerToMap (model : TriggerIntf) :
    Option (Option ValueMap × Option GoError) :=
  if let .manual p := model then
    ResourceIBMTektonPipelineTriggerManualTriggerToMap p
  else if let .scm p := model then
    ResourceIBMTektonPipelineTriggerScmTriggerToMap p
  else if let .timer p := model then
    ResourceIBMTektonPipelineTriggerTimerTriggerToMap p
  else if let .generic p := model then
    ResourceIBMTektonPipelineTriggerGenericTriggerToMap p
  else if let .base p := model then
    match p with
    | none => none
    | some model => some (toResult (do
      let modelMap : ValueMap := []
      let modelMap := setIfNotNil modelMap "type" model.Type_.isSome (Value.stringPtr model.Type_)
      let modelMap := setIfNotNil modelMap "name" model.Name.isSome (Value.stringPtr model.Name)
      let modelMap := setIfNotNil modelMap "event_listener" model.EventListener.isSome
        (Value.stringPtr model.EventListener)
      let modelMap := setIfNotNil modelMap "id" model.ID.isSome (Value.stringPtr model.ID)
      let modelMap ← setProperties modelMap model.Properties
        ResourceIBMTektonPipelineTriggerPropertiesItemToMap
      let modelMap := setIfNotNil modelMap "tags" model.Tags.isSome (Value.strings model.Tags)
      let modelMap ← setNested modelMap "worker" model.Worker
        ResourceIBMTektonPipelineWorkerToMap
      let modelMap ← setNested modelMap "concurrency" model.Concurrency
        ResourceIBMTektonPipelineTriggerConcurrencyToMap
      let modelMap := setIfNotNil modelMap "disabled" model.Disabled.isSome
        (Value.boolPtr model.Disabled)
      let modelMap ← setNested modelMap "scm_source" model.ScmSource
        ResourceIBMTektonPipelineTriggerScmSourceToMap
      let modelMap ← setNested modelMap "events" model.Events
        ResourceIBMTektonPipelineEventsToMap
      let modelMap := setIfNotNil modelMap "service_instance_id" model.ServiceInstanceID.isSome
        (Value.stringPtr model.ServiceInstanceID)
      let modelMap := setIfNotNil modelMap "cron" model.Cron.isSome (Value.stringPtr model.Cron)
      let modelMap := setIfNotNil modelMap "timezone" model.Timezone.isSome
        (Value.stringPtr model.Timezone)
      let modelMap ← setNested modelMap "secret" model.Secret
        ResourceIBMTektonPipelineGenericSecretToMap
      return modelMap))
  else
    some (none, some (.Errorf
      "Unrecognized continuousdeliverypipelinev2.TriggerIntf subtype encountered" []))

/-! ### The map of a base trigger in the words of the specification -/

/-- The fields of a base trigger by their keys, each with its value in the map, and
nothing for a nil field: "a map holding exactly the non-nil fields". -/
def nonNilFields (model : Trigger) : List (String × Option Value) :=
  [("type", model.Type_.map fun s => Value.stringPtr (some s)),
   ("name", model.Name.map fun s => Value.stringPtr (some s)),
   ("event_listener", model.EventListener.map fun s => Value.stringPtr (some s)),
   ("id", model.ID.map fun s => Value.stringPtr (some s)),
   ("properties", model.Properties.map fun items => Value.maps
      (items.map fun i => (ResourceIBMTektonPipelineTriggerPropertiesItemToMap i).1)),
   ("tags", model.Tags.map fun l => Value.strings (some l)),
   ("worker", model.Worker.map fun x => Value.maps [(ResourceIBMTektonPipelineWorkerToMap x).1]),
   ("concurrency", model.Concurrency.map fun x => Value.maps
      [(ResourceIBMTektonPipelineTriggerConcurrencyToMap x).1]),
   ("disabled", model.Disabled.map fun b => Value.boolPtr (some b)),
   ("scm_source", model.ScmSource.map fun x => Value.maps
      [(ResourceIBMTektonPipelineTriggerScmSourceToMap x).1]),
   ("events", model.Events.map fun x => Value.maps [(ResourceIBMTektonPipelineEventsToMap x).1]),
   ("service_instance_id", model.ServiceInstanceID.map fun s => Value.stringPtr (some s)),
   ("cron", model.Cron.map fun s => Value.stringPtr (some s)),
   ("timezone", model.Timezone.map fun s => Value.stringPtr (some s)),
   ("secret", model.Secret.map fun x => Value.maps
      [(ResourceIBMTektonPipelineGenericSecretToMap x).1])]

/-! ## The library functions -/

theorem strings_Join_three (a b c sep : String) :
    strings.Join [a, b, c] sep = a ++ sep ++ b ++ sep ++ c := by
  simp [strings.Join, String.append_assoc]

theorem record_Join (h : String) :
    strings.Join ["hash", "SHA3-512", h] ":" = "hash:SHA3-512:" ++ h := by
  rw [strings_Join_three]
  have e : "hash" ++ ":" ++ "SHA3-512" ++ ":" = "hash:SHA3-512:" := by decide
  rw [e]

theorem DiffSuppressFunc_not_secure (k old new : String) (d : schema.ResourceData)
    (hty : d.Get "type" ≠ "SECURE") :
    DiffSuppressFunc k old new d = some (decide (old = new), d) := by
  unfold DiffSuppressFunc
  rw [if_neg hty]
  by_cases h : old = new <;> simp [h]

theorem DiffSuppressFunc_secure (k old new : String) (d : schema.ResourceData)
    (p0 p1 : String) (rest : List String)
    (hty : d.Get "type" = "SECURE")
    (hparts : (flex.SepIdParts d.Id "/").1 = p0 :: p1 :: rest) :
    DiffSuppressFunc k old new d =
      some (decide (expectedRecord (joinedKey p0 p1 (d.Get "name")) new = old), d) := by
  unfold DiffSuppressFunc
  rw [if_pos hty]
  simp only [hparts]
  simp only [List.getElem?_cons_zero, List.getElem?_cons_succ, Option.pure_def,
    Option.bind_eq_bind, Option.some_bind, strings_Join_three, record_Join, cmp.Equal,
    expectedRecord, joinedKey]
  split <;> simp_all

theorem toBytes_append (a b : String) : toBytes (a ++ b) = toBytes a ++ toBytes b := by
  simp [toBytes, String.toList]

theorem Sum512_length (data : List Nat) : (sha3.Sum512 data).length = 64 := by
  simp [sha3.Sum512]

theorem hmac_Sum_length (key msg : List Nat) :
    (((hmac.New sha3.New512 key).Write msg).Sum []).length = 64 := by
  simp [hmac.HMAC.Sum, hmac.HMAC.Write, hmac.New, sha3.New512, Sum512_length]

theorem hextable_getD_mem (i : Nat) : hex.hextable.getD i '0' ∈ hex.hextable := by
  rw [List.getD_eq_getElem?_getD]
  cases h : hex.hextable[i]? with
  | none => decide
  | some c => exact List.getElem?_mem h

theorem EncodeToString_length (src : List Nat) :
    (hex.EncodeToString src).length = 2 * src.length := by
  unfold hex.EncodeToString
  rw [String.length_mk]
  induction src with
  | nil => rfl
  | cons v vs ih => simp only [List.flatMap_cons, List.length_append, List.length_cons, ih]; simp; omega

theorem EncodeToString_mem (src : List Nat) :
    ∀ c ∈ (hex.EncodeToString src).toList, c ∈ hex.hextable := by
  intro c hc
  simp only [hex.EncodeToString, String.toList, List.mem_flatMap] at hc
  obtain ⟨v, -, hv⟩ := hc
  simp only [List.mem_cons, List.mem_singleton, List.not_mem_nil, or_false] at hv
  rcases hv with rfl | rfl <;> exact hextable_getD_mem _

theorem IsDigestRecord_expectedRecord (key cand : String) :
    IsDigestRecord (expectedRecord key cand) :=
  ⟨_, rfl, by rw [EncodeToString_length, hmac_Sum_length], EncodeToString_mem _⟩

theorem IsDigestRecord_length {s : String} (h : IsDigestRecord s) : s.length = 142 := by
  obtain ⟨t, rfl, ht, -⟩ := h
  rw [String.length_append, ht]
  rfl

theorem genSplit_ne_nil (sep : List Char) (n : Nat) (s : List Char) :
    strings.genSplit sep n s ≠ [] := by
  cases n with
  | zero => simp [strings.genSplit]
  | succ n =>
    unfold strings.genSplit
    cases strings.indexOf sep s <;> simp

theorem indexOf_nil_of_ne_nil {sep : List Char} (hsep : sep ≠ []) :
    strings.indexOf sep [] = none := by
  cases sep with
  | nil => exact absurd rfl hsep
  | cons c cs => simp [strings.indexOf, List.isPrefixOf]

theorem Split_of_Contains {s sep : String} (hsep : sep.toList ≠ [])
    (h : strings.Contains s sep = true) :
    ∃ a b rest, strings.Split s sep = a :: b :: rest := by
  unfold strings.Contains strings.Index at h
  obtain ⟨m, hm⟩ := Option.isSome_iff_exists.mp h
  have hlen : ∃ f, s.length = f + 1 := by
    cases hl : s.toList with
    | nil => rw [hl, indexOf_nil_of_ne_nil hsep] at hm; cases hm
    | cons c cs => exact ⟨cs.length, by rw [String.length, ← String.toList, hl]; rfl⟩
  obtain ⟨f, hf⟩ := hlen
  have hcount : ∃ n, strings.Count s sep = n + 1 := by
    refine ⟨strings.countLoop sep.toList f (s.toList.drop (m + sep.toList.length)), ?_⟩
    unfold strings.Count
    rw [if_neg hsep, hf]
    simp only [strings.countLoop, hm]
    omega
  obtain ⟨n, hn⟩ := hcount
  unfold strings.Split
  rw [if_neg hsep, hn]
  simp only [strings.genSplit, hm, List.map_cons]
  cases hg : strings.genSplit sep.toList n (s.toList.drop (m + sep.toList.length)) with
  | nil => exact absurd hg (genSplit_ne_nil _ _ _)
  | cons b rest => exact ⟨_, _, _, rfl⟩

theorem Contains_of_Split {s sep a b : String} {rest : List String} (hsep : sep.toList ≠ [])
    (h : strings.Split s sep = a :: b :: rest) : strings.Contains s sep = true := by
  cases hc : strings.Contains s sep with
  | true => rfl
  | false =>
    exfalso
    unfold strings.Contains strings.Index at hc
    have hm : strings.indexOf sep.toList s.toList = none := by
      cases hi : strings.indexOf sep.toList s.toList with
      | none => rfl
      | some m => rw [hi] at hc; cases hc
    have hcount : strings.Count s sep = 0 := by
      unfold strings.Count
      rw [if_neg hsep]
      cases s.length with
      | zero => rfl
      | succ f => simp only [strings.countLoop, hm]
    unfold strings.Split at h
    rw [if_neg hsep, hcount] at h
    simp [strings.genSplit] at h

theorem slash_toList_ne_nil : ("/" : String).toList ≠ [] := by decide

theorem SepIdParts_of_Split {id a b : String} {rest : List String}
    (h : strings.Split id "/" = a :: b :: rest) :
    (flex.SepIdParts id "/").1 = a :: b :: rest := by
  unfold flex.SepIdParts
  rw [if_pos (Contains_of_Split slash_toList_ne_nil h)]
  exact h

theorem SepIdParts_of_Contains {id : String} (h : strings.Contains id "/" = true) :
    ∃ a b rest, (flex.SepIdParts id "/").1 = a :: b :: rest := by
  obtain ⟨a, b, rest, hs⟩ := Split_of_Contains slash_toList_ne_nil h
  exact ⟨a, b, rest, SepIdParts_of_Split hs⟩

theorem SepIdParts_of_not_Contains {id : String} (h : strings.Contains id "/" = false) :
    (flex.SepIdParts id "/").1 = [] := by
  unfold flex.SepIdParts
  simp [h]

theorem indexOf_slash_append (p r : List Char) :
    (strings.indexOf ['/'] (p ++ '/' :: r)).isSome = true := by
  induction p with
  | nil => simp [strings.indexOf, List.isPrefixOf]
  | cons c cs ih =>
    simp only [List.cons_append, strings.indexOf]
    split
    · rfl
    · simpa using ih

theorem Contains_slash_append (p r : String) :
    strings.Contains (p ++ "/" ++ r) "/" = true := by
  unfold strings.Contains strings.Index
  have e : (p ++ "/" ++ r).toList = p.toList ++ '/' :: r.toList := by
    simp [String.toList]
  rw [e]
  exact indexOf_slash_append _ _

theorem some_decide_iff (r old : String) (d : schema.ResourceData) :
    ((some (decide (r = old), d) : Option (Bool × schema.ResourceData)) = some (true, d) ↔
        old = r) ∧
      ((some (decide (r = old), d) : Option (Bool × schema.ResourceData)) = some (false, d) ↔
        old ≠ r) := by
  by_cases h : r = old
  · subst h; simp
  · have h2 : ¬ old = r := fun e => h e.symm
    simp [h, h2]

theorem String_append_left_cancel {a b c : String} (h : a ++ b = a ++ c) : b = c := by
  have := congrArg String.data h
  simp only [String.data_append, List.append_cancel_left_eq] at this
  exact String.ext this

theorem String_append_right_cancel {a b c : String} (h : a ++ c = b ++ c) : a = b := by
  have := congrArg String.data h
  simp only [String.data_append, List.append_cancel_right_eq] at this
  exact String.ext this

theorem joinedKey_ne {p t n p' t' n' : String}
    (h : (p ≠ p' ∧ t = t' ∧ n = n') ∨ (p = p' ∧ t ≠ t' ∧ n = n') ∨ (p = p' ∧ t = t' ∧ n ≠ n')) :
    joinedKey p t n ≠ joinedKey p' t' n' := by
  unfold joinedKey
  rcases h with ⟨hp, rfl, rfl⟩ | ⟨rfl, ht, rfl⟩ | ⟨rfl, rfl, hn⟩
  · intro e
    simp only [String.append_assoc] at e
    exact hp (String_append_right_cancel e)
  · intro e
    have e1 := String_append_right_cancel e
    have e2 := String_append_right_cancel e1
    exact ht (String_append_left_cancel e2)
  · intro e
    exact hn (String_append_left_cancel e)

theorem DiffSuppressFunc_secure_short (k old new : String) (d : schema.ResourceData)
    (hty : d.Get "type" = "SECURE")
    (hparts : ∀ p0 p1 rest, (flex.SepIdParts d.Id "/").1 ≠ p0 :: p1 :: rest) :
    DiffSuppressFunc k old new d = none := by
  unfold DiffSuppressFunc
  rw [if_pos hty]
  rcases hp : (flex.SepIdParts d.Id "/").1 with _ | ⟨a, _ | ⟨b, r⟩⟩
  · simp [hp]
  · simp [hp]
  · exact absurd hp (hparts a b r)

theorem DiffSuppressFunc_frame (k old new : String) (d : schema.ResourceData) (b : Bool)
    (d1 : schema.ResourceData) (h : DiffSuppressFunc k old new d = some (b, d1)) : d1 = d := by
  by_cases hty : d.Get "type" = "SECURE"
  · rcases hp : (flex.SepIdParts d.Id "/").1 with _ | ⟨a, _ | ⟨c, r⟩⟩
    · rw [DiffSuppressFunc_secure_short k old new d hty (by simp [hp])] at h
      cases h
    · rw [DiffSuppressFunc_secure_short k old new d hty (by simp [hp])] at h
      cases h
    · rw [DiffSuppressFunc_secure k old new d a c r hty hp] at h
      simp only [Option.some.injEq, Prod.mk.injEq] at h
      exact h.2.symm
  · rw [DiffSuppressFunc_not_secure k old new d hty] at h
    simp only [Option.some.injEq, Prod.mk.injEq] at h
    exact h.2.symm

/-! ## Known answers -/

set_option maxRecDepth 100000 in
theorem Sum512_empty :
    hex.EncodeToString (sha3.Sum512 []) =
      "a69f73cca23a9ac5c8b567dc185a756e97c982164fe25859e0d1dcc1475c80a6" ++
      "15b2123af1f5f94c11e3e9402c3ac558f500199d95b6d3e301758586281dcd26" := by
  decide!

set_option maxRecDepth 100000 in
theorem Sum512_abc :
    hex.EncodeToString (sha3.Sum512 (toBytes "abc")) =
      "b751850b1a57168a5693cd924b6b096e08f621827444f70d884f5d0240d2712e" ++
      "10e116e9192af3c91a7ec57647e3934057340b4cf408d5a56592f8274eec53f0" := by
  decide!

/-! ## The diff-suppress closure -/

/-- C1: for a declared type other than "SECURE" the closure returns a boolean, and it
returns true if and only if `old = new`, for all strings `old` and `new`. -/
theorem DiffSuppressFunc_other_type_iff (k old new : String) (d : schema.ResourceData)
    (hty : d.Get "type" ≠ "SECURE") :
    (∃ b, DiffSuppressFunc k old new d = some (b, d)) ∧
      (DiffSuppressFunc k old new d = some (true, d) ↔ old = new) ∧
      (DiffSuppressFunc k old new d = some (false, d) ↔ old ≠ new) := by
  rw [DiffSuppressFunc_not_secure k old new d hty]
  refine ⟨⟨_, rfl⟩, ?_, ?_⟩ <;> by_cases h : old = new <;> simp [h]

theorem DiffSuppressFunc_other_type_iff_witness :
    (∃ b, DiffSuppressFunc "type" "" "naïve ключ" (triggerProperty "p1/t1/name1" "name1" "TEXT") =
        some (b, triggerProperty "p1/t1/name1" "name1" "TEXT")) ∧
      (DiffSuppressFunc "type" "" "naïve ключ" (triggerProperty "p1/t1/name1" "name1" "TEXT") =
        some (true, triggerProperty "p1/t1/name1" "name1" "TEXT") ↔ "" = "naïve ключ") ∧
      (DiffSuppressFunc "type" "" "naïve ключ" (triggerProperty "p1/t1/name1" "name1" "TEXT") =
        some (false, triggerProperty "p1/t1/name1" "name1" "TEXT") ↔ "" ≠ "naïve ключ") :=
  DiffSuppressFunc_other_type_iff "type" "" "naïve ключ"
    (triggerProperty "p1/t1/name1" "name1" "TEXT") (by decide)

/-- C2: for declared type "SECURE" and the derived key `key` (the first two parts of
the id and the name, joined with "."), the closure returns true if and only if
`old` is "hash:SHA3-512:" followed by the lowercase hex encoding of
HMAC-SHA3-512(key, new), and false exactly when they differ. -/
theorem DiffSuppressFunc_secure_iff (k old new key : String) (d : schema.ResourceData)
    (p0 p1 : String) (rest : List String)
    (hty : d.Get "type" = "SECURE")
    (hparts : (flex.SepIdParts d.Id "/").1 = p0 :: p1 :: rest)
    (hkey : key = strings.Join [p0, p1, d.Get "name"] ".") :
    (DiffSuppressFunc k old new d = some (true, d) ↔
        old = "hash:SHA3-512:" ++ hex.EncodeToString
          (((hmac.New sha3.New512 (toBytes key)).Write (toBytes new)).Sum [])) ∧
      (DiffSuppressFunc k old new d = some (false, d) ↔
        old ≠ "hash:SHA3-512:" ++ hex.EncodeToString
          (((hmac.New sha3.New512 (toBytes key)).Write (toBytes new)).Sum [])) := by
  rw [DiffSuppressFunc_secure k old new d p0 p1 rest hty hparts, hkey, strings_Join_three]
  exact some_decide_iff _ _ _

theorem DiffSuppressFunc_secure_iff_witness :
    (DiffSuppressFunc "type" "plain" "secretValue" (triggerProperty "p1/t1/name1" "name1" "SECURE") =
        some (true, triggerProperty "p1/t1/name1" "name1" "SECURE") ↔
        "plain" = "hash:SHA3-512:" ++ hex.EncodeToString
          (((hmac.New sha3.New512 (toBytes "p1.t1.name1")).Write (toBytes "secretValue")).Sum [])) ∧
      (DiffSuppressFunc "type" "plain" "secretValue" (triggerProperty "p1/t1/name1" "name1" "SECURE") =
        some (false, triggerProperty "p1/t1/name1" "name1" "SECURE") ↔
        "plain" ≠ "hash:SHA3-512:" ++ hex.EncodeToString
          (((hmac.New sha3.New512 (toBytes "p1.t1.name1")).Write (toBytes "secretValue")).Sum [])) :=
  DiffSuppressFunc_secure_iff "type" "plain" "secretValue" "p1.t1.name1"
    (triggerProperty "p1/t1/name1" "name1" "SECURE") "p1" "t1" ["name1"]
    (by decide) (by decide) (by decide)

/-- C3: round trip. For type "SECURE", a resource whose id has the parts `p`, `t` and
whose name is `n` (the scope), and any plaintext `P`: when the stored value is
"hash:SHA3-512:" followed by hex(HMAC-SHA3-512(p.t.n, P)), the closure called with
candidate `P` returns true. -/
theorem DiffSuppressFunc_round_trip (k P p t n stored : String) (rest : List String)
    (d : schema.ResourceData)
    (hty : d.Get "type" = "SECURE")
    (hparts : strings.Split d.Id "/" = p :: t :: rest)
    (hname : d.Get "name" = n)
    (hstored : stored = expectedRecord (joinedKey p t n) P) :
    DiffSuppressFunc k stored P d = some (true, d) := by
  rw [DiffSuppressFunc_secure k stored P d p t rest hty (SepIdParts_of_Split hparts), hname,
    hstored]
  simp

theorem DiffSuppressFunc_round_trip_witness :
    DiffSuppressFunc "type" (expectedRecord (joinedKey "p1" "t1" "name1") "secretValue")
        "secretValue" (triggerProperty "p1/t1/name1" "name1" "SECURE") =
      some (true, triggerProperty "p1/t1/name1" "name1" "SECURE") :=
  DiffSuppressFunc_round_trip "type" "secretValue" "p1" "t1" "name1" _ ["name1"]
    (triggerProperty "p1/t1/name1" "name1" "SECURE") (by decide) (by decide) (by decide) rfl

/-- C4: for type "SECURE" the HMAC key is the first part of the id, ".", the
second part of the id, ".", and the `name` attribute, in that order; its bytes
are the bytes of the three components with one byte 0x2e between them, whatever
the components contain. -/
theorem DiffSuppressFunc_key (k old new p t : String) (rest : List String)
    (d : schema.ResourceData)
    (hty : d.Get "type" = "SECURE")
    (hparts : strings.Split d.Id "/" = p :: t :: rest) :
    DiffSuppressFunc k old new d =
        some (decide (strings.Join ["hash", "SHA3-512", hex.EncodeToString
          (((hmac.New sha3.New512 (toBytes (p ++ "." ++ t ++ "." ++ d.Get "name"))).Write
            (toBytes new)).Sum [])] ":" = old), d) ∧
      toBytes (p ++ "." ++ t ++ "." ++ d.Get "name") =
        toBytes p ++ [0x2e] ++ toBytes t ++ [0x2e] ++ toBytes (d.Get "name") := by
  refine ⟨?_, ?_⟩
  · rw [DiffSuppressFunc_secure k old new d p t rest hty (SepIdParts_of_Split hparts),
      record_Join]
    rfl
  · simp only [toBytes_append]
    rfl

theorem DiffSuppressFunc_key_witness :
    DiffSuppressFunc "type" "old" "new" (triggerProperty "a.b/c/x/y" "n.m/o" "SECURE") =
        some (decide (strings.Join ["hash", "SHA3-512", hex.EncodeToString
          (((hmac.New sha3.New512 (toBytes ("a.b" ++ "." ++ "c" ++ "." ++
            (triggerProperty "a.b/c/x/y" "n.m/o" "SECURE").Get "name"))).Write
            (toBytes "new")).Sum [])] ":" = "old"),
          triggerProperty "a.b/c/x/y" "n.m/o" "SECURE") ∧
      toBytes ("a.b" ++ "." ++ "c" ++ "." ++
          (triggerProperty "a.b/c/x/y" "n.m/o" "SECURE").Get "name") =
        toBytes "a.b" ++ [0x2e] ++ toBytes "c" ++ [0x2e] ++
          toBytes ((triggerProperty "a.b/c/x/y" "n.m/o" "SECURE").Get "name") :=
  DiffSuppressFunc_key "type" "old" "new" "a.b" "c" ["x", "y"]
    (triggerProperty "a.b/c/x/y" "n.m/o" "SECURE") (by decide) (by decide)

/-- C5: for type "SECURE" the record the closure compares with `old` is
"hash:SHA3-512:" followed by exactly 128 lowercase hexadecimal characters, 142
characters in all, for every key and candidate; so the closure returns false for
every stored string that is not of that format. -/
theorem DiffSuppressFunc_record_format (k old new key cand p0 p1 : String)
    (rest : List String) (d : schema.ResourceData)
    (hty : d.Get "type" = "SECURE")
    (hparts : (flex.SepIdParts d.Id "/").1 = p0 :: p1 :: rest)
    (hold : ¬ IsDigestRecord old) :
    IsDigestRecord (strings.Join ["hash", "SHA3-512", hex.EncodeToString
        (((hmac.New sha3.New512 (toBytes key)).Write (toBytes cand)).Sum [])] ":") ∧
      (strings.Join ["hash", "SHA3-512", hex.EncodeToString
        (((hmac.New sha3.New512 (toBytes key)).Write (toBytes cand)).Sum [])] ":").length = 142 ∧
      DiffSuppressFunc k old new d = some (false, d) := by
  have hfmt := IsDigestRecord_expectedRecord key cand
  rw [record_Join]
  refine ⟨hfmt, IsDigestRecord_length hfmt, ?_⟩
  rw [DiffSuppressFunc_secure k old new d p0 p1 rest hty hparts]
  have hne : ¬ expectedRecord (joinedKey p0 p1 (d.Get "name")) new = old := by
    intro e
    exact hold (e ▸ IsDigestRecord_expectedRecord _ _)
  simp [hne]

theorem DiffSuppressFunc_record_format_witness :
    IsDigestRecord (strings.Join ["hash", "SHA3-512", hex.EncodeToString
        (((hmac.New sha3.New512 (toBytes "p1.t1.name1")).Write (toBytes "secretValue")).Sum [])]
        ":") ∧
      (strings.Join ["hash", "SHA3-512", hex.EncodeToString
        (((hmac.New sha3.New512 (toBytes "p1.t1.name1")).Write (toBytes "secretValue")).Sum [])]
        ":").length = 142 ∧
      DiffSuppressFunc "type" "secretValue" "secretValue"
          (triggerProperty "p1/t1/name1" "name1" "SECURE") =
        some (false, triggerProperty "p1/t1/name1" "name1" "SECURE") :=
  DiffSuppressFunc_record_format "type" "secretValue" "secretValue" "p1.t1.name1" "secretValue"
    "p1" "t1" ["name1"] (triggerProperty "p1/t1/name1" "name1" "SECURE") (by decide) (by decide)
    (fun h => absurd (IsDigestRecord_length h) (by decide))

set_option maxRecDepth 100000 in
/-- C6: for type "SECURE", scope ("p1","t1","name1") and the stored record of
"secretValue", the closure called with candidate "differentValue" returns false. -/
theorem DiffSuppressFunc_different_value :
    DiffSuppressFunc "type" (expectedRecord (joinedKey "p1" "t1" "name1") "secretValue")
        "differentValue" (triggerProperty "p1/t1/name1" "name1" "SECURE") =
      some (false, triggerProperty "p1/t1/name1" "name1" "SECURE") := by
  decide!

set_option maxRecDepth 100000 in
/-- Against C7 as stated: the scopes ("p","t","n") and ("p","t","n" followed by a
zero byte) differ in the property name only, and the closure called with the
second scope on the record stored for the first one returns true. -/
theorem DiffSuppressFunc_scope_change_counterexample :
    "n" ≠ "n\x00" ∧
      DiffSuppressFunc "type" (expectedRecord (joinedKey "p" "t" "n") "v") "v"
          (triggerProperty "p/t/n\x00" "n\x00" "SECURE") =
        some (true, triggerProperty "p/t/n\x00" "n\x00" "SECURE") := by
  decide!

/-- C7 (amended): for type "SECURE", a candidate `P` and two scopes that differ in
exactly one component, the derived keys differ, and the closure called with the
second scope on the record stored for the first scope and `P` returns false
exactly when the record of `P` under the second key differs from the stored one. -/
theorem DiffSuppressFunc_scope_change (k P p t n p' t' n' : String) (rest' : List String)
    (d' : schema.ResourceData)
    (hty : d'.Get "type" = "SECURE")
    (hparts : strings.Split d'.Id "/" = p' :: t' :: rest')
    (hname : d'.Get "name" = n')
    (hdiff : (p ≠ p' ∧ t = t' ∧ n = n') ∨ (p = p' ∧ t ≠ t' ∧ n = n') ∨
      (p = p' ∧ t = t' ∧ n ≠ n')) :
    joinedKey p t n ≠ joinedKey p' t' n' ∧
      (DiffSuppressFunc k (expectedRecord (joinedKey p t n) P) P d' = some (false, d') ↔
        expectedRecord (joinedKey p' t' n') P ≠ expectedRecord (joinedKey p t n) P) := by
  refine ⟨joinedKey_ne hdiff, ?_⟩
  rw [DiffSuppressFunc_secure k _ P d' p' t' rest' hty (SepIdParts_of_Split hparts), hname]
  by_cases h : expectedRecord (joinedKey p' t' n') P = expectedRecord (joinedKey p t n) P <;>
    simp [h]

set_option maxRecDepth 100000 in
theorem DiffSuppressFunc_scope_change_witness :
    joinedKey "p1" "t1" "name1" ≠ joinedKey "p1" "t2" "name1" ∧
      DiffSuppressFunc "type" (expectedRecord (joinedKey "p1" "t1" "name1") "secretValue")
          "secretValue" (triggerProperty "p1/t2/name1" "name1" "SECURE") =
        some (false, triggerProperty "p1/t2/name1" "name1" "SECURE") :=
  have h := DiffSuppressFunc_scope_change "type" "secretValue" "p1" "t1" "name1" "p1" "t2" "name1"
    ["name1"] (triggerProperty "p1/t2/name1" "name1" "SECURE") (by decide) (by decide)
    (by decide) (by decide)
  ⟨h.1, h.2.mpr (by decide!)⟩

/-- C8: the closure is a function of the declared type, the resource id, the name,
`old` and `new` alone: two calls that agree on these return the same boolean (or
both fail), whatever the key `k` and the other attributes; and a call that returns
leaves the resource data as it was. -/
theorem DiffSuppressFunc_pure (k k' old new : String) (d d' : schema.ResourceData)
    (hty : d.Get "type" = d'.Get "type")
    (hid : d.Id = d'.Id)
    (hname : d.Get "name" = d'.Get "name") :
    (DiffSuppressFunc k old new d).map Prod.fst = (DiffSuppressFunc k' old new d').map Prod.fst ∧
      ∀ b d1, DiffSuppressFunc k old new d = some (b, d1) → d1 = d := by
  refine ⟨?_, fun b d1 h => DiffSuppressFunc_frame k old new d b d1 h⟩
  by_cases hs : d.Get "type" = "SECURE"
  · have hs' : d'.Get "type" = "SECURE" := hty ▸ hs
    rcases hp : (flex.SepIdParts d.Id "/").1 with _ | ⟨a, _ | ⟨c, r⟩⟩
    · rw [DiffSuppressFunc_secure_short k old new d hs (by simp [hp]),
        DiffSuppressFunc_secure_short k' old new d' hs' (by simp [← hid, hp])]
    · rw [DiffSuppressFunc_secure_short k old new d hs (by simp [hp]),
        DiffSuppressFunc_secure_short k' old new d' hs' (by simp [← hid, hp])]
    · rw [DiffSuppressFunc_secure k old new d a c r hs hp,
        DiffSuppressFunc_secure k' old new d' a c r hs' (hid ▸ hp), hname]
      rfl
  · have hs' : d'.Get "type" ≠ "SECURE" := hty ▸ hs
    rw [DiffSuppressFunc_not_secure k old new d hs, DiffSuppressFunc_not_secure k' old new d' hs']
    rfl

theorem DiffSuppressFunc_pure_witness :
    (DiffSuppressFunc "type" "old" "new"
          ⟨"p1/t1/name1", [("name", "name1"), ("type", "SECURE")], []⟩).map Prod.fst =
        (DiffSuppressFunc "value" "old" "new"
          ⟨"p1/t1/name1", [("value", "v"), ("type", "SECURE"), ("name", "name1")], []⟩).map Prod.fst ∧
      ∀ b d1, DiffSuppressFunc "type" "old" "new"
          ⟨"p1/t1/name1", [("name", "name1"), ("type", "SECURE")], []⟩ = some (b, d1) →
        d1 = ⟨"p1/t1/name1", [("name", "name1"), ("type", "SECURE")], []⟩ :=
  DiffSuppressFunc_pure "type" "value" "old" "new"
    ⟨"p1/t1/name1", [("name", "name1"), ("type", "SECURE")], []⟩
    ⟨"p1/t1/name1", [("value", "v"), ("type", "SECURE"), ("name", "name1")], []⟩
    (by decide) (by decide) (by decide)

/-- C9: the closure has no error result: for every declared type, all `old` and
`new`, and every id made of three components joined with "/" (each of them may be
empty), it returns a boolean. -/
theorem DiffSuppressFunc_returns (k old new p t n : String) (d : schema.ResourceData)
    (hid : d.Id = p ++ "/" ++ t ++ "/" ++ n) :
    ∃ b, DiffSuppressFunc k old new d = some (b, d) := by
  by_cases hs : d.Get "type" = "SECURE"
  · have hc : strings.Contains d.Id "/" = true := by
      rw [hid]
      exact Contains_slash_append (p ++ "/" ++ t) n
    obtain ⟨a, c, r, hp⟩ := SepIdParts_of_Contains hc
    exact ⟨_, DiffSuppressFunc_secure k old new d a c r hs hp⟩
  · exact ⟨_, DiffSuppressFunc_not_secure k old new d hs⟩

theorem DiffSuppressFunc_returns_witness :
    ∃ b, DiffSuppressFunc "type" "" "" (triggerProperty "//" "" "SECURE") =
      some (b, triggerProperty "//" "" "SECURE") :=
  DiffSuppressFunc_returns "type" "" "" "" "" "" (triggerProperty "//" "" "SECURE") (by decide)

set_option maxRecDepth 100000 in
/-- C10: in the schema only the attribute `type` carries the closure and `value`
carries none: for a SECURE property whose state holds the digest record of
"secretValue", the diff of `value` to the same plaintext "secretValue" is not
suppressed, although the closure at these values returns true; the closure is
consulted for `type`, with the old and new type as `old` and `new`. -/
theorem value_diff_not_suppressed :
    ResourceIBMTektonPipelineTriggerProperty.Schema.filterMap
        (fun e => if e.2.DiffSuppressFunc.isSome then some e.1 else none) = ["type"] ∧
      ResourceIBMTektonPipelineTriggerProperty.diffSuppressed "value"
          (expectedRecord (joinedKey "p1" "t1" "name1") "secretValue") "secretValue"
          (triggerProperty "p1/t1/name1" "name1" "SECURE") = some false ∧
      DiffSuppressFunc "value"
          (expectedRecord (joinedKey "p1" "t1" "name1") "secretValue") "secretValue"
          (triggerProperty "p1/t1/name1" "name1" "SECURE") =
        some (true, triggerProperty "p1/t1/name1" "name1" "SECURE") ∧
      ResourceIBMTektonPipelineTriggerProperty.diffSuppressed "type" "TEXT" "SECURE"
          (triggerProperty "p1/t1/name1" "name1" "SECURE") =
        (DiffSuppressFunc "type" "TEXT" "SECURE"
          (triggerProperty "p1/t1/name1" "name1" "SECURE")).map Prod.fst := by
  refine ⟨by decide, by decide, by decide!, rfl⟩

/-! ## Splitting an id built from its components -/

theorem indexOf_slash_of_not_mem {p : List Char} (r : List Char) (hp : '/' ∉ p) :
    strings.indexOf ['/'] (p ++ '/' :: r) = some p.length := by
  induction p with
  | nil => simp [strings.indexOf, List.isPrefixOf]
  | cons c cs ih =>
    have hc : c ≠ '/' := fun e => hp (by simp [e])
    have hcs : '/' ∉ cs := fun e => hp (by simp [e])
    have hc' : ('/' == c) = false := by
      simp only [beq_eq_false_iff_ne, ne_eq]
      exact fun e => hc e.symm
    simp [strings.indexOf, List.isPrefixOf, hc', ih hcs]

theorem indexOf_slash_none {p : List Char} (hp : '/' ∉ p) : strings.indexOf ['/'] p = none := by
  induction p with
  | nil => simp [strings.indexOf, List.isPrefixOf]
  | cons c cs ih =>
    have hc : c ≠ '/' := fun e => hp (by simp [e])
    have hcs : '/' ∉ cs := fun e => hp (by simp [e])
    have hc' : ('/' == c) = false := by
      simp only [beq_eq_false_iff_ne, ne_eq]
      exact fun e => hc e.symm
    simp [strings.indexOf, List.isPrefixOf, hc', ih hcs]

theorem genSplit_slash_last {p : List Char} (k : Nat) (hp : '/' ∉ p) :
    strings.genSplit ['/'] k p = [p] := by
  cases k with
  | zero => rfl
  | succ k => simp [strings.genSplit, indexOf_slash_none hp]

theorem genSplit_slash_cons {p : List Char} (k : Nat) (r : List Char) (hp : '/' ∉ p) :
    strings.genSplit ['/'] (k + 1) (p ++ '/' :: r) = p :: strings.genSplit ['/'] k r := by
  simp [strings.genSplit, indexOf_slash_of_not_mem r hp]

theorem countLoop_slash_none {p : List Char} (fuel : Nat) (hp : '/' ∉ p) :
    strings.countLoop ['/'] fuel p = 0 := by
  cases fuel with
  | zero => rfl
  | succ k => simp [strings.countLoop, indexOf_slash_none hp]

theorem countLoop_slash_cons {p : List Char} (fuel : Nat) (r : List Char) (hp : '/' ∉ p) :
    strings.countLoop ['/'] (fuel + 1) (p ++ '/' :: r) = 1 + strings.countLoop ['/'] fuel r := by
  simp [strings.countLoop, indexOf_slash_of_not_mem r hp]

theorem Split_two {a b : String} (ha : '/' ∉ a.toList) (hb : '/' ∉ b.toList) :
    strings.Split (a ++ "/" ++ b) "/" = [a, b] := by
  have hl : (a ++ "/" ++ b).toList = a.toList ++ '/' :: b.toList := by simp [String.toList]
  have hlen : (a ++ "/" ++ b).length = (a.length + b.length) + 1 := by
    simp only [String.length_append]
    have : ("/" : String).length = 1 := rfl
    omega
  have hs : ("/" : String).toList = ['/'] := rfl
  unfold strings.Split strings.Count
  rw [if_neg slash_toList_ne_nil, if_neg slash_toList_ne_nil, hs, hl, hlen,
    countLoop_slash_cons _ _ ha, countLoop_slash_none _ hb]
  rw [show 1 + 0 = 0 + 1 from rfl, genSplit_slash_cons _ _ ha, genSplit_slash_last _ hb]
  rfl

theorem Split_three {a b c : String} (ha : '/' ∉ a.toList) (hb : '/' ∉ b.toList)
    (hc : '/' ∉ c.toList) : strings.Split (a ++ "/" ++ b ++ "/" ++ c) "/" = [a, b, c] := by
  have hl : (a ++ "/" ++ b ++ "/" ++ c).toList =
      a.toList ++ '/' :: (b.toList ++ '/' :: c.toList) := by simp [String.toList]
  have hlen : (a ++ "/" ++ b ++ "/" ++ c).length = (a.length + b.length + c.length + 1) + 1 := by
    simp only [String.length_append]
    have : ("/" : String).length = 1 := rfl
    omega
  have hs : ("/" : String).toList = ['/'] := rfl
  unfold strings.Split strings.Count
  rw [if_neg slash_toList_ne_nil, if_neg slash_toList_ne_nil, hs, hl, hlen,
    countLoop_slash_cons _ _ ha]
  have h2 : a.length + b.length + c.length + 1 = (a.length + b.length + c.length) + 1 := rfl
  rw [h2, countLoop_slash_cons _ _ hb, countLoop_slash_none _ hc]
  rw [show 1 + (1 + 0) = 1 + 1 from rfl, genSplit_slash_cons _ _ ha, genSplit_slash_cons _ _ hb,
    genSplit_slash_last _ hc]
  rfl

theorem SepIdParts_two {a b : String} (ha : '/' ∉ a.toList) (hb : '/' ∉ b.toList) :
    flex.SepIdParts (a ++ "/" ++ b) "/" = ([a, b], none) := by
  unfold flex.SepIdParts
  rw [if_pos (Contains_slash_append a b), Split_two ha hb]

theorem SepIdParts_three {a b c : String} (ha : '/' ∉ a.toList) (hb : '/' ∉ b.toList)
    (hc : '/' ∉ c.toList) : flex.SepIdParts (a ++ "/" ++ b ++ "/" ++ c) "/" = ([a, b, c], none) := by
  unfold flex.SepIdParts
  rw [if_pos (Contains_slash_append (a ++ "/" ++ b) c), Split_three ha hb hc]

theorem Sprintf_two (a b : String) : fmt.Sprintf "%s/%s" [a, b] = a ++ "/" ++ b := by
  apply String.ext
  simp [fmt.Sprintf, fmt.sprintf, String.toList]

theorem Sprintf_three (a b c : String) :
    fmt.Sprintf "%s/%s/%s" [a, b, c] = a ++ "/" ++ b ++ "/" ++ c := by
  apply String.ext
  simp [fmt.Sprintf, fmt.sprintf, String.toList]

set_option maxRecDepth 100000 in
theorem TriggerPropertyValidator_allowed :
    (ResourceIBMTektonPipelineTriggerPropertyValidator.Schema.find?
        fun vs => vs.Identifier == "type").map validate.ValidateSchema.allowed =
      some ["INTEGRATION", "SECURE", "SINGLE_SELECT", "TEXT", "APPCONFIG"] := by
  decide!

set_option maxRecDepth 100000 in
theorem PipelinePropertyValidator_allowed :
    (ResourceIBMTektonPipelinePropertyValidator.Schema.find?
        fun vs => vs.Identifier == "type").map validate.ValidateSchema.allowed =
      some ["INTEGRATION", "SECURE", "SINGLE_SELECT", "TEXT"] := by
  decide!

/-! ## The CRUD functions -/

/-- C16: the Update of each resource answers a changed ForceNew attribute
(`pipeline_id`, `trigger_id`, `toolchain_id`, `container`) with the error "Cannot
update resource property "<attribute>" with the ForceNew annotation. The resource
must be re-created to update this property." for the first such attribute in code
order, sends no request and leaves the resource data as it was. Each Update is
taken with its own client obtained and at an id of the form of its resource: three
parts for the trigger property, two for the pipeline property and for the Secrets
Manager tool (whose Updates split and index the id before they test the
attributes), and any id for the SonarQube tool, whose Update does not split it. -/
theorem Update_ForceNew (meta : conns.ClientSession) (d : schema.ResourceData) :
    (∀ (p t n : String) (rest : List String), meta.ContinuousDeliveryPipelineV2.2 = none →
        flex.SepIdParts d.Id "/" = (p :: t :: n :: rest, none) →
        (d.HasChange "pipeline_id" = true →
          ResourceIBMTektonPipelineTriggerPropertyUpdate meta { d := d } =
            (some (diag.FromErr (.Errorf forceNewFormat [.str "pipeline_id"])),
              { d := d, calls := [] })) ∧
        (d.HasChange "pipeline_id" = false → d.HasChange "trigger_id" = true →
          ResourceIBMTektonPipelineTriggerPropertyUpdate meta { d := d } =
            (some (diag.FromErr (.Errorf forceNewFormat [.str "trigger_id"])),
              { d := d, calls := [] }))) ∧
      (∀ (p n : String) (rest : List String), meta.ContinuousDeliveryPipelineV2.2 = none →
        flex.SepIdParts d.Id "/" = (p :: n :: rest, none) →
        d.HasChange "pipeline_id" = true →
        ResourceIBMTektonPipelinePropertyUpdate meta { d := d } =
          (some (diag.FromErr (.Errorf forceNewFormat [.str "pipeline_id"])),
            { d := d, calls := [] })) ∧
      (meta.IbmToolchainApiV2.2 = none →
        (d.HasChange "toolchain_id" = true →
          ResourceIbmToolchainToolSonarqubeUpdate meta { d := d } =
            (some (diag.FromErr (.Errorf forceNewFormat [.str "toolchain_id"])),
              { d := d, calls := [] })) ∧
        (d.HasChange "toolchain_id" = false → d.HasChange "container" = true →
          ResourceIbmToolchainToolSonarqubeUpdate meta { d := d } =
            (some (diag.FromErr (.Errorf forceNewFormat [.str "container"])),
              { d := d, calls := [] }))) ∧
      (∀ (p i : String) (rest : List String), meta.ToolchainV2.2 = none →
        flex.SepIdParts d.Id "/" = (p :: i :: rest, none) →
        d.HasChange "toolchain_id" = true →
        ResourceIbmToolchainToolSecretsmanagerUpdate meta { d := d } =
          (some (diag.FromErr (.Errorf forceNewFormat [.str "toolchain_id"])),
            { d := d, calls := [] })) ∧
      fmt.Sprintf forceNewFormat ["pipeline_id"] =
        "Cannot update resource property \"pipeline_id\" with the ForceNew annotation. The resource must be re-created to update this property." ∧
      fmt.Sprintf forceNewFormat ["trigger_id"] =
        "Cannot update resource property \"trigger_id\" with the ForceNew annotation. The resource must be re-created to update this property." ∧
      fmt.Sprintf forceNewFormat ["toolchain_id"] =
        "Cannot update resource property \"toolchain_id\" with the ForceNew annotation. The resource must be re-created to update this property." ∧
      fmt.Sprintf forceNewFormat ["container"] =
        "Cannot update resource property \"container\" with the ForceNew annotation. The resource must be re-created to update this property." := by
  obtain ⟨⟨cd, e1⟩, ⟨tc, e2⟩, ⟨ia, e3⟩, im⟩ := meta
  refine ⟨?_, ?_, ?_, ?_, by decide, by decide, by decide, by decide⟩
  · intro p t n rest hcd hparts
    simp only at hcd
    subst hcd
    refine ⟨?_, ?_⟩
    · intro h
      simp [ResourceIBMTektonPipelineTriggerPropertyUpdate, dId, index, dGet, dHasChange,
        hparts, h, bind, CRUD.bind, pure, CRUD.pure]
    · intro h1 h2
      simp [ResourceIBMTektonPipelineTriggerPropertyUpdate, dId, index, dGet, dHasChange,
        hparts, h1, h2, bind, CRUD.bind, pure, CRUD.pure]
  · intro p n rest hcd hparts h
    simp only at hcd
    subst hcd
    simp [ResourceIBMTektonPipelinePropertyUpdate, dId, index, dGet, dHasChange, hparts,
      h, bind, CRUD.bind, pure, CRUD.pure]
  · intro hia
    simp only at hia
    subst hia
    refine ⟨?_, ?_⟩
    · intro h
      simp [ResourceIbmToolchainToolSonarqubeUpdate, dId, index, dGet, dHasChange,
        h, bind, CRUD.bind, pure, CRUD.pure]
    · intro h1 h2
      simp [ResourceIbmToolchainToolSonarqubeUpdate, dId, index, dGet, dHasChange,
        h1, h2, bind, CRUD.bind, pure, CRUD.pure]
  · intro p i rest htc hparts h
    simp only at htc
    subst htc
    simp [ResourceIbmToolchainToolSecretsmanagerUpdate, dId, index, dGet, dHasChange, hparts,
      h, bind, CRUD.bind, pure, CRUD.pure]

/-- C19: the Delete of the account settings resource sends no request, sets the id
to the empty string, leaves every attribute as it was and returns no diagnostics. -/
theorem resourceIbmIamAccountSettingsDelete_frame (meta : conns.ClientSession)
    (d : schema.ResourceData) :
    resourceIbmIamAccountSettingsDelete meta { d := d } =
        (some none, { d := d.SetId "", calls := [] }) ∧
      (d.SetId "").Id = "" ∧ (d.SetId "").attrs = d.attrs ∧ (d.SetId "").state = d.state ∧
      ∀ key, (d.SetId "").Get key = d.Get key :=
  ⟨rfl, rfl, rfl, rfl, fun _ => rfl⟩

set_option maxRecDepth 100000 in
theorem Update_ForceNew_witness :
    ResourceIBMTektonPipelineTriggerPropertyUpdate exampleSession
        { d := { id := "p1/t1/name1", attrs := [("pipeline_id", "p2"), ("trigger_id", "t2")],
                 state := [("pipeline_id", "p1"), ("trigger_id", "t1")] } } =
      (some (diag.FromErr (.Errorf forceNewFormat [.str "pipeline_id"])),
        { d := { id := "p1/t1/name1", attrs := [("pipeline_id", "p2"), ("trigger_id", "t2")],
                 state := [("pipeline_id", "p1"), ("trigger_id", "t1")] }, calls := [] }) ∧
      ResourceIBMTektonPipelinePropertyUpdate exampleSession
        { d := { id := "p1/name1", attrs := [("pipeline_id", "p2")],
                 state := [("pipeline_id", "p1")] } } =
      (some (diag.FromErr (.Errorf forceNewFormat [.str "pipeline_id"])),
        { d := { id := "p1/name1", attrs := [("pipeline_id", "p2")],
                 state := [("pipeline_id", "p1")] }, calls := [] }) ∧
      ResourceIbmToolchainToolSonarqubeUpdate exampleSession
        { d := { id := "inst1", attrs := [("toolchain_id", "tc1"), ("container.#", "1"),
                   ("container.0.guid", "g2"), ("container.0.type", "organization_guid")],
                 state := [("toolchain_id", "tc1"), ("container.#", "1"),
                   ("container.0.guid", "g1"), ("container.0.type", "organization_guid")] } } =
      (some (diag.FromErr (.Errorf forceNewFormat [.str "container"])),
        { d := { id := "inst1", attrs := [("toolchain_id", "tc1"), ("container.#", "1"),
                   ("container.0.guid", "g2"), ("container.0.type", "organization_guid")],
                 state := [("toolchain_id", "tc1"), ("container.#", "1"),
                   ("container.0.guid", "g1"), ("container.0.type", "organization_guid")] },
          calls := [] }) ∧
      ResourceIbmToolchainToolSecretsmanagerUpdate exampleSession
        { d := { id := "tc1/i1", attrs := [("toolchain_id", "tc2")],
                 state := [("toolchain_id", "tc1")] } } =
      (some (diag.FromErr (.Errorf forceNewFormat [.str "toolchain_id"])),
        { d := { id := "tc1/i1", attrs := [("toolchain_id", "tc2")],
                 state := [("toolchain_id", "tc1")] }, calls := [] }) :=
  ⟨((Update_ForceNew exampleSession _).1 "p1" "t1" "name1" [] rfl (by decide!)).1 (by decide!),
    (Update_ForceNew exampleSession _).2.1 "p1" "name1" [] rfl (by decide!) (by decide!),
    ((Update_ForceNew exampleSession _).2.2.1 rfl).2 (by decide!) (by decide!),
    (Update_ForceNew exampleSession _).2.2.2.1 "tc1" "i1" [] rfl (by decide!) (by decide!)⟩

theorem TriggerPropertyValidator_accepts (v : String) :
    ResourceIBMTektonPipelineTriggerPropertyValidator.accepts "type" v =
      some (["INTEGRATION", "SECURE", "SINGLE_SELECT", "TEXT", "APPCONFIG"].contains v) := by
  have hf : (ResourceIBMTektonPipelineTriggerPropertyValidator.Schema.find?
      fun vs => vs.Identifier == "type") =
      some { Identifier := "type",
             ValidateFunctionIdentifier := .ValidateAllowedStringValue,
             Type_ := .TypeString,
             Optional := true,
             AllowedValues := "INTEGRATION, SECURE, SINGLE_SELECT, TEXT, APPCONFIG" } := by
    decide!
  have ha := TriggerPropertyValidator_allowed
  rw [hf] at ha
  simp only [Option.map_some', Option.some.injEq] at ha
  simp only [validate.ResourceValidator.accepts, hf, validate.ValidateAllowedStringValues, ha]

theorem PipelinePropertyValidator_accepts (v : String) :
    ResourceIBMTektonPipelinePropertyValidator.accepts "type" v =
      some (["INTEGRATION", "SECURE", "SINGLE_SELECT", "TEXT"].contains v) := by
  have hf : (ResourceIBMTektonPipelinePropertyValidator.Schema.find?
      fun vs => vs.Identifier == "type") =
      some { Identifier := "type",
             ValidateFunctionIdentifier := .ValidateAllowedStringValue,
             Type_ := .TypeString,
             Optional := true,
             AllowedValues := "INTEGRATION, SECURE, SINGLE_SELECT, TEXT" } := by
    decide!
  have ha := PipelinePropertyValidator_allowed
  rw [hf] at ha
  simp only [Option.map_some', Option.some.injEq] at ha
  simp only [validate.ResourceValidator.accepts, hf, validate.ValidateAllowedStringValues, ha]

set_option maxRecDepth 100000 in
/-- C17 (failing input): "APPCONFIG" is a declared type, the `type` validator of the
pipeline-property resource refuses it and the one of the trigger-property resource
accepts it. -/
theorem type_validators_counterexample :
    "APPCONFIG" ∈ declaredTypes ∧
      ResourceIBMTektonPipelinePropertyValidator.accepts "type" "APPCONFIG" = some false ∧
      ResourceIBMTektonPipelineTriggerPropertyValidator.accepts "type" "APPCONFIG" =
        some true := by
  refine ⟨by decide, ?_, ?_⟩
  · rw [PipelinePropertyValidator_accepts]
    decide
  · rw [TriggerPropertyValidator_accepts]
    decide

/-- C17: the `type` validator of the trigger-property resource accepts exactly the
five declared types TEXT, SECURE, SINGLE_SELECT, INTEGRATION, APPCONFIG; the one of
the pipeline-property resource accepts exactly the four values TEXT, SECURE,
SINGLE_SELECT, INTEGRATION, so it refuses the declared type APPCONFIG that its
sibling accepts; each refuses every other string. -/
theorem type_validators (v : String) :
    (ResourceIBMTektonPipelineTriggerPropertyValidator.accepts "type" v = some true ↔
        v ∈ declaredTypes) ∧
      (ResourceIBMTektonPipelineTriggerPropertyValidator.accepts "type" v = some false ↔
        v ∉ declaredTypes) ∧
      (ResourceIBMTektonPipelinePropertyValidator.accepts "type" v = some true ↔
        v ∈ ["TEXT", "SECURE", "SINGLE_SELECT", "INTEGRATION"]) ∧
      (ResourceIBMTektonPipelinePropertyValidator.accepts "type" v = some false ↔
        v ∉ ["TEXT", "SECURE", "SINGLE_SELECT", "INTEGRATION"]) := by
  rw [TriggerPropertyValidator_accepts, PipelinePropertyValidator_accepts]
  simp only [declaredTypes, Option.some.injEq, List.contains_eq_any_beq, List.any_cons,
    List.any_nil, Bool.or_false, Bool.or_eq_true, beq_iff_eq, List.mem_cons, List.mem_singleton,
    List.not_mem_nil, or_false, Bool.or_eq_false_iff, beq_eq_false_iff_ne, ne_eq, not_or]
  tauto

/-- C18: the scopes ("a.b","c","n") and ("a","b.c","n") are different and have the
same derived key, hence the same expected record for every candidate, and the
closure gives the same answers for the two resources. -/
theorem joinedKey_collision :
    (("a.b", "c", "n") : String × String × String) ≠ ("a", "b.c", "n") ∧
      joinedKey "a.b" "c" "n" = joinedKey "a" "b.c" "n" ∧
      (∀ P, expectedRecord (joinedKey "a.b" "c" "n") P =
        expectedRecord (joinedKey "a" "b.c" "n") P) ∧
      ∀ k old new,
        (DiffSuppressFunc k old new (triggerProperty "a.b/c/n" "n" "SECURE")).map Prod.fst =
          (DiffSuppressFunc k old new (triggerProperty "a/b.c/n" "n" "SECURE")).map Prod.fst := by
  have hk : joinedKey "a.b" "c" "n" = joinedKey "a" "b.c" "n" := by decide
  refine ⟨by decide, hk, fun P => by rw [hk], fun k old new => ?_⟩
  rw [DiffSuppressFunc_secure k old new (triggerProperty "a.b/c/n" "n" "SECURE") "a.b" "c" ["n"]
      (by decide) (by decide),
    DiffSuppressFunc_secure k old new (triggerProperty "a/b.c/n" "n" "SECURE") "a" "b.c" ["n"]
      (by decide) (by decide)]
  have hn1 : (triggerProperty "a.b/c/n" "n" "SECURE").Get "name" = "n" := by decide
  have hn2 : (triggerProperty "a/b.c/n" "n" "SECURE").Get "name" = "n" := by decide
  rw [hn1, hn2, hk]
  rfl

theorem TriggerRead_calls (meta : conns.ClientSession) (s : Run) (p t n : String)
    (rest : List String)
    (hs : meta.ContinuousDeliveryPipelineV2.2 = none)
    (hp : flex.SepIdParts s.d.Id "/" = (p :: t :: n :: rest, none)) :
    (ResourceIBMTektonPipelineTriggerPropertyRead meta s).2.calls =
      s.calls ++ [Call.GetTektonPipelineTriggerProperty
        { PipelineID := some p, TriggerID := some t, PropertyName := some n }] := by
  obtain ⟨⟨cd, e⟩, tc, ia, im⟩ := meta
  simp only at hs
  subst hs
  simp only [ResourceIBMTektonPipelineTriggerPropertyRead, bind, CRUD.bind, pure, CRUD.pure, dId,
    hp, index, invoke, List.getElem?_cons_zero, List.getElem?_cons_succ,
    GetTektonPipelineTriggerPropertyOptions.SetPipelineID,
    GetTektonPipelineTriggerPropertyOptions.SetTriggerID,
    GetTektonPipelineTriggerPropertyOptions.SetPropertyName]
  rcases cd.GetTektonPipelineTriggerPropertyWithContext
    { PipelineID := some p, TriggerID := some t, PropertyName := some n } with ⟨tp, resp, err⟩
  rcases err with _ | err
  · rcases tp with _ | tp
    · simp [CRUD.bind, CRUD.pure]
    · rcases he : tp.Enum with _ | en <;> simp [CRUD.bind, CRUD.pure, he]
  · cases h4 : is404 resp <;> simp [h4, CRUD.bind, CRUD.pure]

theorem PropertyRead_calls (meta : conns.ClientSession) (s : Run) (p n : String)
    (rest : List String)
    (hs : meta.ContinuousDeliveryPipelineV2.2 = none)
    (hp : flex.SepIdParts s.d.Id "/" = (p :: n :: rest, none)) :
    (ResourceIBMTektonPipelinePropertyRead meta s).2.calls =
      s.calls ++ [Call.GetTektonPipelineProperty
        { PipelineID := some p, PropertyName := some n }] := by
  obtain ⟨⟨cd, e⟩, tc, ia, im⟩ := meta
  simp only at hs
  subst hs
  simp only [ResourceIBMTektonPipelinePropertyRead, bind, CRUD.bind, pure, CRUD.pure, dId,
    hp, index, invoke, List.getElem?_cons_zero, List.getElem?_cons_succ,
    GetTektonPipelinePropertyOptions.SetPipelineID,
    GetTektonPipelinePropertyOptions.SetPropertyName]
  rcases cd.GetTektonPipelinePropertyWithContext
    { PipelineID := some p, PropertyName := some n } with ⟨tp, resp, err⟩
  rcases err with _ | err
  · rcases tp with _ | tp
    · simp [CRUD.bind, CRUD.pure]
    · simp [CRUD.bind, CRUD.pure]
  · cases h4 : is404 resp <;> simp [h4, CRUD.bind, CRUD.pure]

theorem SecretsmanagerParametersToMap_isSome (model : DynMap) :
    ∃ m, ResourceIbmToolchainToolSecretsmanagerParametersToMap model = some (m, none) := by
  unfold ResourceIbmToolchainToolSecretsmanagerParametersToMap
  by_cases h1 : model.get "name" != Dyn.nil <;> by_cases h2 : model.get "region" != Dyn.nil <;>
    by_cases h3 : model.get "resource-group" != Dyn.nil <;>
    by_cases h4 : model.get "instance-name" != Dyn.nil <;>
    simp [h1, h2, h3, h4]

theorem SecretsmanagerRead_calls (meta : conns.ClientSession) (s : Run) (p n : String)
    (rest : List String)
    (hs : meta.ToolchainV2.2 = none)
    (hp : flex.SepIdParts s.d.Id "/" = (p :: n :: rest, none)) :
    (ResourceIbmToolchainToolSecretsmanagerRead meta s).2.calls =
      s.calls ++ [Call.GetIntegrationByID
        { ToolchainID := some p, IntegrationID := some n }] := by
  obtain ⟨cd, ⟨tc, e⟩, ia, im⟩ := meta
  simp only at hs
  subst hs
  simp only [ResourceIbmToolchainToolSecretsmanagerRead, bind, CRUD.bind, pure, CRUD.pure, dId,
    hp, index, invoke, List.getElem?_cons_zero, List.getElem?_cons_succ,
    GetIntegrationByIdOptions.SetToolchainID, GetIntegrationByIdOptions.SetIntegrationID]
  rcases tc.GetIntegrationByIDWithContext
    { ToolchainID := some p, IntegrationID := some n } with ⟨r, resp, err⟩
  rcases err with _ | err
  · rcases r with _ | r
    · simp [CRUD.bind, CRUD.pure]
    · rcases hpar : r.Parameters with _ | par
      · rcases href : ResourceIbmToolchainToolSecretsmanagerGetIntegrationByIdResponseReferentToMap
          r.Referent with _ | ⟨rm, re⟩
        · simp [CRUD.bind, CRUD.pure, hpar, href]
        · rcases re with _ | re <;> simp [CRUD.bind, CRUD.pure, hpar, href]
      · obtain ⟨m, hm⟩ := SecretsmanagerParametersToMap_isSome par
        rcases href : ResourceIbmToolchainToolSecretsmanagerGetIntegrationByIdResponseReferentToMap
          r.Referent with _ | ⟨rm, re⟩
        · simp [CRUD.bind, CRUD.pure, hpar, href, hm]
        · rcases re with _ | re <;> simp [CRUD.bind, CRUD.pure, hpar, href, hm]
  · cases h4 : is404 resp <;> simp [h4, CRUD.bind, CRUD.pure]

theorem SonarqubeParametersToMap_isSome (model : DynMap) :
    ∃ m, ResourceIbmToolchainToolSonarqubeParametersToMap model = some (m, none) := by
  unfold ResourceIbmToolchainToolSonarqubeParametersToMap
  by_cases h1 : model.get "user_login" != Dyn.nil <;>
    by_cases h2 : model.get "user_password" != Dyn.nil <;>
    by_cases h3 : model.get "blind_connection" != Dyn.nil <;>
    simp [h1, h2, h3]

theorem SonarqubeContainerToMap_isSome (model : Container) :
    ∃ m, ResourceIbmToolchainToolSonarqubeContainerToMap model = some (m, none) := by
  unfold ResourceIbmToolchainToolSonarqubeContainerToMap
  simp

theorem SonarqubeRead_calls (meta : conns.ClientSession) (s : Run)
    (hs : meta.IbmToolchainApiV2.2 = none) :
    (ResourceIbmToolchainToolSonarqubeRead meta s).2.calls =
      s.calls ++ [Call.GetServiceInstance { ServiceInstanceID := some s.d.Id }] := by
  obtain ⟨cd, tc, ⟨ia, e⟩, im⟩ := meta
  simp only at hs
  subst hs
  simp only [ResourceIbmToolchainToolSonarqubeRead, bind, CRUD.bind, pure, CRUD.pure, dId,
    invoke, GetServiceInstanceOptions.SetServiceInstanceID]
  rcases ia.GetServiceInstanceWithContext { ServiceInstanceID := some s.d.Id }
    with ⟨r, resp, err⟩
  rcases err with _ | err
  · rcases r with _ | r
    · simp [CRUD.bind, CRUD.pure]
    · rcases hpar : r.Parameters with _ | par <;> rcases hc : r.Container with _ | c
      · simp [CRUD.bind, CRUD.pure, hpar, hc]
      · obtain ⟨m, hm⟩ := SonarqubeContainerToMap_isSome c
        simp [CRUD.bind, CRUD.pure, hpar, hc, hm]
      · obtain ⟨m, hm⟩ := SonarqubeParametersToMap_isSome par
        simp [CRUD.bind, CRUD.pure, hpar, hc, hm]
      · obtain ⟨m, hm⟩ := SonarqubeParametersToMap_isSome par
        obtain ⟨m', hm'⟩ := SonarqubeContainerToMap_isSome c
        simp [CRUD.bind, CRUD.pure, hpar, hc, hm, hm']
  · cases h4 : is404 resp <;> simp [h4, CRUD.bind, CRUD.pure]

theorem IamRead_calls (meta : conns.ClientSession) (s : Run) (p n : String)
    (rest : List String)
    (hs : meta.IamIdentityV1.2 = none)
    (hp : flex.SepIdParts s.d.Id "/" = (p :: n :: rest, none)) :
    (resourceIbmIamAccountSettingsRead meta s).2.calls =
      s.calls ++ [Call.GetAccountSettings
        { AccountID := some n, IncludeHistory := some (s.d.GetBool "include_history") }] := by
  obtain ⟨cd, tc, ia, ⟨im, e⟩⟩ := meta
  simp only at hs
  subst hs
  simp only [resourceIbmIamAccountSettingsRead, idParts, bind, CRUD.bind, pure, CRUD.pure, dId,
    hp, index, invoke, dGetBool, List.getElem?_cons_zero, List.getElem?_cons_succ,
    GetAccountSettingsOptions.SetAccountID, GetAccountSettingsOptions.SetIncludeHistory]
  rcases im.GetAccountSettingsWithContext
    { AccountID := some n, IncludeHistory := some (s.d.GetBool "include_history") }
    with ⟨r, resp, err⟩
  rcases err with _ | err
  · rcases r with _ | r
    · simp [CRUD.bind, CRUD.pure]
    · rcases hctx : r.Context with _ | ctx <;> rcases hh : r.History with _ | h <;>
        simp [CRUD.bind, CRUD.pure, hctx, hh]
  · cases h4 : is404 resp <;> simp [h4, CRUD.bind, CRUD.pure]

theorem TriggerUpdate_calls (meta : conns.ClientSession) (d : schema.ResourceData)
    (p t n : String) (rest : List String)
    (hs : meta.ContinuousDeliveryPipelineV2.2 = none)
    (hp : flex.SepIdParts d.Id "/" = (p :: t :: n :: rest, none)) :
    ∀ c ∈ (ResourceIBMTektonPipelineTriggerPropertyUpdate meta { d := d }).2.calls,
      (∃ o, c = Call.ReplaceTektonPipelineTriggerProperty o ∧ o.PipelineID = some p ∧
        o.TriggerID = some t ∧ o.PropertyName = some n ∧ o.Value = none) ∨
      c = Call.GetTektonPipelineTriggerProperty
        { PipelineID := some p, TriggerID := some t, PropertyName := some n } := by
  have hread := fun cs => TriggerRead_calls meta { d := d, calls := cs } p t n rest hs hp
  obtain ⟨⟨cd, e⟩, tc, ia, im⟩ := meta
  simp only at hs
  subst hs
  cases h1 : d.HasChange "pipeline_id"
  swap
  · simp [ResourceIBMTektonPipelineTriggerPropertyUpdate, hp, h1, bind, CRUD.bind, pure, CRUD.pure]
  cases h2 : d.HasChange "trigger_id"
  swap
  · simp [ResourceIBMTektonPipelineTriggerPropertyUpdate, hp, h1, h2, bind, CRUD.bind, pure,
      CRUD.pure]
  cases h3 : d.HasChange "enum"
  swap
  · simp [ResourceIBMTektonPipelineTriggerPropertyUpdate, hp, h1, h2, h3, bind, CRUD.bind, pure,
      CRUD.pure]
  cases h4 : d.HasChange "default" <;> cases h5 : d.HasChange "path"
  all_goals
    simp [ResourceIBMTektonPipelineTriggerPropertyUpdate, dId, hp, index, dGet, dHasChange,
      h1, h2, h3, h4, h5, bind, CRUD.bind, pure, CRUD.pure]
  · simp [hread]
  all_goals
    generalize cd.ReplaceTektonPipelineTriggerPropertyWithContext _ = ans
    obtain ⟨r, resp, err⟩ := ans
    cases err <;> simp [CRUD.bind, CRUD.pure, hread]

theorem TriggerDelete_calls (meta : conns.ClientSession) (s : Run) (p t n : String)
    (rest : List String)
    (hs : meta.ContinuousDeliveryPipelineV2.2 = none)
    (hp : flex.SepIdParts s.d.Id "/" = (p :: t :: n :: rest, none)) :
    (ResourceIBMTektonPipelineTriggerPropertyDelete meta s).2.calls =
      s.calls ++ [Call.DeleteTektonPipelineTriggerProperty
        { PipelineID := some p, TriggerID := some t, PropertyName := some n }] := by
  obtain ⟨⟨cd, e⟩, tc, ia, im⟩ := meta
  simp only at hs
  subst hs
  simp only [ResourceIBMTektonPipelineTriggerPropertyDelete, bind, CRUD.bind, pure, CRUD.pure, dId,
    hp, index, invoke, List.getElem?_cons_zero, List.getElem?_cons_succ,
    DeleteTektonPipelineTriggerPropertyOptions.SetPipelineID,
    DeleteTektonPipelineTriggerPropertyOptions.SetTriggerID,
    DeleteTektonPipelineTriggerPropertyOptions.SetPropertyName]
  rcases cd.DeleteTektonPipelineTriggerPropertyWithContext
    { PipelineID := some p, TriggerID := some t, PropertyName := some n } with ⟨resp, err⟩
  rcases err with _ | err <;> simp [CRUD.bind, CRUD.pure]

theorem PropertyDelete_calls (meta : conns.ClientSession) (s : Run) (p n : String)
    (rest : List String)
    (hs : meta.ContinuousDeliveryPipelineV2.2 = none)
    (hp : flex.SepIdParts s.d.Id "/" = (p :: n :: rest, none)) :
    (ResourceIBMTektonPipelinePropertyDelete meta s).2.calls =
      s.calls ++ [Call.DeleteTektonPipelineProperty
        { PipelineID := some p, PropertyName := some n }] := by
  obtain ⟨⟨cd, e⟩, tc, ia, im⟩ := meta
  simp only at hs
  subst hs
  simp only [ResourceIBMTektonPipelinePropertyDelete, bind, CRUD.bind, pure, CRUD.pure, dId,
    hp, index, invoke, List.getElem?_cons_zero, List.getElem?_cons_succ,
    DeleteTektonPipelinePropertyOptions.SetPipelineID,
    DeleteTektonPipelinePropertyOptions.SetPropertyName]
  rcases cd.DeleteTektonPipelinePropertyWithContext
    { PipelineID := some p, PropertyName := some n } with ⟨resp, err⟩
  rcases err with _ | err <;> simp [CRUD.bind, CRUD.pure]

set_option maxHeartbeats 1600000 in
theorem PropertyUpdate_calls (meta : conns.ClientSession) (d : schema.ResourceData)
    (p n : String) (rest : List String)
    (hs : meta.ContinuousDeliveryPipelineV2.2 = none)
    (hp : flex.SepIdParts d.Id "/" = (p :: n :: rest, none)) :
    ∀ c ∈ (ResourceIBMTektonPipelinePropertyUpdate meta { d := d }).2.calls,
      (∃ o, c = Call.ReplaceTektonPipelineProperty o ∧ o.PipelineID = some p ∧
        o.PropertyName = some n) ∨
      c = Call.GetTektonPipelineProperty { PipelineID := some p, PropertyName := some n } := by
  have hread := fun cs => PropertyRead_calls meta { d := d, calls := cs } p n rest hs hp
  obtain ⟨⟨cd, e⟩, tc, ia, im⟩ := meta
  simp only at hs
  subst hs
  cases h1 : d.HasChange "pipeline_id"
  swap
  · simp [ResourceIBMTektonPipelinePropertyUpdate, hp, h1, bind, CRUD.bind, pure, CRUD.pure]
  by_cases h2 : d.Get "type" = "SINGLE_SELECT" <;> cases h3 : d.HasChange "options" <;>
    cases h4 : d.HasChange "value" <;> cases h5 : d.HasChange "path" <;>
    simp [ResourceIBMTektonPipelinePropertyUpdate, dId, hp, index, dGet, dHasChange, dGetMap,
      h1, h2, h3, h4, h5, bind, CRUD.bind, pure, CRUD.pure, hread]
  all_goals
    generalize cd.ReplaceTektonPipelinePropertyWithContext _ = ans
    obtain ⟨r, resp, err⟩ := ans
    cases err <;> simp [CRUD.bind, CRUD.pure, hread]

/-! ### Stepping through a CRUD function, one statement at a time -/

theorem bind_pure_apply {α β : Type} (a : α) (f : α → CRUD β) (s : Run) :
    (pure a >>= f) s = f a s := rfl

theorem pure_apply {α : Type} (a : α) (s : Run) : (pure a : CRUD α) s = (some a, s) := rfl

theorem bind_dId {β : Type} (f : String → CRUD β) (s : Run) :
    (dId >>= f) s = f s.d.Id s := rfl

theorem bind_dGet {β : Type} (k : String) (f : String → CRUD β) (s : Run) :
    (dGet k >>= f) s = f (s.d.Get k) s := rfl

theorem bind_dGetOk {β : Type} (k : String) (f : Bool → CRUD β) (s : Run) :
    (dGetOk k >>= f) s = f (s.d.GetOk k) s := rfl

theorem bind_dGetBool {β : Type} (k : String) (f : Bool → CRUD β) (s : Run) :
    (dGetBool k >>= f) s = f (s.d.GetBool k) s := rfl

theorem bind_dGetMap {β : Type} (k : String) (f : List (String × String) → CRUD β) (s : Run) :
    (dGetMap k >>= f) s = f (s.d.GetMap k) s := rfl

theorem bind_dGetObject {β : Type} (k : String) (sf bf : List String) (f : DynMap → CRUD β)
    (s : Run) : (dGetObject k sf bf >>= f) s = f (s.d.GetObject k sf bf) s := rfl

theorem bind_dHasChange {β : Type} (k : String) (f : Bool → CRUD β) (s : Run) :
    (dHasChange k >>= f) s = f (s.d.HasChange k) s := rfl

theorem bind_dSet {β : Type} (k : String) (e : List (String × String))
    (f : Option String → CRUD β) (s : Run) :
    (dSet k e >>= f) s = f none { s with d := s.d.Set k e } := rfl

theorem bind_dSetId {β : Type} (id : String) (f : Unit → CRUD β) (s : Run) :
    (dSetId id >>= f) s = f () { s with d := s.d.SetId id } := rfl

theorem bind_invoke {α β : Type} (c : Call) (a : α) (f : α → CRUD β) (s : Run) :
    (invoke c a >>= f) s = f a { s with calls := s.calls ++ [c] } := rfl

theorem bind_deref_some {α β : Type} (a : α) (f : α → CRUD β) (s : Run) :
    (deref (some a) >>= f) s = f a s := rfl

theorem bind_deref_none {α β : Type} (f : α → CRUD β) (s : Run) :
    (deref (none : Option α) >>= f) s = (none, s) := rfl

theorem bind_dGetStringSlice {β : Type} (k : String) (f : List String → CRUD β) (s : Run) :
    (dGetStringSlice k >>= f) s = (none, s) := rfl

theorem ite_run {α : Type} (c : Prop) [Decidable c] (a b : CRUD α) (s : Run) :
    (if c then a else b) s = if c then a s else b s := by
  split <;> rfl

theorem bind_index {β : Type} (parts : List String) (i : Nat) (f : String → CRUD β) (s : Run) :
    (index parts i >>= f) s =
      match parts[i]? with
      | none => (none, s)
      | some a => f a s := by
  show CRUD.bind _ _ _ = _
  unfold CRUD.bind index
  cases parts[i]? <;> rfl


set_option maxHeartbeats 1600000 in
theorem TriggerCreate_eq (meta : conns.ClientSession) (d : schema.ResourceData) (n : String)
    (hs : meta.ContinuousDeliveryPipelineV2.2 = none)
    (hc : ∀ o, ∃ prop resp,
      meta.ContinuousDeliveryPipelineV2.1.CreateTektonPipelineTriggerPropertiesWithContext o =
        (some prop, resp, none) ∧ prop.Name = some n)
    (he : d.GetOk "enum" = false) :
    ∃ o, ResourceIBMTektonPipelineTriggerPropertyCreate meta { d := d } =
        ResourceIBMTektonPipelineTriggerPropertyRead meta
          { d := d.SetId (fmt.Sprintf "%s/%s/%s" [d.Get "pipeline_id", d.Get "trigger_id", n]),
            calls := [Call.CreateTektonPipelineTriggerProperties o] } ∧
      o.PipelineID = some (d.Get "pipeline_id") ∧ o.TriggerID = some (d.Get "trigger_id") := by
  obtain ⟨⟨cd, e⟩, tc, ia, im⟩ := meta
  simp only at hs hc
  subst hs
  choose prop resp hc hn using hc
  simp only [ResourceIBMTektonPipelineTriggerPropertyCreate, ↓bind_pure_apply, ↓pure_apply,
      ↓bind_dGet, ↓bind_dGetOk, ↓bind_invoke, ↓bind_dSetId, ↓bind_deref_some, ↓reduceIte,
      ↓ite_run, he, hc, hn, Bool.false_eq_true,
      CreateTektonPipelineTriggerPropertiesOptions.SetPipelineID,
      CreateTektonPipelineTriggerPropertiesOptions.SetTriggerID,
      CreateTektonPipelineTriggerPropertiesOptions.SetName,
      CreateTektonPipelineTriggerPropertiesOptions.SetValue,
      CreateTektonPipelineTriggerPropertiesOptions.SetDefault,
      CreateTektonPipelineTriggerPropertiesOptions.SetType,
      CreateTektonPipelineTriggerPropertiesOptions.SetPath]
  generalize d.GetOk "name" = b1
  generalize d.GetOk "value" = b2
  generalize d.GetOk "default" = b3
  generalize d.GetOk "type" = b4
  generalize d.GetOk "path" = b5
  cases b1 <;> cases b2 <;> cases b3 <;> cases b4 <;> cases b5 <;> exact ⟨_, rfl, rfl, rfl⟩

set_option maxHeartbeats 1600000 in
theorem PropertyCreate_eq (meta : conns.ClientSession) (d : schema.ResourceData) (n : String)
    (hs : meta.ContinuousDeliveryPipelineV2.2 = none)
    (hc : ∀ o, ∃ prop resp,
      meta.ContinuousDeliveryPipelineV2.1.CreateTektonPipelinePropertiesWithContext o =
        (some prop, resp, none) ∧ prop.Name = some n) :
    ∃ o, ResourceIBMTektonPipelinePropertyCreate meta { d := d } =
        ResourceIBMTektonPipelinePropertyRead meta
          { d := d.SetId (fmt.Sprintf "%s/%s" [d.Get "pipeline_id", n]),
            calls := [Call.CreateTektonPipelineProperties o] } ∧
      o.PipelineID = some (d.Get "pipeline_id") := by
  obtain ⟨⟨cd, e⟩, tc, ia, im⟩ := meta
  simp only at hs hc
  subst hs
  choose prop resp hc hn using hc
  simp only [ResourceIBMTektonPipelinePropertyCreate, ↓bind_pure_apply, ↓pure_apply,
      ↓bind_dGet, ↓bind_dGetOk, ↓bind_dGetMap, ↓bind_invoke, ↓bind_dSetId, ↓bind_deref_some,
      ↓reduceIte, ↓ite_run, hc, hn,
      CreateTektonPipelinePropertiesOptions.SetPipelineID,
      CreateTektonPipelinePropertiesOptions.SetName,
      CreateTektonPipelinePropertiesOptions.SetValue,
      CreateTektonPipelinePropertiesOptions.SetOptions,
      CreateTektonPipelinePropertiesOptions.SetType,
      CreateTektonPipelinePropertiesOptions.SetPath]
  generalize d.GetOk "name" = b1
  generalize d.GetOk "value" = b2
  generalize d.GetOk "options" = b3
  generalize d.GetOk "type" = b4
  generalize d.GetOk "path" = b5
  cases b1 <;> cases b2 <;> cases b3 <;> cases b4 <;> cases b5 <;> exact ⟨_, rfl, rfl⟩

theorem SecretsmanagerMapToParameters_GetObject (d : schema.ResourceData) :
    ∃ m, ResourceIbmToolchainToolSecretsmanagerMapToParameters
      (d.GetObject "parameters.0" secretsmanagerParameterFields []) = some (m, none) := by
  simp [ResourceIbmToolchainToolSecretsmanagerMapToParameters, schema.ResourceData.GetObject,
    secretsmanagerParameterFields, DynMap.get, List.lookup, Dyn.assertString]

theorem SonarqubeMapToParameters_GetObject (d : schema.ResourceData) :
    ∃ m, ResourceIbmToolchainToolSonarqubeMapToParameters
      (d.GetObject "parameters.0" sonarqubeParameterFields ["blind_connection"]) =
        some (m, none) := by
  simp [ResourceIbmToolchainToolSonarqubeMapToParameters, schema.ResourceData.GetObject,
    sonarqubeParameterFields, DynMap.get, List.lookup, Dyn.assertString, Dyn.assertBool]

theorem SonarqubeMapToContainer_GetObject (d : schema.ResourceData) :
    ∃ m, ResourceIbmToolchainToolSonarqubeMapToContainer
      (d.GetObject "container.0" ["guid", "type"] []) = some (m, none) := by
  simp [ResourceIbmToolchainToolSonarqubeMapToContainer, schema.ResourceData.GetObject,
    DynMap.get, List.lookup, Dyn.assertString]

theorem SecretsmanagerCreate_eq (meta : conns.ClientSession) (d : schema.ResourceData)
    (i : String)
    (hs : meta.ToolchainV2.2 = none)
    (hc : ∀ o, ∃ r resp,
      meta.ToolchainV2.1.PostIntegrationWithContext o = (some r, resp, none) ∧ r.ID = some i) :
    ∃ o, ResourceIbmToolchainToolSecretsmanagerCreate meta { d := d } =
        ResourceIbmToolchainToolSecretsmanagerRead meta
          { d := d.SetId (fmt.Sprintf "%s/%s" [d.Get "toolchain_id", i]),
            calls := [Call.PostIntegration o] } ∧
      o.ToolchainID = some (d.Get "toolchain_id") := by
  obtain ⟨m, hm⟩ := SecretsmanagerMapToParameters_GetObject d
  obtain ⟨cd, ⟨tc, e⟩, ia, im⟩ := meta
  simp only at hs hc
  subst hs
  choose r resp hc hn using hc
  simp only [ResourceIbmToolchainToolSecretsmanagerCreate, ↓bind_pure_apply, ↓pure_apply,
      ↓bind_dGet, ↓bind_dGetOk, ↓bind_dGetObject, ↓bind_invoke, ↓bind_dSetId, ↓bind_deref_some,
      ↓reduceIte, ↓ite_run, hc, hn, hm,
      PostIntegrationOptions.SetToolchainID, PostIntegrationOptions.SetToolID,
      PostIntegrationOptions.SetName, PostIntegrationOptions.SetParameters]
  generalize d.GetOk "name" = b1
  generalize d.GetOk "parameters" = b2
  generalize d.GetOk "parameters_references" = b3
  cases b1 <;> cases b2 <;> cases b3 <;> exact ⟨_, rfl, rfl⟩

theorem SonarqubeCreate_eq (meta : conns.ClientSession) (d : schema.ResourceData)
    (i : String)
    (hs : meta.IbmToolchainApiV2.2 = none)
    (hc : ∀ o, ∃ r resp,
      meta.IbmToolchainApiV2.1.CreateServiceInstanceWithContext o = (some r, resp, none) ∧
        r.InstanceID = some i) :
    ∃ o, ResourceIbmToolchainToolSonarqubeCreate meta { d := d } =
        ResourceIbmToolchainToolSonarqubeRead meta
          { d := d.SetId i, calls := [Call.CreateServiceInstance o] } := by
  obtain ⟨m, hm⟩ := SonarqubeMapToParameters_GetObject d
  obtain ⟨m', hm'⟩ := SonarqubeMapToContainer_GetObject d
  obtain ⟨cd, tc, ⟨ia, e⟩, im⟩ := meta
  simp only at hs hc
  subst hs
  choose r resp hc hn using hc
  simp only [ResourceIbmToolchainToolSonarqubeCreate, ↓bind_pure_apply, ↓pure_apply,
      ↓bind_dGet, ↓bind_dGetOk, ↓bind_dGetObject, ↓bind_invoke, ↓bind_dSetId, ↓bind_deref_some,
      ↓reduceIte, ↓ite_run, hc, hn, hm, hm',
      CreateServiceInstanceOptions.SetServiceID, CreateServiceInstanceOptions.SetToolchainID,
      CreateServiceInstanceOptions.SetParameters, CreateServiceInstanceOptions.SetContainer]
  generalize d.GetOk "parameters" = b1
  generalize d.GetOk "parameters_references" = b2
  generalize d.GetOk "container" = b3
  cases b1 <;> cases b2 <;> cases b3 <;> exact ⟨_, rfl⟩

theorem SecretsmanagerDelete_calls (meta : conns.ClientSession) (s : Run) (p n : String)
    (rest : List String)
    (hs : meta.ToolchainV2.2 = none)
    (hp : flex.SepIdParts s.d.Id "/" = (p :: n :: rest, none)) :
    (ResourceIbmToolchainToolSecretsmanagerDelete meta s).2.calls =
      s.calls ++ [Call.DeleteToolIntegration
        { ToolchainID := some p, IntegrationID := some n }] := by
  obtain ⟨cd, ⟨tc, e⟩, ia, im⟩ := meta
  simp only at hs
  subst hs
  simp only [ResourceIbmToolchainToolSecretsmanagerDelete, bind, CRUD.bind, pure, CRUD.pure, dId,
    hp, index, invoke, List.getElem?_cons_zero, List.getElem?_cons_succ,
    DeleteToolIntegrationOptions.SetToolchainID, DeleteToolIntegrationOptions.SetIntegrationID]
  rcases tc.DeleteToolIntegrationWithContext
    { ToolchainID := some p, IntegrationID := some n } with ⟨resp, err⟩
  rcases err with _ | err <;> simp [CRUD.bind, CRUD.pure]

theorem SonarqubeDelete_calls (meta : conns.ClientSession) (s : Run)
    (hs : meta.IbmToolchainApiV2.2 = none) :
    (ResourceIbmToolchainToolSonarqubeDelete meta s).2.calls =
      s.calls ++ [Call.DeleteServiceInstance { ServiceInstanceID := some s.d.Id }] := by
  obtain ⟨cd, tc, ⟨ia, e⟩, im⟩ := meta
  simp only at hs
  subst hs
  simp only [ResourceIbmToolchainToolSonarqubeDelete, bind, CRUD.bind, pure, CRUD.pure, dId,
    invoke, DeleteServiceInstanceOptions.SetServiceInstanceID]
  rcases ia.DeleteServiceInstanceWithContext { ServiceInstanceID := some s.d.Id }
    with ⟨resp, err⟩
  rcases err with _ | err <;> simp [CRUD.bind, CRUD.pure]

set_option maxHeartbeats 1600000 in
theorem SecretsmanagerUpdate_calls (meta : conns.ClientSession) (d : schema.ResourceData)
    (p n : String) (rest : List String)
    (hs : meta.ToolchainV2.2 = none)
    (hp : flex.SepIdParts d.Id "/" = (p :: n :: rest, none)) :
    ∀ c ∈ (ResourceIbmToolchainToolSecretsmanagerUpdate meta { d := d }).2.calls,
      (∃ o, c = Call.PatchToolIntegration o ∧ o.ToolchainID = some p ∧
        o.IntegrationID = some n) ∨
      c = Call.GetIntegrationByID { ToolchainID := some p, IntegrationID := some n } := by
  have hread := fun cs => SecretsmanagerRead_calls meta { d := d, calls := cs } p n rest hs hp
  obtain ⟨m, hm⟩ := SecretsmanagerMapToParameters_GetObject d
  obtain ⟨cd, ⟨tc, e⟩, ia, im⟩ := meta
  simp only at hs
  subst hs
  cases h1 : d.HasChange "toolchain_id"
  swap
  · simp [ResourceIbmToolchainToolSecretsmanagerUpdate, hp, h1, bind, CRUD.bind, pure, CRUD.pure]
  cases h2 : d.HasChange "name" <;> cases h3 : d.HasChange "parameters" <;>
    cases h4 : d.HasChange "parameters_references" <;>
    simp [ResourceIbmToolchainToolSecretsmanagerUpdate, dId, hp, index, dGet, dHasChange,
      dGetObject, hm, h1, h2, h3, h4, bind, CRUD.bind, pure, CRUD.pure, hread]
  all_goals
    generalize tc.PatchToolIntegrationWithContext _ = ans
    obtain ⟨r, resp, err⟩ := ans
    cases err <;> simp [CRUD.bind, CRUD.pure, hread]

set_option maxHeartbeats 1600000 in
theorem SonarqubeUpdate_calls (meta : conns.ClientSession) (d : schema.ResourceData)
    (hs : meta.IbmToolchainApiV2.2 = none) :
    ∀ c ∈ (ResourceIbmToolchainToolSonarqubeUpdate meta { d := d }).2.calls,
      (∃ o, c = Call.PatchServiceInstance o ∧ o.ServiceInstanceID = some d.Id) ∨
      c = Call.GetServiceInstance { ServiceInstanceID := some d.Id } := by
  have hread := fun cs => SonarqubeRead_calls meta { d := d, calls := cs } hs
  obtain ⟨m, hm⟩ := SonarqubeMapToParameters_GetObject d
  obtain ⟨cd, tc, ⟨ia, e⟩, im⟩ := meta
  simp only at hs
  subst hs
  cases h1 : d.HasChange "toolchain_id"
  swap
  · simp [ResourceIbmToolchainToolSonarqubeUpdate, h1, bind, CRUD.bind, pure, CRUD.pure]
  cases h2 : d.HasChange "container"
  swap
  · simp [ResourceIbmToolchainToolSonarqubeUpdate, h1, h2, bind, CRUD.bind, pure, CRUD.pure]
  cases h3 : d.HasChange "parameters" <;>
    cases h4 : d.HasChange "parameters_references" <;>
    simp [ResourceIbmToolchainToolSonarqubeUpdate, dId, dGet, dHasChange,
      dGetObject, hm, h1, h2, h3, h4, bind, CRUD.bind, pure, CRUD.pure, hread]
  all_goals
    generalize ia.PatchServiceInstanceWithContext _ = ans
    obtain ⟨resp, err⟩ := ans
    cases err <;> simp [CRUD.bind, CRUD.pure, hread]

/-! ### The requests of Update when no ForceNew attribute has changed -/

theorem TriggerUpdate_requests (meta : conns.ClientSession) (d : schema.ResourceData)
    (p t n : String) (rest : List String)
    (hs : meta.ContinuousDeliveryPipelineV2.2 = none)
    (hp : flex.SepIdParts d.Id "/" = (p :: t :: n :: rest, none))
    (h1 : d.HasChange "pipeline_id" = false) (h2 : d.HasChange "trigger_id" = false)
    (h3 : d.HasChange "enum" = false) :
    ∃ o : ReplaceTektonPipelineTriggerPropertyOptions,
      o.PipelineID = some p ∧ o.TriggerID = some t ∧ o.PropertyName = some n ∧
      (ResourceIBMTektonPipelineTriggerPropertyUpdate meta { d := d }).2.calls =
        if (d.HasChange "default" || d.HasChange "path") = true then
          Call.ReplaceTektonPipelineTriggerProperty o ::
            (if (meta.ContinuousDeliveryPipelineV2.1.ReplaceTektonPipelineTriggerPropertyWithContext
                o).2.2 = none then
              [Call.GetTektonPipelineTriggerProperty
                { PipelineID := some p, TriggerID := some t, PropertyName := some n }]
            else [])
        else
          [Call.GetTektonPipelineTriggerProperty
            { PipelineID := some p, TriggerID := some t, PropertyName := some n }] := by
  have hread := fun cs => TriggerRead_calls meta { d := d, calls := cs } p t n rest hs hp
  obtain ⟨⟨cd, e⟩, tc, ia, im⟩ := meta
  simp only at hs
  subst hs
  refine ⟨{ PipelineID := some p, TriggerID := some t, PropertyName := some n,
            Name := some (d.Get "name"), Type_ := some (d.Get "type"),
            Default := if d.HasChange "default" then some (d.Get "default") else none,
            Path := if d.HasChange "path" then some (d.Get "path") else none },
    rfl, rfl, rfl, ?_⟩
  cases h4 : d.HasChange "default" <;> cases h5 : d.HasChange "path"
  all_goals
    simp [ResourceIBMTektonPipelineTriggerPropertyUpdate, dId, hp, index, dGet, dHasChange,
      h1, h2, h3, h4, h5, bind, CRUD.bind, pure, CRUD.pure]
  · simp [hread]
  all_goals
    generalize cd.ReplaceTektonPipelineTriggerPropertyWithContext _ = ans
    obtain ⟨r, resp, err⟩ := ans
    cases err <;> simp [CRUD.bind, CRUD.pure, hread]

set_option maxHeartbeats 1600000 in
theorem PropertyUpdate_requests (meta : conns.ClientSession) (d : schema.ResourceData)
    (p n : String) (rest : List String)
    (hs : meta.ContinuousDeliveryPipelineV2.2 = none)
    (hp : flex.SepIdParts d.Id "/" = (p :: n :: rest, none))
    (h1 : d.HasChange "pipeline_id" = false) :
    ∃ o : ReplaceTektonPipelinePropertyOptions,
      o.PipelineID = some p ∧ o.PropertyName = some n ∧
      (ResourceIBMTektonPipelinePropertyUpdate meta { d := d }).2.calls =
        if ((d.Get "type" == "SINGLE_SELECT" && d.HasChange "options") ||
            d.HasChange "value" || d.HasChange "path") = true then
          Call.ReplaceTektonPipelineProperty o ::
            (if (meta.ContinuousDeliveryPipelineV2.1.ReplaceTektonPipelinePropertyWithContext
                o).2.2 = none then
              [Call.GetTektonPipelineProperty { PipelineID := some p, PropertyName := some n }]
            else [])
        else
          [Call.GetTektonPipelineProperty { PipelineID := some p, PropertyName := some n }] := by
  have hread := fun cs => PropertyRead_calls meta { d := d, calls := cs } p n rest hs hp
  obtain ⟨⟨cd, e⟩, tc, ia, im⟩ := meta
  simp only at hs
  subst hs
  refine ⟨{ PipelineID := some p, PropertyName := some n,
            Name := some (d.Get "name"), Type_ := some (d.Get "type"),
            Options := if (d.Get "type" == "SINGLE_SELECT" && d.HasChange "options") = true
              then some (d.GetMap "options") else none,
            Value := if (d.HasChange "value" &&
                !(d.Get "type" == "SINGLE_SELECT" && d.HasChange "options")) = true
              then some (d.Get "value") else none,
            Path := if d.HasChange "path" then some (d.Get "path") else none },
    rfl, rfl, ?_⟩
  simp only [ResourceIBMTektonPipelinePropertyUpdate, ↓bind_pure_apply, ↓pure_apply,
    ↓bind_dId, ↓bind_index, ↓bind_dGet, ↓bind_dGetMap, ↓bind_dHasChange, ↓bind_invoke,
    ↓reduceIte, ↓ite_run, hp, h1, Bool.false_eq_true, List.getElem?_cons_zero,
    List.getElem?_cons_succ,
    ReplaceTektonPipelinePropertyOptions.SetPipelineID,
    ReplaceTektonPipelinePropertyOptions.SetPropertyName,
    ReplaceTektonPipelinePropertyOptions.SetName,
    ReplaceTektonPipelinePropertyOptions.SetType,
    ReplaceTektonPipelinePropertyOptions.SetOptions,
    ReplaceTektonPipelinePropertyOptions.SetValue,
    ReplaceTektonPipelinePropertyOptions.SetPath]
  generalize (d.Get "type" == "SINGLE_SELECT") = b1
  generalize d.HasChange "options" = b2
  generalize d.HasChange "value" = b3
  generalize d.HasChange "path" = b4
  cases b1 <;> cases b2 <;> cases b3 <;> cases b4
  all_goals
    simp only [↓reduceIte, Bool.false_eq_true, Bool.and_true, Bool.and_false, Bool.true_and,
      Bool.false_and, Bool.or_true, Bool.or_false, Bool.true_or, Bool.false_or, Bool.not_true,
      Bool.not_false, Bool.and_self, Bool.or_self, hread, List.nil_append]
  all_goals
    generalize cd.ReplaceTektonPipelinePropertyWithContext _ = ans
    obtain ⟨r, resp, err⟩ := ans
    cases err <;> simp [bind_pure_apply, pure_apply, hread]

theorem SecretsmanagerUpdate_requests (meta : conns.ClientSession) (d : schema.ResourceData)
    (p i : String) (rest : List String)
    (hs : meta.ToolchainV2.2 = none)
    (hp : flex.SepIdParts d.Id "/" = (p :: i :: rest, none))
    (h1 : d.HasChange "toolchain_id" = false) :
    ∃ o : PatchToolIntegrationOptions,
      o.ToolchainID = some p ∧ o.IntegrationID = some i ∧
      (ResourceIbmToolchainToolSecretsmanagerUpdate meta { d := d }).2.calls =
        if (d.HasChange "name" || d.HasChange "parameters" ||
            d.HasChange "parameters_references") = true then
          Call.PatchToolIntegration o ::
            (if (meta.ToolchainV2.1.PatchToolIntegrationWithContext o).2.2 = none then
              [Call.GetIntegrationByID { ToolchainID := some p, IntegrationID := some i }]
            else [])
        else
          [Call.GetIntegrationByID { ToolchainID := some p, IntegrationID := some i }] := by
  have hread := fun cs => SecretsmanagerRead_calls meta { d := d, calls := cs } p i rest hs hp
  obtain ⟨m, hm⟩ := SecretsmanagerMapToParameters_GetObject d
  obtain ⟨cd, ⟨tc, e⟩, ia, im⟩ := meta
  simp only at hs
  subst hs
  refine ⟨{ ToolchainID := some p, IntegrationID := some i, ToolID := some "secretsmanager",
            Name := if d.HasChange "name" then some (d.Get "name") else none,
            Parameters := if d.HasChange "parameters" then some m else none },
    rfl, rfl, ?_⟩
  cases h2 : d.HasChange "name" <;> cases h3 : d.HasChange "parameters" <;>
    cases h4 : d.HasChange "parameters_references" <;>
    simp [ResourceIbmToolchainToolSecretsmanagerUpdate, dId, hp, index, dGet, dHasChange,
      dGetObject, hm, h1, h2, h3, h4, bind, CRUD.bind, pure, CRUD.pure, hread]
  all_goals
    generalize tc.PatchToolIntegrationWithContext _ = ans
    obtain ⟨r, resp, err⟩ := ans
    cases err <;> simp [CRUD.bind, CRUD.pure, hread]

theorem SonarqubeUpdate_requests (meta : conns.ClientSession) (d : schema.ResourceData)
    (hs : meta.IbmToolchainApiV2.2 = none)
    (h1 : d.HasChange "toolchain_id" = false) (h2 : d.HasChange "container" = false) :
    ∃ o : PatchServiceInstanceOptions,
      o.ServiceInstanceID = some d.Id ∧
      (ResourceIbmToolchainToolSonarqubeUpdate meta { d := d }).2.calls =
        if (d.HasChange "parameters" || d.HasChange "parameters_references") = true then
          Call.PatchServiceInstance o ::
            (if (meta.IbmToolchainApiV2.1.PatchServiceInstanceWithContext o).2 = none then
              [Call.GetServiceInstance { ServiceInstanceID := some d.Id }]
            else [])
        else
          [Call.GetServiceInstance { ServiceInstanceID := some d.Id }] := by
  have hread := fun cs => SonarqubeRead_calls meta { d := d, calls := cs } hs
  obtain ⟨m, hm⟩ := SonarqubeMapToParameters_GetObject d
  obtain ⟨cd, tc, ⟨ia, e⟩, im⟩ := meta
  simp only at hs
  subst hs
  refine ⟨{ ServiceID := some "sonarqube", ServiceInstanceID := some d.Id,
            Parameters := if d.HasChange "parameters" then some m else none },
    rfl, ?_⟩
  cases h3 : d.HasChange "parameters" <;>
    cases h4 : d.HasChange "parameters_references" <;>
    simp [ResourceIbmToolchainToolSonarqubeUpdate, dId, dGet, dHasChange,
      dGetObject, hm, h1, h2, h3, h4, bind, CRUD.bind, pure, CRUD.pure, hread]
  all_goals
    generalize ia.PatchServiceInstanceWithContext _ = ans
    obtain ⟨resp, err⟩ := ans
    cases err <;> simp [CRUD.bind, CRUD.pure, hread]

theorem TriggerUpdate_enum (meta : conns.ClientSession) (d : schema.ResourceData)
    (p t n : String) (rest : List String)
    (hs : meta.ContinuousDeliveryPipelineV2.2 = none)
    (hp : flex.SepIdParts d.Id "/" = (p :: t :: n :: rest, none))
    (h1 : d.HasChange "pipeline_id" = false) (h2 : d.HasChange "trigger_id" = false)
    (h3 : d.HasChange "enum" = true) :
    ResourceIBMTektonPipelineTriggerPropertyUpdate meta { d := d } = (none, { d := d }) := by
  obtain ⟨⟨cd, e⟩, tc, ia, im⟩ := meta
  simp only at hs
  subst hs
  simp [ResourceIBMTektonPipelineTriggerPropertyUpdate, hp, h1, h2, h3, bind, CRUD.bind, pure,
    CRUD.pure]

/-! ## The id of a resource and the requests of its CRUD functions -/

/-- C13: for components `p`, `t`, `n` without "/" (empty ones included), the id that
Create sets, `p/t/n` for a trigger property and `p/n` for a pipeline property,
splits on "/" into exactly these components; Create (the service answering the
request with a property named `n`, no `enum` configured for the trigger property)
continues as Read on the data with that id, and Read, Delete and Update at such an
id send `p`, (`t`,) `n` as pipeline id, (trigger id,) property name: Read and Delete
send exactly one request, with these components; every request of Update carries
them, and when no ForceNew attribute has changed (and, for the trigger property,
`enum` has not, whose change makes Update panic before any request) Update sends
the replace request with these components if an attribute it forwards has
changed, and then, unless the replace request failed, the lookup of Read with
these components, so at least one request in every case. -/
theorem tekton_id_round_trip (meta : conns.ClientSession) (p t n : String)
    (hs : meta.ContinuousDeliveryPipelineV2.2 = none)
    (hp : '/' ∉ p.toList) (ht : '/' ∉ t.toList) (hn : '/' ∉ n.toList)
    (hc : ∀ o, ∃ prop resp,
      meta.ContinuousDeliveryPipelineV2.1.CreateTektonPipelineTriggerPropertiesWithContext o =
        (some prop, resp, none) ∧ prop.Name = some n)
    (hc' : ∀ o, ∃ prop resp,
      meta.ContinuousDeliveryPipelineV2.1.CreateTektonPipelinePropertiesWithContext o =
        (some prop, resp, none) ∧ prop.Name = some n) :
    flex.SepIdParts (fmt.Sprintf "%s/%s/%s" [p, t, n]) "/" = ([p, t, n], none) ∧
      flex.SepIdParts (fmt.Sprintf "%s/%s" [p, n]) "/" = ([p, n], none) ∧
      (∀ d : schema.ResourceData, d.Get "pipeline_id" = p → d.Get "trigger_id" = t →
        d.GetOk "enum" = false →
        ∃ o, ResourceIBMTektonPipelineTriggerPropertyCreate meta { d := d } =
            ResourceIBMTektonPipelineTriggerPropertyRead meta
              { d := d.SetId (fmt.Sprintf "%s/%s/%s" [p, t, n]),
                calls := [Call.CreateTektonPipelineTriggerProperties o] } ∧
          o.PipelineID = some p ∧ o.TriggerID = some t) ∧
      (∀ d : schema.ResourceData, d.Get "pipeline_id" = p →
        ∃ o, ResourceIBMTektonPipelinePropertyCreate meta { d := d } =
            ResourceIBMTektonPipelinePropertyRead meta
              { d := d.SetId (fmt.Sprintf "%s/%s" [p, n]),
                calls := [Call.CreateTektonPipelineProperties o] } ∧
          o.PipelineID = some p) ∧
      (∀ (d : schema.ResourceData) (cs : List Call), d.Id = fmt.Sprintf "%s/%s/%s" [p, t, n] →
        (ResourceIBMTektonPipelineTriggerPropertyRead meta { d := d, calls := cs }).2.calls =
            cs ++ [Call.GetTektonPipelineTriggerProperty
              { PipelineID := some p, TriggerID := some t, PropertyName := some n }] ∧
          (ResourceIBMTektonPipelineTriggerPropertyDelete meta { d := d, calls := cs }).2.calls =
            cs ++ [Call.DeleteTektonPipelineTriggerProperty
              { PipelineID := some p, TriggerID := some t, PropertyName := some n }] ∧
          (∀ c ∈ (ResourceIBMTektonPipelineTriggerPropertyUpdate meta { d := d }).2.calls,
            (∃ o, c = Call.ReplaceTektonPipelineTriggerProperty o ∧ o.PipelineID = some p ∧
              o.TriggerID = some t ∧ o.PropertyName = some n) ∨
            c = Call.GetTektonPipelineTriggerProperty
              { PipelineID := some p, TriggerID := some t, PropertyName := some n }) ∧
          (d.HasChange "pipeline_id" = false → d.HasChange "trigger_id" = false →
            d.HasChange "enum" = false →
            ∃ o : ReplaceTektonPipelineTriggerPropertyOptions,
              o.PipelineID = some p ∧ o.TriggerID = some t ∧ o.PropertyName = some n ∧
              (ResourceIBMTektonPipelineTriggerPropertyUpdate meta { d := d }).2.calls =
                if (d.HasChange "default" || d.HasChange "path") = true then
                  Call.ReplaceTektonPipelineTriggerProperty o ::
                    (if (meta.ContinuousDeliveryPipelineV2.1.ReplaceTektonPipelineTriggerPropertyWithContext
                        o).2.2 = none then
                      [Call.GetTektonPipelineTriggerProperty
                        { PipelineID := some p, TriggerID := some t, PropertyName := some n }]
                    else [])
                else
                  [Call.GetTektonPipelineTriggerProperty
                    { PipelineID := some p, TriggerID := some t, PropertyName := some n }]) ∧
          (d.HasChange "pipeline_id" = false → d.HasChange "trigger_id" = false →
            d.HasChange "enum" = true →
            ResourceIBMTektonPipelineTriggerPropertyUpdate meta { d := d } =
              (none, { d := d }))) ∧
      (∀ (d : schema.ResourceData) (cs : List Call), d.Id = fmt.Sprintf "%s/%s" [p, n] →
        (ResourceIBMTektonPipelinePropertyRead meta { d := d, calls := cs }).2.calls =
            cs ++ [Call.GetTektonPipelineProperty
              { PipelineID := some p, PropertyName := some n }] ∧
          (ResourceIBMTektonPipelinePropertyDelete meta { d := d, calls := cs }).2.calls =
            cs ++ [Call.DeleteTektonPipelineProperty
              { PipelineID := some p, PropertyName := some n }] ∧
          (∀ c ∈ (ResourceIBMTektonPipelinePropertyUpdate meta { d := d }).2.calls,
            (∃ o, c = Call.ReplaceTektonPipelineProperty o ∧ o.PipelineID = some p ∧
              o.PropertyName = some n) ∨
            c = Call.GetTektonPipelineProperty
              { PipelineID := some p, PropertyName := some n }) ∧
          (d.HasChange "pipeline_id" = false →
            ∃ o : ReplaceTektonPipelinePropertyOptions,
              o.PipelineID = some p ∧ o.PropertyName = some n ∧
              (ResourceIBMTektonPipelinePropertyUpdate meta { d := d }).2.calls =
                if ((d.Get "type" == "SINGLE_SELECT" && d.HasChange "options") ||
                    d.HasChange "value" || d.HasChange "path") = true then
                  Call.ReplaceTektonPipelineProperty o ::
                    (if (meta.ContinuousDeliveryPipelineV2.1.ReplaceTektonPipelinePropertyWithContext
                        o).2.2 = none then
                      [Call.GetTektonPipelineProperty
                        { PipelineID := some p, PropertyName := some n }]
                    else [])
                else
                  [Call.GetTektonPipelineProperty
                    { PipelineID := some p, PropertyName := some n }])) := by
  have h3 : flex.SepIdParts (fmt.Sprintf "%s/%s/%s" [p, t, n]) "/" = ([p, t, n], none) := by
    rw [Sprintf_three]
    exact SepIdParts_three hp ht hn
  have h2 : flex.SepIdParts (fmt.Sprintf "%s/%s" [p, n]) "/" = ([p, n], none) := by
    rw [Sprintf_two]
    exact SepIdParts_two hp hn
  refine ⟨h3, h2, ?_, ?_, ?_, ?_⟩
  · intro d e1 e2 he
    obtain ⟨o, ho, ho1, ho2⟩ := TriggerCreate_eq meta d n hs hc he
    simp only [e1, e2] at ho ho1 ho2
    exact ⟨o, ho, ho1, ho2⟩
  · intro d e1
    obtain ⟨o, ho, ho1⟩ := PropertyCreate_eq meta d n hs hc'
    rw [e1] at ho ho1
    exact ⟨o, ho, ho1⟩
  · intro d cs hid
    have hparts : flex.SepIdParts d.Id "/" = ([p, t, n], none) := by rw [hid, h3]
    refine ⟨TriggerRead_calls meta { d := d, calls := cs } p t n [] hs hparts,
      TriggerDelete_calls meta { d := d, calls := cs } p t n [] hs hparts, ?_,
      TriggerUpdate_requests meta d p t n [] hs hparts,
      TriggerUpdate_enum meta d p t n [] hs hparts⟩
    intro c hc
    rcases TriggerUpdate_calls meta d p t n [] hs hparts c hc with ⟨o, h1, h2, h3, h4, -⟩ | h
    · exact Or.inl ⟨o, h1, h2, h3, h4⟩
    · exact Or.inr h
  · intro d cs hid
    have hparts : flex.SepIdParts d.Id "/" = ([p, n], none) := by rw [hid, h2]
    exact ⟨PropertyRead_calls meta { d := d, calls := cs } p n [] hs hparts,
      PropertyDelete_calls meta { d := d, calls := cs } p n [] hs hparts,
      PropertyUpdate_calls meta d p n [] hs hparts,
      PropertyUpdate_requests meta d p n [] hs hparts⟩

set_option maxRecDepth 100000 in
theorem tekton_id_round_trip_witness :
    flex.SepIdParts (fmt.Sprintf "%s/%s/%s" ["p1", "t1", "name1"]) "/" =
        (["p1", "t1", "name1"], none) ∧
      (ResourceIBMTektonPipelineTriggerPropertyDelete exampleSession
          { d := valueChanged, calls := [] }).2.calls =
        [] ++ [Call.DeleteTektonPipelineTriggerProperty
          { PipelineID := some "p1", TriggerID := some "t1", PropertyName := some "name1" }] ∧
      (ResourceIBMTektonPipelineTriggerPropertyUpdate exampleSession
          { d := valueChanged }).2.calls =
        [Call.GetTektonPipelineTriggerProperty
          { PipelineID := some "p1", TriggerID := some "t1", PropertyName := some "name1" }] ∧
      ∃ o : ReplaceTektonPipelinePropertyOptions,
        o.PipelineID = some "p1" ∧ o.PropertyName = some "name1" ∧
        (ResourceIBMTektonPipelinePropertyUpdate exampleSession { d := selectChanged }).2.calls =
          [Call.ReplaceTektonPipelineProperty o,
            Call.GetTektonPipelineProperty
              { PipelineID := some "p1", PropertyName := some "name1" }] := by
  have h := tekton_id_round_trip exampleSession "p1" "t1" "name1" rfl (by decide) (by decide)
    (by decide) (fun _ => ⟨_, _, rfl, rfl⟩) (fun _ => ⟨_, _, rfl, rfl⟩)
  refine ⟨h.1, (h.2.2.2.2.1 valueChanged [] (by decide)).2.1, ?_, ?_⟩
  · obtain ⟨o, -, -, -, ho⟩ := (h.2.2.2.2.1 valueChanged [] (by decide)).2.2.2.1
      (by decide) (by decide) (by decide)
    rw [if_neg (by decide)] at ho
    exact ho
  · obtain ⟨o, h1, h2, ho⟩ := (h.2.2.2.2.2 selectChanged [] (by decide)).2.2.2 (by decide)
    rw [if_pos (by decide)] at ho
    exact ⟨o, h1, h2, ho.trans rfl⟩

/-- C14: for a toolchain id `p` and an integration id `i` without "/", the id that
`ResourceIbmToolchainToolSecretsmanagerCreate` sets, `p/i` with `i` the id in the
answer of the service, splits on "/" into part 0 = `p` and part 1 = `i`; Create
continues as Read on the data with that id, and Read, Delete and Update at such an
id send `p` as toolchain id and `i` as integration id: Read and Delete send exactly
one request, with these two; every request of Update carries them, and when
`toolchain_id` has not changed Update sends the patch request with them if `name`,
`parameters` or `parameters_references` has changed, and then, unless the patch
request failed, the lookup of Read with them, so at least one request in every
case. -/
theorem secretsmanager_id_round_trip (meta : conns.ClientSession) (p i : String)
    (hs : meta.ToolchainV2.2 = none)
    (hp : '/' ∉ p.toList) (hi : '/' ∉ i.toList)
    (hc : ∀ o, ∃ r resp,
      meta.ToolchainV2.1.PostIntegrationWithContext o = (some r, resp, none) ∧ r.ID = some i) :
    flex.SepIdParts (fmt.Sprintf "%s/%s" [p, i]) "/" = ([p, i], none) ∧
      (∀ d : schema.ResourceData, d.Get "toolchain_id" = p →
        ∃ o, ResourceIbmToolchainToolSecretsmanagerCreate meta { d := d } =
            ResourceIbmToolchainToolSecretsmanagerRead meta
              { d := d.SetId (fmt.Sprintf "%s/%s" [p, i]),
                calls := [Call.PostIntegration o] } ∧
          o.ToolchainID = some p) ∧
      (∀ (d : schema.ResourceData) (cs : List Call), d.Id = fmt.Sprintf "%s/%s" [p, i] →
        (ResourceIbmToolchainToolSecretsmanagerRead meta { d := d, calls := cs }).2.calls =
            cs ++ [Call.GetIntegrationByID { ToolchainID := some p, IntegrationID := some i }] ∧
          (ResourceIbmToolchainToolSecretsmanagerDelete meta { d := d, calls := cs }).2.calls =
            cs ++ [Call.DeleteToolIntegration
              { ToolchainID := some p, IntegrationID := some i }] ∧
          (∀ c ∈ (ResourceIbmToolchainToolSecretsmanagerUpdate meta { d := d }).2.calls,
            (∃ o, c = Call.PatchToolIntegration o ∧ o.ToolchainID = some p ∧
              o.IntegrationID = some i) ∨
            c = Call.GetIntegrationByID { ToolchainID := some p, IntegrationID := some i }) ∧
          (d.HasChange "toolchain_id" = false →
            ∃ o : PatchToolIntegrationOptions,
              o.ToolchainID = some p ∧ o.IntegrationID = some i ∧
              (ResourceIbmToolchainToolSecretsmanagerUpdate meta { d := d }).2.calls =
                if (d.HasChange "name" || d.HasChange "parameters" ||
                    d.HasChange "parameters_references") = true then
                  Call.PatchToolIntegration o ::
                    (if (meta.ToolchainV2.1.PatchToolIntegrationWithContext o).2.2 = none then
                      [Call.GetIntegrationByID
                        { ToolchainID := some p, IntegrationID := some i }]
                    else [])
                else
                  [Call.GetIntegrationByID
                    { ToolchainID := some p, IntegrationID := some i }])) := by
  have h2 : flex.SepIdParts (fmt.Sprintf "%s/%s" [p, i]) "/" = ([p, i], none) := by
    rw [Sprintf_two]
    exact SepIdParts_two hp hi
  refine ⟨h2, ?_, ?_⟩
  · intro d e1
    obtain ⟨o, ho, ho1⟩ := SecretsmanagerCreate_eq meta d i hs hc
    rw [e1] at ho ho1
    exact ⟨o, ho, ho1⟩
  · intro d cs hid
    have hparts : flex.SepIdParts d.Id "/" = ([p, i], none) := by rw [hid, h2]
    exact ⟨SecretsmanagerRead_calls meta { d := d, calls := cs } p i [] hs hparts,
      SecretsmanagerDelete_calls meta { d := d, calls := cs } p i [] hs hparts,
      SecretsmanagerUpdate_calls meta d p i [] hs hparts,
      SecretsmanagerUpdate_requests meta d p i [] hs hparts⟩

set_option maxRecDepth 100000 in
theorem secretsmanager_id_round_trip_witness :
    flex.SepIdParts (fmt.Sprintf "%s/%s" ["tc1", "i1"]) "/" = (["tc1", "i1"], none) ∧
      (ResourceIbmToolchainToolSecretsmanagerDelete exampleSession
          { d := { id := "tc1/i1", attrs := [("toolchain_id", "tc1")] }, calls := [] }).2.calls =
        [] ++ [Call.DeleteToolIntegration
          { ToolchainID := some "tc1", IntegrationID := some "i1" }] ∧
      ∃ o : PatchToolIntegrationOptions,
        o.ToolchainID = some "tc1" ∧ o.IntegrationID = some "i1" ∧
        (ResourceIbmToolchainToolSecretsmanagerUpdate exampleSession
          { d := { id := "tc1/i1", attrs := [("toolchain_id", "tc1"), ("name", "new")],
                   state := [("toolchain_id", "tc1"), ("name", "old")] } }).2.calls =
          [Call.PatchToolIntegration o,
            Call.GetIntegrationByID
              { ToolchainID := some "tc1", IntegrationID := some "i1" }] := by
  have h := secretsmanager_id_round_trip exampleSession "tc1" "i1" rfl (by decide) (by decide)
    (fun _ => ⟨_, _, rfl, rfl⟩)
  refine ⟨h.1,
    (h.2.2 { id := "tc1/i1", attrs := [("toolchain_id", "tc1")] } [] (by decide)).2.1, ?_⟩
  obtain ⟨o, h1, h2, ho⟩ := (h.2.2
    { id := "tc1/i1", attrs := [("toolchain_id", "tc1"), ("name", "new")],
      state := [("toolchain_id", "tc1"), ("name", "old")] } [] (by decide)).2.2.2 (by decide)
  rw [if_pos (by decide)] at ho
  exact ⟨o, h1, h2, ho.trans rfl⟩

/-- C15: `ResourceIbmToolchainToolSonarqubeCreate`, the service answering the
request with the instance id `i`, continues as Read on the data whose id is
exactly `i`; Read, Delete and Update send the id of the resource data, unsplit
and unchanged, as the service instance id of their requests: Read and Delete send
exactly one request, with that id; every request of Update carries it, and when
neither `toolchain_id` nor `container` has changed Update sends the patch request
with it if `parameters` or `parameters_references` has changed, and then, unless
the patch request failed, the lookup of Read with it, so at least one request in
every case. -/
theorem sonarqube_id_is_instance_id (meta : conns.ClientSession) (i : String)
    (hs : meta.IbmToolchainApiV2.2 = none)
    (hc : ∀ o, ∃ r resp,
      meta.IbmToolchainApiV2.1.CreateServiceInstanceWithContext o = (some r, resp, none) ∧
        r.InstanceID = some i) :
    (∀ d : schema.ResourceData,
        ∃ o, ResourceIbmToolchainToolSonarqubeCreate meta { d := d } =
            ResourceIbmToolchainToolSonarqubeRead meta
              { d := d.SetId i, calls := [Call.CreateServiceInstance o] } ∧
          (d.SetId i).Id = i) ∧
      (∀ (d : schema.ResourceData) (cs : List Call),
        (ResourceIbmToolchainToolSonarqubeRead meta { d := d, calls := cs }).2.calls =
            cs ++ [Call.GetServiceInstance { ServiceInstanceID := some d.Id }] ∧
          (ResourceIbmToolchainToolSonarqubeDelete meta { d := d, calls := cs }).2.calls =
            cs ++ [Call.DeleteServiceInstance { ServiceInstanceID := some d.Id }] ∧
          (∀ c ∈ (ResourceIbmToolchainToolSonarqubeUpdate meta { d := d }).2.calls,
            (∃ o, c = Call.PatchServiceInstance o ∧ o.ServiceInstanceID = some d.Id) ∨
            c = Call.GetServiceInstance { ServiceInstanceID := some d.Id }) ∧
          (d.HasChange "toolchain_id" = false → d.HasChange "container" = false →
            ∃ o : PatchServiceInstanceOptions,
              o.ServiceInstanceID = some d.Id ∧
              (ResourceIbmToolchainToolSonarqubeUpdate meta { d := d }).2.calls =
                if (d.HasChange "parameters" || d.HasChange "parameters_references") = true then
                  Call.PatchServiceInstance o ::
                    (if (meta.IbmToolchainApiV2.1.PatchServiceInstanceWithContext o).2 = none
                    then [Call.GetServiceInstance { ServiceInstanceID := some d.Id }]
                    else [])
                else
                  [Call.GetServiceInstance { ServiceInstanceID := some d.Id }])) := by
  refine ⟨?_, ?_⟩
  · intro d
    obtain ⟨o, ho⟩ := SonarqubeCreate_eq meta d i hs hc
    exact ⟨o, ho, rfl⟩
  · intro d cs
    exact ⟨SonarqubeRead_calls meta { d := d, calls := cs } hs,
      SonarqubeDelete_calls meta { d := d, calls := cs } hs,
      SonarqubeUpdate_calls meta d hs,
      SonarqubeUpdate_requests meta d hs⟩

set_option maxRecDepth 100000 in
theorem sonarqube_id_is_instance_id_witness :
    (ResourceIbmToolchainToolSonarqubeDelete exampleSession
        { d := { id := "a/b", attrs := [] }, calls := [] }).2.calls =
      [] ++ [Call.DeleteServiceInstance
        { ServiceInstanceID := some (schema.ResourceData.Id { id := "a/b", attrs := [] }) }] ∧
      ∃ o : PatchServiceInstanceOptions,
        o.ServiceInstanceID = some "inst1" ∧
        (ResourceIbmToolchainToolSonarqubeUpdate exampleSession
          { d := { id := "inst1",
                   attrs := [("toolchain_id", "tc1"), ("parameters.#", "1"),
                     ("parameters.0.name", "sq"), ("parameters.0.dashboard_url", "https://new")],
                   state := [("toolchain_id", "tc1"), ("parameters.#", "1"),
                     ("parameters.0.name", "sq"),
                     ("parameters.0.dashboard_url", "https://old")] } }).2.calls =
          [Call.PatchServiceInstance o,
            Call.GetServiceInstance { ServiceInstanceID := some "inst1" }] := by
  have h := sonarqube_id_is_instance_id exampleSession "inst1" rfl (fun _ => ⟨_, _, rfl, rfl⟩)
  refine ⟨(h.2 { id := "a/b", attrs := [] } []).2.1, ?_⟩
  obtain ⟨o, h1, ho⟩ := (h.2
    { id := "inst1",
      attrs := [("toolchain_id", "tc1"), ("parameters.#", "1"),
        ("parameters.0.name", "sq"), ("parameters.0.dashboard_url", "https://new")],
      state := [("toolchain_id", "tc1"), ("parameters.#", "1"),
        ("parameters.0.name", "sq"), ("parameters.0.dashboard_url", "https://old")] } []).2.2.2
    (by decide) (by decide)
  rw [if_pos (by decide)] at ho
  exact ⟨o, h1, ho.trans rfl⟩

/-! ## Reading an attribute after `d.Set` -/

theorem lookup_filter_belongsTo (key k : String) (h : schema.belongsTo key k = false)
    (l : List (String × String)) :
    (l.filter fun e => !schema.belongsTo key e.1).lookup k = l.lookup k := by
  induction l with
  | nil => rfl
  | cons e l ih =>
    obtain ⟨a, b⟩ := e
    by_cases hak : k = a
    · subst hak
      simp [List.filter, h, List.lookup]
    · have hk : (k == a) = false := by simpa using hak
      cases hb : schema.belongsTo key a <;> simp [List.filter, hb, List.lookup, hk, ih]

theorem lookup_filter_self (k : String) (l : List (String × String)) :
    (l.filter fun e => !schema.belongsTo k e.1).lookup k = none := by
  induction l with
  | nil => rfl
  | cons e l ih =>
    obtain ⟨a, b⟩ := e
    cases hb : schema.belongsTo k a
    · have hk : (k == a) = false := by
        by_contra hc
        have hka : k = a := by simpa using hc
        subst hka
        simp [schema.belongsTo] at hb
      simp [List.filter, hb, List.lookup, hk, ih]
    · simp [List.filter, hb, ih]

theorem lookup_of_belongsTo (key k : String) (h : schema.belongsTo key k = false)
    (l : List (String × String)) (hall : ∀ e ∈ l, schema.belongsTo key e.1 = true) :
    l.lookup k = none := by
  induction l with
  | nil => rfl
  | cons e l ih =>
    obtain ⟨a, b⟩ := e
    have ha : schema.belongsTo key a = true := hall (a, b) (List.mem_cons_self _ _)
    have hk : (k == a) = false := by
      by_contra hc
      have hka : k = a := by simpa using hc
      subst hka
      rw [h] at ha
      exact Bool.noConfusion ha
    simp only [List.lookup, hk]
    exact ih fun e he => hall e (List.mem_cons_of_mem _ he)

theorem lookup_append_of_none (k : String) (l₁ l₂ : List (String × String))
    (h : l₁.lookup k = none) : (l₁ ++ l₂).lookup k = l₂.lookup k := by
  induction l₁ with
  | nil => rfl
  | cons e l ih =>
    obtain ⟨a, b⟩ := e
    cases hk : (k == a)
    · simp only [List.lookup, hk] at h
      simp only [List.cons_append, List.lookup, hk]
      exact ih h
    · simp [List.lookup, hk] at h

theorem Get_Set_other (d : schema.ResourceData) (key k : String)
    (entries : List (String × String)) (h : schema.belongsTo key k = false)
    (hall : ∀ e ∈ entries, schema.belongsTo key e.1 = true) :
    (d.Set key entries).Get k = d.Get k := by
  unfold schema.ResourceData.Get schema.ResourceData.Set
  simp only
  rw [lookup_append_of_none _ _ _ (lookup_of_belongsTo key k h entries hall),
    lookup_filter_belongsTo key k h]

theorem Get_Set_string (d : schema.ResourceData) (k : String) (v : Option String) :
    (d.Set k (flat.string k v)).Get k = v.getD "" := by
  unfold schema.ResourceData.Get schema.ResourceData.Set
  cases v with
  | none =>
    simp only [flat.string, List.nil_append]
    rw [lookup_filter_self]
  | some s => simp [flat.string, List.lookup]

theorem belongsTo_self (k : String) : schema.belongsTo k k = true := by
  simp [schema.belongsTo]

theorem belongsTo_flat_string (key : String) (v : Option String) :
    ∀ e ∈ flat.string key v, schema.belongsTo key e.1 = true := by
  cases v with
  | none => simp [flat.string]
  | some s => simp [flat.string, belongsTo_self]

theorem belongsTo_append (key r : String) : schema.belongsTo key (key ++ "." ++ r) = true := by
  have h : (key ++ ".").toList.isPrefixOf (key ++ "." ++ r).toList = true := by
    rw [List.isPrefixOf_iff_prefix]
    exact ⟨r.toList, by simp [String.toList]⟩
  simp [schema.belongsTo, h]

theorem belongsTo_flat_strings (key : String) (l : List String) :
    ∀ e ∈ flat.strings key l, schema.belongsTo key e.1 = true := by
  intro e he
  simp only [flat.strings, List.mem_cons, List.mem_map] at he
  rcases he with rfl | ⟨x, -, rfl⟩
  · have h : key ++ ".#" = key ++ "." ++ "#" := by
      rw [String.append_assoc]
      rfl
    show schema.belongsTo key (key ++ ".#") = true
    rw [h]
    exact belongsTo_append key "#"
  · exact belongsTo_append key _

/-! ## What Read keeps in the state, and what Update sends -/

theorem not_IsStoredDigestRecord_secretValue : ¬ IsStoredDigestRecord "secretValue" := by
  rintro ⟨a, dg, h, -⟩
  have h' := congrArg String.toList h
  simp [String.toList] at h'

/-- C12 (amended): whatever the declared type, after a Read that the service
answers with a trigger property the value kept in the resource data is the value
of that answer, unchanged (the empty string for none), and the type kept is the
type of that answer; Read computes no digest. -/
theorem TriggerRead_value (meta : conns.ClientSession) (d : schema.ResourceData)
    (cs : List Call) (p t n : String) (rest : List String) (tp : TriggerProperty)
    (resp : Option core.DetailedResponse)
    (hs : meta.ContinuousDeliveryPipelineV2.2 = none)
    (hp : flex.SepIdParts d.Id "/" = (p :: t :: n :: rest, none))
    (hget : meta.ContinuousDeliveryPipelineV2.1.GetTektonPipelineTriggerPropertyWithContext
      { PipelineID := some p, TriggerID := some t, PropertyName := some n } =
        (some tp, resp, none)) :
    (ResourceIBMTektonPipelineTriggerPropertyRead meta { d := d, calls := cs }).1 = some none ∧
      (ResourceIBMTektonPipelineTriggerPropertyRead meta { d := d, calls := cs }).2.d.Get "value" =
        tp.Value.getD "" ∧
      (ResourceIBMTektonPipelineTriggerPropertyRead meta { d := d, calls := cs }).2.d.Get "type" =
        tp.Type_.getD "" := by
  obtain ⟨⟨cd, e⟩, tc, ia, im⟩ := meta
  simp only at hs hget
  subst hs
  have b1 : schema.belongsTo "path" "value" = false := by decide
  have b2 : schema.belongsTo "type" "value" = false := by decide
  have b3 : schema.belongsTo "default" "value" = false := by decide
  have b4 : schema.belongsTo "enum" "value" = false := by decide
  have b5 : schema.belongsTo "path" "type" = false := by decide
  rcases he : tp.Enum with _ | en <;>
    simp only [ResourceIBMTektonPipelineTriggerPropertyRead, ↓bind_pure_apply, ↓pure_apply,
      ↓bind_dId, ↓bind_index, ↓bind_invoke, ↓bind_dSet, ↓bind_deref_some, hp, hget, he,
      List.getElem?_cons_zero, List.getElem?_cons_succ,
      GetTektonPipelineTriggerPropertyOptions.SetPipelineID,
      GetTektonPipelineTriggerPropertyOptions.SetTriggerID,
      GetTektonPipelineTriggerPropertyOptions.SetPropertyName]
  · refine ⟨trivial, ?_, ?_⟩
    · rw [Get_Set_other _ _ _ _ b1 (belongsTo_flat_string _ _),
        Get_Set_other _ _ _ _ b2 (belongsTo_flat_string _ _),
        Get_Set_other _ _ _ _ b3 (belongsTo_flat_string _ _), Get_Set_string]
    · rw [Get_Set_other _ _ _ _ b5 (belongsTo_flat_string _ _), Get_Set_string]
  · refine ⟨trivial, ?_, ?_⟩
    · rw [Get_Set_other _ _ _ _ b1 (belongsTo_flat_string _ _),
        Get_Set_other _ _ _ _ b2 (belongsTo_flat_string _ _),
        Get_Set_other _ _ _ _ b3 (belongsTo_flat_string _ _),
        Get_Set_other _ _ _ _ b4 (belongsTo_flat_strings _ _), Get_Set_string]
    · rw [Get_Set_other _ _ _ _ b5 (belongsTo_flat_string _ _), Get_Set_string]

set_option maxRecDepth 100000 in
theorem TriggerRead_value_witness :
    (ResourceIBMTektonPipelineTriggerPropertyRead exampleSession
        { d := valueChanged, calls := [] }).1 = some none ∧
      (ResourceIBMTektonPipelineTriggerPropertyRead exampleSession
        { d := valueChanged, calls := [] }).2.d.Get "value" =
        Option.getD (some "secretValue") "" ∧
      (ResourceIBMTektonPipelineTriggerPropertyRead exampleSession
        { d := valueChanged, calls := [] }).2.d.Get "type" = Option.getD (some "SECURE") "" :=
  TriggerRead_value exampleSession valueChanged [] "p1" "t1" "name1" []
    { Name := some "name1", Value := some "secretValue", Type_ := some "SECURE" }
    (some { StatusCode := 200 }) rfl (by decide) rfl

set_option maxRecDepth 100000 in
/-- C12 (counterexample): the service answers the Read of a SECURE trigger property
with the value "secretValue"; after Read the resource data holds the type SECURE
and the value "secretValue", which is not a digest record. -/
theorem TriggerRead_secure_counterexample :
    (ResourceIBMTektonPipelineTriggerPropertyRead exampleSession
        { d := triggerProperty "p1/t1/name1" "name1" "SECURE" }).1 = some none ∧
      (ResourceIBMTektonPipelineTriggerPropertyRead exampleSession
        { d := triggerProperty "p1/t1/name1" "name1" "SECURE" }).2.d.Get "type" = "SECURE" ∧
      (ResourceIBMTektonPipelineTriggerPropertyRead exampleSession
        { d := triggerProperty "p1/t1/name1" "name1" "SECURE" }).2.d.Get "value" =
          "secretValue" ∧
      ¬ IsStoredDigestRecord ((ResourceIBMTektonPipelineTriggerPropertyRead exampleSession
        { d := triggerProperty "p1/t1/name1" "name1" "SECURE" }).2.d.Get "value") := by
  have h : (ResourceIBMTektonPipelineTriggerPropertyRead exampleSession
      { d := triggerProperty "p1/t1/name1" "name1" "SECURE" }).2.d.Get "value" =
        "secretValue" := by decide
  refine ⟨by decide, by decide, h, ?_⟩
  rw [h]
  exact not_IsStoredDigestRecord_secretValue

theorem TriggerUpdate_unchanged (meta : conns.ClientSession) (d : schema.ResourceData)
    (p t n : String) (rest : List String)
    (hs : meta.ContinuousDeliveryPipelineV2.2 = none)
    (hp : flex.SepIdParts d.Id "/" = (p :: t :: n :: rest, none))
    (h1 : d.HasChange "pipeline_id" = false) (h2 : d.HasChange "trigger_id" = false)
    (h3 : d.HasChange "enum" = false) (h4 : d.HasChange "default" = false)
    (h5 : d.HasChange "path" = false) :
    (ResourceIBMTektonPipelineTriggerPropertyUpdate meta { d := d }).2.calls =
      [Call.GetTektonPipelineTriggerProperty
        { PipelineID := some p, TriggerID := some t, PropertyName := some n }] := by
  have hread := fun cs => TriggerRead_calls meta { d := d, calls := cs } p t n rest hs hp
  obtain ⟨⟨cd, e⟩, tc, ia, im⟩ := meta
  simp only at hs
  subst hs
  simp [ResourceIBMTektonPipelineTriggerPropertyUpdate, dId, hp, index, dGet, dHasChange,
    h1, h2, h3, h4, h5, bind, CRUD.bind, pure, CRUD.pure, hread]

/-- C11: `ResourceIBMTektonPipelineTriggerPropertyUpdate` never reads the attribute
`value`: no replace request it sends carries a value, and when `value` is the only
attribute that has changed (pipeline_id, trigger_id, enum, default and path have
not) it sends no replace request at all, only the request of the Read that
follows. -/
theorem TriggerUpdate_value_not_sent (meta : conns.ClientSession) (d : schema.ResourceData)
    (p t n : String) (rest : List String)
    (hs : meta.ContinuousDeliveryPipelineV2.2 = none)
    (hp : flex.SepIdParts d.Id "/" = (p :: t :: n :: rest, none)) :
    (∀ o, Call.ReplaceTektonPipelineTriggerProperty o ∈
        (ResourceIBMTektonPipelineTriggerPropertyUpdate meta { d := d }).2.calls →
        o.Value = none) ∧
      (d.HasChange "pipeline_id" = false → d.HasChange "trigger_id" = false →
        d.HasChange "enum" = false → d.HasChange "default" = false →
        d.HasChange "path" = false →
        (ResourceIBMTektonPipelineTriggerPropertyUpdate meta { d := d }).2.calls =
          [Call.GetTektonPipelineTriggerProperty
            { PipelineID := some p, TriggerID := some t, PropertyName := some n }]) := by
  refine ⟨?_, TriggerUpdate_unchanged meta d p t n rest hs hp⟩
  intro o ho
  rcases TriggerUpdate_calls meta d p t n rest hs hp _ ho with ⟨o', h, -, -, -, hv⟩ | h
  · cases h
    exact hv
  · cases h

set_option maxRecDepth 100000 in
theorem TriggerUpdate_value_not_sent_witness :
    valueChanged.HasChange "value" = true ∧ valueChanged.Get "value" = "newValue" ∧
      (ResourceIBMTektonPipelineTriggerPropertyUpdate exampleSession
          { d := valueChanged }).2.calls =
        [Call.GetTektonPipelineTriggerProperty
          { PipelineID := some "p1", TriggerID := some "t1", PropertyName := some "name1" }] ∧
      (ResourceIBMTektonPipelinePropertyUpdate exampleSession
          { d := propertyValueChanged }).2.calls =
        [Call.ReplaceTektonPipelineProperty
          { PipelineID := some "p1", PropertyName := some "name1", Name := some "name1",
            Value := some "newValue", Type_ := some "TEXT" },
          Call.GetTektonPipelineProperty
            { PipelineID := some "p1", PropertyName := some "name1" }] :=
  ⟨by decide, by decide,
    (TriggerUpdate_value_not_sent exampleSession valueChanged "p1" "t1" "name1" [] rfl
      (by decide)).2 (by decide) (by decide) (by decide) (by decide) (by decide),
    by decide⟩

set_option maxHeartbeats 1600000 in
/-- C20 (amended): the string that `resourceIbmIamAccountSettingsUpdate` sends is the
configured one, unchecked: when `session_expiration_in_seconds` has changed, the
first request of Update is the update request and its session expiration is
exactly `d.Get("session_expiration_in_seconds")`, whatever that string is. -/
theorem resourceIbmIamAccountSettingsUpdate_session_expiration (meta : conns.ClientSession)
    (d : schema.ResourceData) (p n : String) (rest : List String)
    (hs : meta.IamIdentityV1.2 = none)
    (hp : idParts d.Id = (p :: n :: rest, none))
    (hch : d.HasChange "session_expiration_in_seconds" = true) :
    ∃ o, (resourceIbmIamAccountSettingsUpdate meta { d := d }).2.calls.head? =
        some (Call.UpdateAccountSettings o) ∧
      o.AccountID = some n ∧
      o.SessionExpirationInSeconds = some (d.Get "session_expiration_in_seconds") := by
  have hread := fun cs => IamRead_calls meta { d := d, calls := cs } p n rest hs hp
  obtain ⟨cd, tc, ia, ⟨im, e⟩⟩ := meta
  simp only at hs
  subst hs
  simp only [resourceIbmIamAccountSettingsUpdate, ↓bind_pure_apply, ↓pure_apply,
    ↓bind_dId, ↓bind_index, ↓bind_dGet, ↓bind_dHasChange, ↓bind_invoke, ↓reduceIte, ↓ite_run,
    hp, hch, List.getElem?_cons_zero, List.getElem?_cons_succ,
    UpdateAccountSettingsOptions.SetAccountID, UpdateAccountSettingsOptions.SetIfMatch,
    UpdateAccountSettingsOptions.SetRestrictCreateServiceID,
    UpdateAccountSettingsOptions.SetRestrictCreatePlatformApikey,
    UpdateAccountSettingsOptions.SetMfa,
    UpdateAccountSettingsOptions.SetSessionExpirationInSeconds,
    UpdateAccountSettingsOptions.SetSessionInvalidationInSeconds]
  generalize d.HasChange "restrict_create_service_id" = b1
  generalize d.HasChange "restrict_create_platform_apikey" = b2
  generalize d.HasChange "mfa" = b3
  generalize d.HasChange "session_invalidation_in_seconds" = b4
  cases b1 <;> cases b2 <;> cases b3 <;> cases b4
  all_goals
    simp only [↓reduceIte, Bool.false_eq_true]
    generalize im.UpdateAccountSettingsWithContext _ = ans
    obtain ⟨r, resp, err⟩ := ans
    cases err <;> simp [hread, bind_pure_apply, pure_apply]

set_option maxRecDepth 100000 in
theorem resourceIbmIamAccountSettingsUpdate_session_expiration_witness :
    ∃ o, (resourceIbmIamAccountSettingsUpdate exampleSession
        { d := sessionChanged }).2.calls.head? = some (Call.UpdateAccountSettings o) ∧
      o.AccountID = some "acc1" ∧
      o.SessionExpirationInSeconds = some (sessionChanged.Get "session_expiration_in_seconds") :=
  resourceIbmIamAccountSettingsUpdate_session_expiration exampleSession sessionChanged
    "acc1" "acc1" [] rfl (by decide) (by decide)

set_option maxRecDepth 100000 in
/-- C20 (counterexample): the schema entry of `session_expiration_in_seconds` has no
`ValidateFunc`, and for the configured string "abc", which is neither a whole
number between 900 and 86400 nor NOT_SET, Update sends an update request whose
session expiration is "abc". -/
theorem resourceIbmIamAccountSettingsUpdate_counterexample :
    resourceIbmIamAccountSettings_session_expiration_in_seconds.ValidateFunc = none ∧
      validSessionExpiration "abc" = false ∧
      validSessionExpiration "900" = true ∧ validSessionExpiration "NOT_SET" = true ∧
      (resourceIbmIamAccountSettingsUpdate exampleSession { d := sessionChanged }).2.calls =
        [Call.UpdateAccountSettings
          { AccountID := some "acc1", IfMatch := some "",
            SessionExpirationInSeconds := some "abc" },
          Call.GetAccountSettings
            { AccountID := some "acc1", IncludeHistory := some false }] := by
  refine ⟨rfl, by decide, by decide, by decide, by decide⟩

/-! ## The closure and the id: separator, key, noninterference -/

/-- C24: for type SECURE the closure returns a boolean exactly when the id contains
"/"; for an id without "/" the split gives the empty list of parts with an error
that the closure discards, the index expression `parts[0]` is out of range and the
closure panics; for a type other than SECURE it returns a boolean for every id. -/
theorem DiffSuppressFunc_secure_needs_separator (k old new : String)
    (d d' : schema.ResourceData)
    (hty : d.Get "type" = "SECURE") (hty' : d'.Get "type" ≠ "SECURE") :
    ((DiffSuppressFunc k old new d).isSome = true ↔ strings.Contains d.Id "/" = true) ∧
      (strings.Contains d.Id "/" = false →
        (flex.SepIdParts d.Id "/").1 = [] ∧ (flex.SepIdParts d.Id "/").2.isSome = true ∧
          (flex.SepIdParts d.Id "/").1[0]? = none ∧ DiffSuppressFunc k old new d = none) ∧
      ∃ b, DiffSuppressFunc k old new d' = some (b, d') := by
  have hno : strings.Contains d.Id "/" = false → DiffSuppressFunc k old new d = none := by
    intro hc
    apply DiffSuppressFunc_secure_short k old new d hty
    intro p0 p1 rest
    rw [SepIdParts_of_not_Contains hc]
    exact List.noConfusion
  refine ⟨⟨?_, ?_⟩, ?_, ⟨_, DiffSuppressFunc_not_secure k old new d' hty'⟩⟩
  · intro h
    by_contra hc
    rw [hno (by simpa using hc)] at h
    exact Bool.noConfusion h
  · intro hc
    obtain ⟨a, c, r, hp⟩ := SepIdParts_of_Contains hc
    rw [DiffSuppressFunc_secure k old new d a c r hty hp]
    rfl
  · intro hc
    refine ⟨SepIdParts_of_not_Contains hc, ?_, ?_, hno hc⟩
    · unfold flex.SepIdParts
      simp [hc]
    · rw [SepIdParts_of_not_Contains hc]
      rfl

theorem DiffSuppressFunc_secure_needs_separator_witness :
    ((DiffSuppressFunc "type" "old" "new" (triggerProperty "" "name1" "SECURE")).isSome = true ↔
        strings.Contains (triggerProperty "" "name1" "SECURE").Id "/" = true) ∧
      (strings.Contains (triggerProperty "" "name1" "SECURE").Id "/" = false →
        (flex.SepIdParts (triggerProperty "" "name1" "SECURE").Id "/").1 = [] ∧
          (flex.SepIdParts (triggerProperty "" "name1" "SECURE").Id "/").2.isSome = true ∧
          (flex.SepIdParts (triggerProperty "" "name1" "SECURE").Id "/").1[0]? = none ∧
          DiffSuppressFunc "type" "old" "new" (triggerProperty "" "name1" "SECURE") = none) ∧
      ∃ b, DiffSuppressFunc "type" "old" "new" (triggerProperty "" "name1" "TEXT") =
        some (b, triggerProperty "" "name1" "TEXT") :=
  DiffSuppressFunc_secure_needs_separator "type" "old" "new"
    (triggerProperty "" "name1" "SECURE") (triggerProperty "" "name1" "TEXT")
    (by decide) (by decide)

theorem dot_not_mem_of_matchesIdRegexp {s : String} (h : matchesIdRegexp s = true) :
    '.' ∉ s.toList := by
  intro hm
  unfold matchesIdRegexp at h
  simp only [Bool.and_eq_true, List.all_eq_true] at h
  have := h.2 '.' hm
  revert this
  decide

theorem append_dot_inj {a a' r r' : List Char} (ha : '.' ∉ a) (ha' : '.' ∉ a')
    (h : a ++ '.' :: r = a' ++ '.' :: r') : a = a' ∧ r = r' := by
  induction a generalizing a' with
  | nil =>
    cases a' with
    | nil => exact ⟨rfl, by simpa using h⟩
    | cons c cs =>
      simp only [List.nil_append, List.cons_append, List.cons.injEq] at h
      exact absurd (by simp [← h.1]) ha'
  | cons c cs ih =>
    cases a' with
    | nil =>
      simp only [List.nil_append, List.cons_append, List.cons.injEq] at h
      exact absurd (by simp [h.1]) ha
    | cons c' cs' =>
      simp only [List.cons_append, List.cons.injEq] at h
      have hcs : '.' ∉ cs := fun e => ha (List.mem_cons_of_mem _ e)
      have hcs' : '.' ∉ cs' := fun e => ha' (List.mem_cons_of_mem _ e)
      obtain ⟨h1, h2⟩ := ih hcs hcs' h.2
      exact ⟨by rw [h.1, h1], h2⟩

/-- C25: the validator entries of `pipeline_id` and `trigger_id` carry the regular
expression `^[-0-9a-z]+$`, whose strings contain no '.', and for pipeline and
trigger ids that match it the derived key determines the scope: equal keys
`p.t.n` and `p'.t'.n'` give `p = p'`, `t = t'` and `n = n'`, whatever the names. -/
theorem joinedKey_injective (p t n p' t' n' : String)
    (hp : matchesIdRegexp p = true) (ht : matchesIdRegexp t = true)
    (hp' : matchesIdRegexp p' = true) (ht' : matchesIdRegexp t' = true)
    (h : joinedKey p t n = joinedKey p' t' n') :
    (p = p' ∧ t = t' ∧ n = n') ∧
      ((ResourceIBMTektonPipelineTriggerPropertyValidator.Schema.filter fun vs =>
          vs.Identifier == "pipeline_id" || vs.Identifier == "trigger_id").map
          fun vs => vs.Regexp) = ["^[-0-9a-z]+$", "^[-0-9a-z]+$"] := by
  refine ⟨?_, by decide⟩
  have h' := congrArg String.toList h
  have e : ∀ a b c : String,
      (joinedKey a b c).toList = a.toList ++ '.' :: (b.toList ++ '.' :: c.toList) := by
    intro a b c
    simp [joinedKey, String.toList]
  rw [e, e] at h'
  obtain ⟨h1, h2⟩ := append_dot_inj (dot_not_mem_of_matchesIdRegexp hp)
    (dot_not_mem_of_matchesIdRegexp hp') h'
  obtain ⟨h3, h4⟩ := append_dot_inj (dot_not_mem_of_matchesIdRegexp ht)
    (dot_not_mem_of_matchesIdRegexp ht') h2
  exact ⟨String.ext h1, String.ext h3, String.ext h4⟩

theorem joinedKey_injective_witness :
    ("p-1" = "p-1" ∧ "t1" = "t1" ∧ "a.b" = "a.b") ∧
      ((ResourceIBMTektonPipelineTriggerPropertyValidator.Schema.filter fun vs =>
          vs.Identifier == "pipeline_id" || vs.Identifier == "trigger_id").map
          fun vs => vs.Regexp) = ["^[-0-9a-z]+$", "^[-0-9a-z]+$"] :=
  joinedKey_injective "p-1" "t1" "a.b" "p-1" "t1" "a.b" (by decide) (by decide) (by decide)
    (by decide) rfl

/-- C26: for types other than SECURE the boolean of the closure is `old = new`,
whatever the ids and names of the two runs; for type SECURE two runs whose ids
have the same first two parts (split on "/") and whose `name` attributes are equal
return the same, whatever the later parts of the ids: with parts `p`, `t` the
boolean is decided by the key of `p`, `t` and the `name` attribute alone. -/
theorem DiffSuppressFunc_noninterference (k k' old new : String)
    (d d' e e' : schema.ResourceData)
    (hd : d.Get "type" ≠ "SECURE") (hd' : d'.Get "type" ≠ "SECURE")
    (he : e.Get "type" = "SECURE") (he' : e'.Get "type" = "SECURE")
    (hparts : (flex.SepIdParts e.Id "/").1.take 2 = (flex.SepIdParts e'.Id "/").1.take 2)
    (hname : e.Get "name" = e'.Get "name") :
    (DiffSuppressFunc k old new d).map Prod.fst = some (decide (old = new)) ∧
      (DiffSuppressFunc k old new d).map Prod.fst =
        (DiffSuppressFunc k' old new d').map Prod.fst ∧
      (DiffSuppressFunc k old new e).map Prod.fst =
        (DiffSuppressFunc k' old new e').map Prod.fst ∧
      ∀ p t rest, (flex.SepIdParts e.Id "/").1 = p :: t :: rest →
        (DiffSuppressFunc k old new e).map Prod.fst =
          some (decide (expectedRecord (joinedKey p t (e.Get "name")) new = old)) := by
  refine ⟨?_, ?_, ?_, ?_⟩
  · rw [DiffSuppressFunc_not_secure k old new d hd]
    rfl
  · rw [DiffSuppressFunc_not_secure k old new d hd, DiffSuppressFunc_not_secure k' old new d' hd']
    rfl
  · rcases hp : (flex.SepIdParts e.Id "/").1 with _ | ⟨a, _ | ⟨b, r⟩⟩ <;>
      rcases hp' : (flex.SepIdParts e'.Id "/").1 with _ | ⟨a', _ | ⟨b', r'⟩⟩ <;>
      simp only [hp, hp', List.take, List.cons.injEq, and_true, reduceCtorEq, and_false]
        at hparts
    · rw [DiffSuppressFunc_secure_short k old new e he (by simp [hp]),
        DiffSuppressFunc_secure_short k' old new e' he' (by simp [hp'])]
    · rw [DiffSuppressFunc_secure_short k old new e he (by simp [hp]),
        DiffSuppressFunc_secure_short k' old new e' he' (by simp [hp'])]
    · obtain ⟨rfl, rfl⟩ := hparts
      rw [DiffSuppressFunc_secure k old new e a b r he hp,
        DiffSuppressFunc_secure k' old new e' a b r' he' hp', hname]
      rfl
  · intro p t rest hp
    rw [DiffSuppressFunc_secure k old new e p t rest he hp]
    rfl

theorem DiffSuppressFunc_noninterference_witness :
    (DiffSuppressFunc "type" "old" "new" (triggerProperty "x/y" "a" "TEXT")).map Prod.fst =
        some (decide ("old" = "new")) ∧
      (DiffSuppressFunc "type" "old" "new" (triggerProperty "x/y" "a" "TEXT")).map Prod.fst =
        (DiffSuppressFunc "type" "old" "new" (triggerProperty "" "b" "TEXT")).map Prod.fst ∧
      (DiffSuppressFunc "type" "old" "new"
          (triggerProperty "p1/t1/name1" "name1" "SECURE")).map Prod.fst =
        (DiffSuppressFunc "type" "old" "new"
          (triggerProperty "p1/t1/other/more" "name1" "SECURE")).map Prod.fst ∧
      ∀ p t rest,
        (flex.SepIdParts (triggerProperty "p1/t1/name1" "name1" "SECURE").Id "/").1 =
          p :: t :: rest →
        (DiffSuppressFunc "type" "old" "new"
            (triggerProperty "p1/t1/name1" "name1" "SECURE")).map Prod.fst =
          some (decide (expectedRecord (joinedKey p t
            ((triggerProperty "p1/t1/name1" "name1" "SECURE").Get "name")) "new" = "old")) :=
  DiffSuppressFunc_noninterference "type" "type" "old" "new"
    (triggerProperty "x/y" "a" "TEXT") (triggerProperty "" "b" "TEXT")
    (triggerProperty "p1/t1/name1" "name1" "SECURE")
    (triggerProperty "p1/t1/other/more" "name1" "SECURE")
    (by decide) (by decide) (by decide) (by decide) (by decide) (by decide)

/-! ## Read after a failed lookup -/

theorem is404_iff (response : Option core.DetailedResponse) :
    is404 response = true ↔ ∃ r, response = some r ∧ r.StatusCode = 404 := by
  cases response with
  | none => simp [is404]
  | some r => simp [is404]

/-- C22: in the Read of each of the five resources, with its client obtained and at
an id of the form of the resource (three parts for the trigger property, two for
the pipeline property, the Secrets Manager tool and the account settings, any id
for the SonarQube tool, whose Read does not split it), a lookup that fails with a
response of status code 404 sets the id to the empty string and returns no
diagnostics; a lookup that fails with any other response, or with none, returns
the error diagnostic and leaves the resource data, the id included, as it was. In
both cases the lookup is the only request. -/
theorem Read_lookup_failure (meta : conns.ClientSession) :
    (∀ response : Option core.DetailedResponse,
        is404 response = true ↔ ∃ r, response = some r ∧ r.StatusCode = 404) ∧
      (∀ (d : schema.ResourceData) (cs : List Call) (p t n : String) (rest : List String)
          (r : Option TriggerProperty) (response : Option core.DetailedResponse) (err : String),
        meta.ContinuousDeliveryPipelineV2.2 = none →
        flex.SepIdParts d.Id "/" = (p :: t :: n :: rest, none) →
        meta.ContinuousDeliveryPipelineV2.1.GetTektonPipelineTriggerPropertyWithContext
          { PipelineID := some p, TriggerID := some t, PropertyName := some n } =
            (r, response, some err) →
        ResourceIBMTektonPipelineTriggerPropertyRead meta { d := d, calls := cs } =
          (if is404 response then
            (some none, { d := d.SetId "", calls := cs ++ [Call.GetTektonPipelineTriggerProperty
              { PipelineID := some p, TriggerID := some t, PropertyName := some n }] })
          else
            (some (diag.FromErr
                (.Errorf "GetTektonPipelineTriggerPropertyWithContext failed %s\n%s"
                  [.err err, .response response])),
              { d := d, calls := cs ++ [Call.GetTektonPipelineTriggerProperty
                { PipelineID := some p, TriggerID := some t, PropertyName := some n }] }))) ∧
      (∀ (d : schema.ResourceData) (cs : List Call) (p n : String) (rest : List String)
          (r : Option Property) (response : Option core.DetailedResponse) (err : String),
        meta.ContinuousDeliveryPipelineV2.2 = none →
        flex.SepIdParts d.Id "/" = (p :: n :: rest, none) →
        meta.ContinuousDeliveryPipelineV2.1.GetTektonPipelinePropertyWithContext
          { PipelineID := some p, PropertyName := some n } = (r, response, some err) →
        ResourceIBMTektonPipelinePropertyRead meta { d := d, calls := cs } =
          (if is404 response then
            (some none, { d := d.SetId "", calls := cs ++ [Call.GetTektonPipelineProperty
              { PipelineID := some p, PropertyName := some n }] })
          else
            (some (diag.FromErr (.Errorf "GetTektonPipelinePropertyWithContext failed %s\n%s"
                [.err err, .response response])),
              { d := d, calls := cs ++ [Call.GetTektonPipelineProperty
                { PipelineID := some p, PropertyName := some n }] }))) ∧
      (∀ (d : schema.ResourceData) (cs : List Call) (p i : String) (rest : List String)
          (r : Option GetIntegrationByIdResponse) (response : Option core.DetailedResponse)
          (err : String),
        meta.ToolchainV2.2 = none →
        flex.SepIdParts d.Id "/" = (p :: i :: rest, none) →
        meta.ToolchainV2.1.GetIntegrationByIDWithContext
          { ToolchainID := some p, IntegrationID := some i } = (r, response, some err) →
        ResourceIbmToolchainToolSecretsmanagerRead meta { d := d, calls := cs } =
          (if is404 response then
            (some none, { d := d.SetId "", calls := cs ++ [Call.GetIntegrationByID
              { ToolchainID := some p, IntegrationID := some i }] })
          else
            (some (diag.FromErr (.Errorf "GetIntegrationByIDWithContext failed %s\n%s"
                [.err err, .response response])),
              { d := d, calls := cs ++ [Call.GetIntegrationByID
                { ToolchainID := some p, IntegrationID := some i }] }))) ∧
      (∀ (d : schema.ResourceData) (cs : List Call)
          (r : Option ServiceResponse) (response : Option core.DetailedResponse) (err : String),
        meta.IbmToolchainApiV2.2 = none →
        meta.IbmToolchainApiV2.1.GetServiceInstanceWithContext
          { ServiceInstanceID := some d.Id } = (r, response, some err) →
        ResourceIbmToolchainToolSonarqubeRead meta { d := d, calls := cs } =
          (if is404 response then
            (some none, { d := d.SetId "", calls := cs ++ [Call.GetServiceInstance
              { ServiceInstanceID := some d.Id }] })
          else
            (some (diag.FromErr (.Errorf "GetServiceInstanceWithContext failed %s\n%s"
                [.err err, .response response])),
              { d := d, calls := cs ++ [Call.GetServiceInstance
                { ServiceInstanceID := some d.Id }] }))) ∧
      (∀ (d : schema.ResourceData) (cs : List Call) (a b : String) (rest : List String)
          (r : Option AccountSettingsResponse) (response : Option core.DetailedResponse)
          (err : String),
        meta.IamIdentityV1.2 = none →
        idParts d.Id = (a :: b :: rest, none) →
        meta.IamIdentityV1.1.GetAccountSettingsWithContext
          { AccountID := some b, IncludeHistory := some (d.GetBool "include_history") } =
            (r, response, some err) →
        resourceIbmIamAccountSettingsRead meta { d := d, calls := cs } =
          (if is404 response then
            (some none, { d := d.SetId "", calls := cs ++ [Call.GetAccountSettings
              { AccountID := some b, IncludeHistory := some (d.GetBool "include_history") }] })
          else
            (some (diag.FromErr (.lib err)),
              { d := d, calls := cs ++ [Call.GetAccountSettings
                { AccountID := some b,
                  IncludeHistory := some (d.GetBool "include_history") }] }))) := by
  obtain ⟨⟨cd, e1⟩, ⟨tc, e2⟩, ⟨ia, e3⟩, ⟨im, e4⟩⟩ := meta
  refine ⟨is404_iff, ?_, ?_, ?_, ?_, ?_⟩
  · intro d cs p t n rest r response err hcd hparts h1
    simp only at hcd h1
    subst hcd
    simp only [ResourceIBMTektonPipelineTriggerPropertyRead, ↓bind_pure_apply, ↓pure_apply,
      ↓bind_dId, ↓bind_index, ↓bind_invoke, ↓bind_dSetId, ↓ite_run, hparts, h1,
      List.getElem?_cons_zero, List.getElem?_cons_succ,
      GetTektonPipelineTriggerPropertyOptions.SetPipelineID,
      GetTektonPipelineTriggerPropertyOptions.SetTriggerID,
      GetTektonPipelineTriggerPropertyOptions.SetPropertyName]
  · intro d cs p n rest r response err hcd hparts h2
    simp only at hcd h2
    subst hcd
    simp only [ResourceIBMTektonPipelinePropertyRead, ↓bind_pure_apply, ↓pure_apply,
      ↓bind_dId, ↓bind_index, ↓bind_invoke, ↓bind_dSetId, ↓ite_run, hparts, h2,
      List.getElem?_cons_zero, List.getElem?_cons_succ,
      GetTektonPipelinePropertyOptions.SetPipelineID,
      GetTektonPipelinePropertyOptions.SetPropertyName]
  · intro d cs p i rest r response err htc hparts h3
    simp only at htc h3
    subst htc
    simp only [ResourceIbmToolchainToolSecretsmanagerRead, ↓bind_pure_apply, ↓pure_apply,
      ↓bind_dId, ↓bind_index, ↓bind_invoke, ↓bind_dSetId, ↓ite_run, hparts, h3,
      List.getElem?_cons_zero, List.getElem?_cons_succ,
      GetIntegrationByIdOptions.SetToolchainID, GetIntegrationByIdOptions.SetIntegrationID]
  · intro d cs r response err hia h4
    simp only at hia h4
    subst hia
    simp only [ResourceIbmToolchainToolSonarqubeRead, ↓bind_pure_apply, ↓pure_apply,
      ↓bind_dId, ↓bind_invoke, ↓bind_dSetId, ↓ite_run, h4,
      GetServiceInstanceOptions.SetServiceInstanceID]
  · intro d cs a b rest r response err him hparts h5
    simp only at him h5
    subst him
    simp only [idParts] at hparts
    simp only [resourceIbmIamAccountSettingsRead, idParts, ↓bind_pure_apply, ↓pure_apply,
      ↓bind_dId, ↓bind_index, ↓bind_dGetBool, ↓bind_invoke, ↓bind_dSetId, ↓ite_run, hparts, h5,
      List.getElem?_cons_zero, List.getElem?_cons_succ,
      GetAccountSettingsOptions.SetAccountID, GetAccountSettingsOptions.SetIncludeHistory]

set_option maxRecDepth 100000 in
theorem Read_lookup_failure_witness :
    ResourceIBMTektonPipelineTriggerPropertyRead (failingSession (some { StatusCode := 404 }))
        { d := valueChanged, calls := [] } =
      (some none, { d := valueChanged.SetId "", calls := [Call.GetTektonPipelineTriggerProperty
        { PipelineID := some "p1", TriggerID := some "t1", PropertyName := some "name1" }] }) ∧
      ResourceIBMTektonPipelineTriggerPropertyRead (failingSession (some { StatusCode := 500 }))
        { d := valueChanged, calls := [] } =
      (some (diag.FromErr (.Errorf "GetTektonPipelineTriggerPropertyWithContext failed %s\n%s"
          [.err "not found", .response (some { StatusCode := 500 })])),
        { d := valueChanged, calls := [Call.GetTektonPipelineTriggerProperty
          { PipelineID := some "p1", TriggerID := some "t1", PropertyName := some "name1" }] }) ∧
      ResourceIBMTektonPipelinePropertyRead (failingSession (some { StatusCode := 404 }))
        { d := propertyValueChanged, calls := [] } =
      (some none, { d := propertyValueChanged.SetId "", calls := [Call.GetTektonPipelineProperty
        { PipelineID := some "p1", PropertyName := some "name1" }] }) ∧
      ResourceIbmToolchainToolSecretsmanagerRead (failingSession (some { StatusCode := 404 }))
        { d := { id := "tc1/i1", attrs := [("toolchain_id", "tc1")] }, calls := [] } =
      (some none,
        { d := { id := "", attrs := [("toolchain_id", "tc1")] },
          calls := [Call.GetIntegrationByID
            { ToolchainID := some "tc1", IntegrationID := some "i1" }] }) ∧
      ResourceIbmToolchainToolSonarqubeRead (failingSession (some { StatusCode := 404 }))
        { d := { id := "inst1", attrs := [("toolchain_id", "tc1")] }, calls := [] } =
      (some none,
        { d := { id := "", attrs := [("toolchain_id", "tc1")] },
          calls := [Call.GetServiceInstance { ServiceInstanceID := some "inst1" }] }) ∧
      ResourceIbmToolchainToolSonarqubeRead (failingSession (some { StatusCode := 503 }))
        { d := { id := "inst1", attrs := [("toolchain_id", "tc1")] }, calls := [] } =
      (some (diag.FromErr (.Errorf "GetServiceInstanceWithContext failed %s\n%s"
          [.err "not found", .response (some { StatusCode := 503 })])),
        { d := { id := "inst1", attrs := [("toolchain_id", "tc1")] },
          calls := [Call.GetServiceInstance { ServiceInstanceID := some "inst1" }] }) ∧
      resourceIbmIamAccountSettingsRead (failingSession none)
        { d := sessionChanged, calls := [] } =
      (some (diag.FromErr (.lib "not found")),
        { d := sessionChanged, calls := [Call.GetAccountSettings
          { AccountID := some "acc1",
            IncludeHistory := some (sessionChanged.GetBool "include_history") }] }) :=
  ⟨((Read_lookup_failure (failingSession (some { StatusCode := 404 }))).2.1 valueChanged []
      "p1" "t1" "name1" [] none (some { StatusCode := 404 }) "not found" rfl (by decide)
      rfl).trans rfl,
    ((Read_lookup_failure (failingSession (some { StatusCode := 500 }))).2.1 valueChanged []
      "p1" "t1" "name1" [] none (some { StatusCode := 500 }) "not found" rfl (by decide)
      rfl).trans rfl,
    ((Read_lookup_failure (failingSession (some { StatusCode := 404 }))).2.2.1
      propertyValueChanged [] "p1" "name1" [] none (some { StatusCode := 404 }) "not found" rfl
      (by decide) rfl).trans rfl,
    ((Read_lookup_failure (failingSession (some { StatusCode := 404 }))).2.2.2.1
      { id := "tc1/i1", attrs := [("toolchain_id", "tc1")] } [] "tc1" "i1" [] none
      (some { StatusCode := 404 }) "not found" rfl (by decide) rfl).trans rfl,
    ((Read_lookup_failure (failingSession (some { StatusCode := 404 }))).2.2.2.2.1
      { id := "inst1", attrs := [("toolchain_id", "tc1")] } [] none
      (some { StatusCode := 404 }) "not found" rfl rfl).trans rfl,
    ((Read_lookup_failure (failingSession (some { StatusCode := 503 }))).2.2.2.2.1
      { id := "inst1", attrs := [("toolchain_id", "tc1")] } [] none
      (some { StatusCode := 503 }) "not found" rfl rfl).trans rfl,
    ((Read_lookup_failure (failingSession none)).2.2.2.2.2
      sessionChanged [] "acc1" "acc1" [] none none "not found" rfl (by decide) rfl).trans rfl⟩

/-! ## The replace request of the pipeline-property Update -/

set_option maxHeartbeats 1600000 in
/-- C23: in `ResourceIBMTektonPipelinePropertyUpdate` with `pipeline_id` unchanged,
let `sel` be "the type is SINGLE_SELECT and options changed", `val` be "value
changed and not `sel`" and `pth` be "path changed". If one of them holds, the
first request is the replace request, it carries the options iff `sel`, the value
iff `val` and the path iff `pth` (with the id parts, the name and the type), and
only the lookup of Read may follow; if none holds the lookup of Read is the only
request. -/
theorem PropertyUpdate_replace_request (meta : conns.ClientSession) (d : schema.ResourceData)
    (p n : String) (rest : List String) (sel val pth : Bool)
    (hs : meta.ContinuousDeliveryPipelineV2.2 = none)
    (hp : flex.SepIdParts d.Id "/" = (p :: n :: rest, none))
    (h1 : d.HasChange "pipeline_id" = false)
    (hsel : sel = (d.Get "type" == "SINGLE_SELECT" && d.HasChange "options"))
    (hval : val = (d.HasChange "value" && !sel))
    (hpth : pth = d.HasChange "path") :
    ((sel || val || pth) = true →
        ∃ tail, (ResourceIBMTektonPipelinePropertyUpdate meta { d := d }).2.calls =
            Call.ReplaceTektonPipelineProperty
              { PipelineID := some p, PropertyName := some n, Name := some (d.Get "name"),
                Type_ := some (d.Get "type"),
                Options := if sel then some (d.GetMap "options") else none,
                Value := if val then some (d.Get "value") else none,
                Path := if pth then some (d.Get "path") else none } :: tail ∧
          (tail = [] ∨ tail = [Call.GetTektonPipelineProperty
            { PipelineID := some p, PropertyName := some n }])) ∧
      ((sel || val || pth) = false →
        (ResourceIBMTektonPipelinePropertyUpdate meta { d := d }).2.calls =
          [Call.GetTektonPipelineProperty { PipelineID := some p, PropertyName := some n }]) := by
  have hread := fun cs => PropertyRead_calls meta { d := d, calls := cs } p n rest hs hp
  obtain ⟨⟨cd, e⟩, tc, ia, im⟩ := meta
  simp only at hs
  subst hs
  subst hsel hval hpth
  simp only [ResourceIBMTektonPipelinePropertyUpdate, ↓bind_pure_apply, ↓pure_apply,
    ↓bind_dId, ↓bind_index, ↓bind_dGet, ↓bind_dGetMap, ↓bind_dHasChange, ↓bind_invoke,
    ↓reduceIte, ↓ite_run, hp, h1, Bool.false_eq_true, List.getElem?_cons_zero,
    List.getElem?_cons_succ,
    ReplaceTektonPipelinePropertyOptions.SetPipelineID,
    ReplaceTektonPipelinePropertyOptions.SetPropertyName,
    ReplaceTektonPipelinePropertyOptions.SetName,
    ReplaceTektonPipelinePropertyOptions.SetType,
    ReplaceTektonPipelinePropertyOptions.SetOptions,
    ReplaceTektonPipelinePropertyOptions.SetValue,
    ReplaceTektonPipelinePropertyOptions.SetPath]
  generalize (d.Get "type" == "SINGLE_SELECT") = b1
  generalize d.HasChange "options" = b2
  generalize d.HasChange "value" = b3
  generalize d.HasChange "path" = b4
  cases b1 <;> cases b2 <;> cases b3 <;> cases b4
  all_goals
    simp only [↓reduceIte, Bool.false_eq_true, Bool.and_true, Bool.and_false, Bool.true_and,
      Bool.false_and, Bool.or_true, Bool.or_false, Bool.true_or, Bool.false_or, Bool.not_true,
      Bool.not_false, Bool.and_self, Bool.or_self, hread, List.nil_append, forall_const,
      false_implies, true_implies, and_true, true_and, reduceCtorEq, imp_false, not_true_eq_false]
  all_goals
    generalize cd.ReplaceTektonPipelinePropertyWithContext _ = ans
    obtain ⟨r, resp, err⟩ := ans
    cases err <;> simp [bind_pure_apply, pure_apply, hread]

set_option maxRecDepth 100000 in
theorem PropertyUpdate_replace_request_witness :
    ∃ tail, (ResourceIBMTektonPipelinePropertyUpdate exampleSession
        { d := selectChanged }).2.calls =
        Call.ReplaceTektonPipelineProperty
          { PipelineID := some "p1", PropertyName := some "name1",
            Name := some (selectChanged.Get "name"), Type_ := some (selectChanged.Get "type"),
            Options := if true then some (selectChanged.GetMap "options") else none,
            Value := if false then some (selectChanged.Get "value") else none,
            Path := if false then some (selectChanged.Get "path") else none } :: tail ∧
      (tail = [] ∨ tail = [Call.GetTektonPipelineProperty
        { PipelineID := some "p1", PropertyName := some "name1" }]) :=
  (PropertyUpdate_replace_request exampleSession selectChanged "p1" "name1" [] true false false
    rfl (by decide) (by decide) (by decide) (by decide) (by decide)).1 rfl

/-! ## Conversion of the Secrets Manager parameters, there and back -/

theorem DynMap_get_nil (k : String) : DynMap.get [] k = Dyn.nil := rfl

theorem DynMap_get_cons (k k' : String) (v : Dyn) (l : DynMap) :
    DynMap.get ((k, v) :: l) k' = if k' = k then v else DynMap.get l k' := by
  unfold DynMap.get
  by_cases h : k' = k
  · subst h
    simp [List.lookup]
  · have hb : (k' == k) = false := by simpa using h
    simp [List.lookup, hb, h]

set_option maxHeartbeats 3200000 in
/-- C27: for a Terraform parameter map `m` whose values under name, region,
resource_group and instance_name are nil or strings,
`ResourceIbmToolchainToolSecretsmanagerMapToParameters` returns without error the
map that has, for each of these keys with a non-nil value, the key name, region,
resource-group, instance-name with a `*string` to the same string, and no other
key; `ResourceIbmToolchainToolSecretsmanagerParametersToMap` of that result
returns `m` restricted to the four keys with non-nil values, each value now the
`*string` to the same string, so with the same flat form as the restriction of
`m`. -/
theorem SecretsmanagerParameters_round_trip (m : DynMap)
    (hm : ∀ k ∈ secretsmanagerParameterFields,
      m.get k = Dyn.nil ∨ (m.get k).assertString.isSome = true) :
    ∃ r back,
      ResourceIbmToolchainToolSecretsmanagerMapToParameters m = some (r, none) ∧
      r = secretsmanagerParameterKeys.filterMap (fun e =>
        if m.get e.1 != Dyn.nil then some (e.2, Dyn.ofStringPtr (m.get e.1).assertString)
        else none) ∧
      (∀ e ∈ r, e.1 ∈ ["name", "region", "resource-group", "instance-name"]) ∧
      ResourceIbmToolchainToolSecretsmanagerParametersToMap r = some (back, none) ∧
      back = (restrictParameters m).map (fun e => (e.1, Dyn.ofStringPtr e.2.assertString)) ∧
      back.flat = (restrictParameters m).flat := by
  have hs : ∀ k ∈ secretsmanagerParameterFields, m.get k = Dyn.nil ∨ ∃ s, m.get k = Dyn.string s := by
    intro k hk
    rcases hm k hk with h | h
    · exact Or.inl h
    · cases hv : m.get k <;> simp [hv, Dyn.assertString] at h ⊢
  have h1 := hs "name" (by decide)
  have h2 := hs "region" (by decide)
  have h3 := hs "resource_group" (by decide)
  have h4 := hs "instance_name" (by decide)
  rcases h1 with h1 | ⟨s1, h1⟩ <;> rcases h2 with h2 | ⟨s2, h2⟩ <;>
    rcases h3 with h3 | ⟨s3, h3⟩ <;> rcases h4 with h4 | ⟨s4, h4⟩ <;>
    simp [ResourceIbmToolchainToolSecretsmanagerMapToParameters,
      ResourceIbmToolchainToolSecretsmanagerParametersToMap, restrictParameters,
      secretsmanagerParameterKeys, secretsmanagerParameterFields, h1, h2, h3, h4,
      Dyn.assertString, Dyn.ofStringPtr, DynMap.set, DynMap_get_nil, DynMap_get_cons,
      DynMap.flat, Dyn.flat] <;>
    tauto

theorem SecretsmanagerParameters_round_trip_witness :
    ∃ r back,
      ResourceIbmToolchainToolSecretsmanagerMapToParameters
        [("name", Dyn.string "sm"), ("resource_group", Dyn.string ""), ("other", Dyn.bool true)] =
          some (r, none) ∧
      r = secretsmanagerParameterKeys.filterMap (fun e =>
        if DynMap.get [("name", Dyn.string "sm"), ("resource_group", Dyn.string ""),
            ("other", Dyn.bool true)] e.1 != Dyn.nil then
          some (e.2, Dyn.ofStringPtr (DynMap.get [("name", Dyn.string "sm"),
            ("resource_group", Dyn.string ""), ("other", Dyn.bool true)] e.1).assertString)
        else none) ∧
      (∀ e ∈ r, e.1 ∈ ["name", "region", "resource-group", "instance-name"]) ∧
      ResourceIbmToolchainToolSecretsmanagerParametersToMap r = some (back, none) ∧
      back = (restrictParameters [("name", Dyn.string "sm"), ("resource_group", Dyn.string ""),
        ("other", Dyn.bool true)]).map (fun e => (e.1, Dyn.ofStringPtr e.2.assertString)) ∧
      back.flat = (restrictParameters [("name", Dyn.string "sm"),
        ("resource_group", Dyn.string ""), ("other", Dyn.bool true)]).flat :=
  SecretsmanagerParameters_round_trip
    [("name", Dyn.string "sm"), ("resource_group", Dyn.string ""), ("other", Dyn.bool true)]
    (by decide)

/-! ## The trigger converters -/

theorem ValueMap_lookup_set (m : ValueMap) (k k' : String) (v : Value) :
    (m.set k v).lookup k' = if k' = k then some v else m.lookup k' := by
  unfold ValueMap.set
  induction m with
  | nil =>
    by_cases h : k' = k
    · subst h
      simp [List.lookup]
    · have hb : (k' == k) = false := by simpa using h
      simp [List.lookup, hb, h]
  | cons e m ih =>
    obtain ⟨a, b⟩ := e
    by_cases hak : a = k
    · subst hak
      by_cases h : k' = a
      · subst h
        simpa [List.filter, List.lookup] using ih
      · have hb : (k' == a) = false := by simpa using h
        simpa [List.filter, List.lookup, hb, h] using ih
    · have hne : (a != k) = true := by simpa using hak
      by_cases h : k' = a
      · subst h
        simp [List.filter, hne, List.lookup, hak]
      · have hb : (k' == a) = false := by simpa using h
        simpa [List.filter, hne, List.lookup, hb] using ih

theorem lookup_setIfNotNil (m : ValueMap) (k k' : String) (c : Bool) (v : Value) :
    (setIfNotNil m k c v).lookup k' = if c = true ∧ k' = k then some v else m.lookup k' := by
  unfold setIfNotNil
  cases c <;> simp [ValueMap_lookup_set]

theorem setNested_ok {α : Type} (m : ValueMap) (k : String) (p : Option α)
    (conv : α → ValueMap × Option GoError) (hconv : ∀ a, (conv a).2 = none) :
    setNested m k p conv =
      .ok (setIfNotNil m k p.isSome (Value.maps (p.toList.map fun a => (conv a).1))) := by
  cases p with
  | none => rfl
  | some a =>
    have h := hconv a
    unfold setNested
    rcases hc : conv a with ⟨r, e⟩
    rw [hc] at h
    simp only at h
    subst h
    simp [hc, setIfNotNil]

theorem propertiesLoop_ok {α : Type} (conv : α → ValueMap × Option GoError)
    (hconv : ∀ a, (conv a).2 = none) (items : List α) (acc : List ValueMap) :
    propertiesLoop conv items acc = .ok (acc ++ items.map fun a => (conv a).1) := by
  induction items generalizing acc with
  | nil => simp [propertiesLoop]
  | cons a items ih =>
    have h := hconv a
    unfold propertiesLoop
    rcases hc : conv a with ⟨r, e⟩
    rw [hc] at h
    simp only at h
    subst h
    simp [ih, hc]

theorem setProperties_ok {α : Type} (m : ValueMap) (items : Option (List α))
    (conv : α → ValueMap × Option GoError) (hconv : ∀ a, (conv a).2 = none) :
    setProperties m items conv =
      .ok (setIfNotNil m "properties" items.isSome
        (Value.maps ((items.getD []).map fun a => (conv a).1))) := by
  cases items with
  | none => rfl
  | some items =>
    unfold setProperties
    simp only [propertiesLoop_ok conv hconv, List.nil_append]
    rfl

theorem Except_ok_bind {ε α β : Type} (a : α) (f : α → Except ε β) :
    (Except.ok a >>= f) = f a := rfl

/-- C21: `ResourceIBMTektonPipelineTriggerToMap` on a manual, scm, timer or generic
trigger (a pointer of that type, nil or not) is the result of the converter of that
variant; on a base `Trigger` it returns, without error, a map that has under each
key the field of that key when the field is not nil and no entry when it is nil,
and no other key; on a nil pointer to a base `Trigger` it dereferences nil; on any
other subtype, and on the nil interface, it returns no map and the error
"Unrecognized continuousdeliverypipelinev2.TriggerIntf subtype encountered". -/
theorem ResourceIBMTektonPipelineTriggerToMap_dispatch :
    (∀ p, ResourceIBMTektonPipelineTriggerToMap (.manual p) =
      ResourceIBMTektonPipelineTriggerManualTriggerToMap p) ∧
    (∀ p, ResourceIBMTektonPipelineTriggerToMap (.scm p) =
      ResourceIBMTektonPipelineTriggerScmTriggerToMap p) ∧
    (∀ p, ResourceIBMTektonPipelineTriggerToMap (.timer p) =
      ResourceIBMTektonPipelineTriggerTimerTriggerToMap p) ∧
    (∀ p, ResourceIBMTektonPipelineTriggerToMap (.generic p) =
      ResourceIBMTektonPipelineTriggerGenericTriggerToMap p) ∧
    (∀ model : Trigger, ∃ m : ValueMap,
      ResourceIBMTektonPipelineTriggerToMap (.base (some model)) = some (some m, none) ∧
      ∀ key, m.lookup key = ((nonNilFields model).lookup key).join) ∧
    ResourceIBMTektonPipelineTriggerToMap (.base none) = none ∧
    (∀ typeName, ResourceIBMTektonPipelineTriggerToMap (.other typeName) =
      some (none, some (.Errorf
        "Unrecognized continuousdeliverypipelinev2.TriggerIntf subtype encountered" []))) ∧
    ResourceIBMTektonPipelineTriggerToMap .nil =
      some (none, some (.Errorf
        "Unrecognized continuousdeliverypipelinev2.TriggerIntf subtype encountered" [])) := by
  refine ⟨fun _ => rfl, fun _ => rfl, fun _ => rfl, fun _ => rfl, ?_, rfl, fun _ => rfl, rfl⟩
  intro model
  obtain ⟨f1, f2, f3, f4, f5, f6, f7, f8, f9, f10, f11, f12, f13, f14, f15⟩ := model
  apply Exists.intro
  apply And.intro
  · simp only [ResourceIBMTektonPipelineTriggerToMap,
      setProperties_ok _ _ ResourceIBMTektonPipelineTriggerPropertiesItemToMap (fun _ => rfl),
      setNested_ok _ _ _ ResourceIBMTektonPipelineWorkerToMap (fun _ => rfl),
      setNested_ok _ _ _ ResourceIBMTektonPipelineTriggerConcurrencyToMap (fun _ => rfl),
      setNested_ok _ _ _ ResourceIBMTektonPipelineTriggerScmSourceToMap (fun _ => rfl),
      setNested_ok _ _ _ ResourceIBMTektonPipelineEventsToMap (fun _ => rfl),
      setNested_ok _ _ _ ResourceIBMTektonPipelineGenericSecretToMap (fun _ => rfl),
      Except_ok_bind, pure, Except.pure, toResult]
    exact rfl
  · intro key
    simp only [lookup_setIfNotNil]
    by_cases h1 : key = "type"
    · subst h1
      cases f1 <;> simp [nonNilFields, List.lookup]
    by_cases h2 : key = "name"
    · subst h2
      cases f2 <;> simp [nonNilFields, List.lookup]
    by_cases h3 : key = "event_listener"
    · subst h3
      cases f3 <;> simp [nonNilFields, List.lookup]
    by_cases h4 : key = "id"
    · subst h4
      cases f4 <;> simp [nonNilFields, List.lookup]
    by_cases h5 : key = "properties"
    · subst h5
      cases f5 <;> simp [nonNilFields, List.lookup]
    by_cases h6 : key = "tags"
    · subst h6
      cases f6 <;> simp [nonNilFields, List.lookup]
    by_cases h7 : key = "worker"
    · subst h7
      cases f7 <;> simp [nonNilFields, List.lookup]
    by_cases h8 : key = "concurrency"
    · subst h8
      cases f8 <;> simp [nonNilFields, List.lookup]
    by_cases h9 : key = "disabled"
    · subst h9
      cases f9 <;> simp [nonNilFields, List.lookup]
    by_cases h10 : key = "scm_source"
    · subst h10
      cases f10 <;> simp [nonNilFields, List.lookup]
    by_cases h11 : key = "events"
    · subst h11
      cases f11 <;> simp [nonNilFields, List.lookup]
    by_cases h12 : key = "service_instance_id"
    · subst h12
      cases f12 <;> simp [nonNilFields, List.lookup]
    by_cases h13 : key = "cron"
    · subst h13
      cases f13 <;> simp [nonNilFields, List.lookup]
    by_cases h14 : key = "timezone"
    · subst h14
      cases f14 <;> simp [nonNilFields, List.lookup]
    by_cases h15 : key = "secret"
    · subst h15
      cases f15 <;> simp [nonNilFields, List.lookup]
    have b1 : (key == "type") = false := by simpa using h1
    have b2 : (key == "name") = false := by simpa using h2
    have b3 : (key == "event_listener") = false := by simpa using h3
    have b4 : (key == "id") = false := by simpa using h4
    have b5 : (key == "properties") = false := by simpa using h5
    have b6 : (key == "tags") = false := by simpa using h6
    have b7 : (key == "worker") = false := by simpa using h7
    have b8 : (key == "concurrency") = false := by simpa using h8
    have b9 : (key == "disabled") = false := by simpa using h9
    have b10 : (key == "scm_source") = false := by simpa using h10
    have b11 : (key == "events") = false := by simpa using h11
    have b12 : (key == "service_instance_id") = false := by simpa using h12
    have b13 : (key == "cron") = false := by simpa using h13
    have b14 : (key == "timezone") = false := by simpa using h14
    have b15 : (key == "secret") = false := by simpa using h15
    simp only [nonNilFields, List.lookup, b1, b2, b3, b4, b5, b6, b7, b8, b9, b10, b11, b12, b13, b14, b15,
      h1, h2, h3, h4, h5, h6, h7, h8, h9, h10, h11, h12, h13, h14, h15, and_false, if_false]
    rfl

end TerraformIBM
